import Mathlib

/-!
# CCCaster: rollback / delay netplay synchronisation

A shallow embedding of the parts of `Messages.h` and `targets/DllMain.cpp`
that address frames, carry the redundant input window, compare sync hashes,
arbitrate `ChangeConfig` proposals, decide when the game state is rewound, wait for the
inputs of the peer, accept spectators and read the host configuration, and of the
polling loop of `lib/EventManager.cpp`.

Machine integers are natural numbers with explicit reduction modulo `2^32`
where the C++ arithmetic is done on `uint32_t`.

## Conventions

* The state of `struct DllMain` is the record `DllMain`; a function of the source is a
  function on that record.  What the code does to the outside (the snapshot provider,
  the sockets, the `NetplayManager`, the sync log) is appended to the trace `calls`.
* `NetplayManager`, `ProcessManager`, `ReplayManager`, the sockets and the input devices
  are not among the sources.  What `DllMain.cpp` reads of them in one frame step is a
  field of the environment `Env`; a method of `NetplayManager` that changes it is a
  `NetCall`, whose effect on the fields `DllMain.cpp` reads is given by `Env.net`.
* `Build` tells whether `RELEASE` and `DISABLE_LOGGING` are defined; the code between
  `#ifndef RELEASE` and `#endif` is run only when `release` is false.
* A failed `ASSERT` and a `THROW_EXCEPTION` leave the function (`Flow.thrown`).
* The overlay, the message boxes, the window focus, the sound effect filter and the
  plain `LOG` lines change nothing that is modelled and are left out.
* The input logs that the `NetplayManager` keeps are not among the sources either: the
  section on the input logs models them from the specification, and `NetCall.onLogs`
  tells what the input calls of `DllMain.cpp` do to them.
-/

namespace CCCaster

/-! ## Frame addressing -/

/-- Modelled from the spec: the `IndexedFrame` union, declared in `Constants.h`, which is
not among the sources.  It is the pair (`index`, `frame`); `Messages.h` reads both parts
as `uint32_t` through `indexedFrame.parts.index` and `indexedFrame.parts.frame`, and the
pair is also read as one ordering key, `indexedFrame.value`. -/
structure IndexedFrame where
  index : Nat
  frame : Nat
deriving DecidableEq, Repr

/-- Both parts of an `IndexedFrame` fit their `uint32_t` storage. -/
def IndexedFrame.valid (a : IndexedFrame) : Prop :=
  a.index < 2 ^ 32 ∧ a.frame < 2 ^ 32

instance (a : IndexedFrame) : Decidable a.valid := by
  unfold IndexedFrame.valid
  exact inferInstance

/-- Modelled from the spec: `IndexedFrame::value`, the packed ordering key in which
`index` is the more significant component.  Two `uint32_t` parts are packed, so the key
is the 64-bit number `index * 2^32 + frame`. -/
def IndexedFrame.value (a : IndexedFrame) : Nat :=
  (a.index % 2 ^ 32) * 2 ^ 32 + a.frame % 2 ^ 32

/-- `BaseInputs` of `Messages.h`: the frame stamp shared by `PlayerInputs` and
`BothInputs`. -/
structure BaseInputs where
  indexedFrame : IndexedFrame := ⟨0, 0⟩
deriving DecidableEq, Repr

/-- `BaseInputs::getIndex`. -/
def BaseInputs.getIndex (b : BaseInputs) : Nat := b.indexedFrame.index

/-- `BaseInputs::getFrame`. -/
def BaseInputs.getFrame (b : BaseInputs) : Nat := b.indexedFrame.frame

/-- `BaseInputs::getStartFrame`, with the constant `NUM_INPUTS` of `Constants.h` taken as
a parameter: `( frame + 1 < NUM_INPUTS ) ? 0 : frame + 1 - NUM_INPUTS` on `uint32_t`. -/
def BaseInputs.getStartFrame (NUM_INPUTS : Nat) (b : BaseInputs) : Nat :=
  if (b.indexedFrame.frame + 1) % 2 ^ 32 < NUM_INPUTS then 0
  else ((b.indexedFrame.frame + 1) % 2 ^ 32 + 2 ^ 32 - NUM_INPUTS) % 2 ^ 32

/-- `BaseInputs::getEndFrame`: `frame + 1` on `uint32_t`. -/
def BaseInputs.getEndFrame (b : BaseInputs) : Nat :=
  (b.indexedFrame.frame + 1) % 2 ^ 32

/-- `BaseInputs::size`: `getEndFrame() - getStartFrame()`, a `uint32_t` difference. -/
def BaseInputs.size (NUM_INPUTS : Nat) (b : BaseInputs) : Nat :=
  (b.getEndFrame + 2 ^ 32 - b.getStartFrame NUM_INPUTS) % 2 ^ 32

/-! ## Sync hashes -/

/-- Modelled from the spec: the `SyncHash` message, whose declaration is not among the
sources: a fingerprint of the simulation state tagged with an `IndexedFrame`. -/
structure SyncHash where
  indexedFrame : IndexedFrame
  fingerprint : Nat
deriving DecidableEq, Repr

/-- Modelled from the spec: `SyncHash::operator==`, not among the sources.  Two messages
are equal when they carry the same frame key and the same fingerprint. -/
def SyncHash.equals (a b : SyncHash) : Bool :=
  a.indexedFrame.value == b.indexedFrame.value && a.fingerprint == b.fingerprint

/-- How the comparison loop of `frameStepNormal` is left, with the two queues as they
are at that point. -/
inductive SyncOutcome where
  /-- The `while` loop ended, by its condition or by one of its two `break`s. -/
  | compared (localSync remoteSync : List SyncHash)
  /-- The fronts differed: `delayedStop ( "Desync!" )` is called and the step returns. -/
  | desync (localSync remoteSync : List SyncHash)
deriving DecidableEq, Repr

/-- The loop `while ( !localSync.empty() && !remoteSync.empty() )` of `frameStepNormal`
(DllMain.cpp:649-687); the fuel bounds the number of iterations of the outer loop and
`none` means that it ran out.  The two inner `while` loops are `List.dropWhile`. -/
def compareSyncLoop : Nat → List SyncHash → List SyncHash → Option SyncOutcome
  | 0, _, _ => none
  | _ + 1, [], rs => some (.compared [] rs)
  | _ + 1, l :: ls, [] => some (.compared (l :: ls) [])
  | fuel + 1, l :: ls, r :: rs =>
    -- while ( !remoteSync.empty() && L.indexedFrame.value > R.indexedFrame.value ) pop
    match (r :: rs).dropWhile (fun x => l.indexedFrame.value > x.indexedFrame.value) with
    | [] => some (.compared (l :: ls) [])
    | r2 :: rs2 =>
      -- while ( !localSync.empty() && R.indexedFrame.value > L.indexedFrame.value ) pop
      match (l :: ls).dropWhile (fun x => r2.indexedFrame.value > x.indexedFrame.value) with
      | [] => some (.compared [] (r2 :: rs2))
      | l2 :: ls2 =>
        if l2.equals r2 then compareSyncLoop fuel ls2 rs2
        else some (.desync (l2 :: ls2) (r2 :: rs2))

/-- The comparison loop run to its end: every iteration of the outer loop that goes on
pops a local entry, so `localSync.length + 1` iterations are enough
(`compareSyncLoop_isSome`). -/
def compareSync (localSync remoteSync : List SyncHash) : SyncOutcome :=
  match compareSyncLoop (localSync.length + 1) localSync remoteSync with
  | some o => o
  | none => .compared localSync remoteSync

/-- The pairs of fronts `( L, R )` on which the loop of `compareSyncLoop` evaluates
`L == R` (DllMain.cpp:667), in the order of the evaluations. -/
def comparedFronts : Nat → List SyncHash → List SyncHash → List (SyncHash × SyncHash)
  | 0, _, _ => []
  | _ + 1, [], _ => []
  | _ + 1, _ :: _, [] => []
  | fuel + 1, l :: ls, r :: rs =>
    match (r :: rs).dropWhile (fun x => l.indexedFrame.value > x.indexedFrame.value) with
    | [] => []
    | r2 :: rs2 =>
      match (l :: ls).dropWhile (fun x => r2.indexedFrame.value > x.indexedFrame.value) with
      | [] => []
      | l2 :: ls2 =>
        (l2, r2) :: (if l2.equals r2 then comparedFronts fuel ls2 rs2 else [])

/-- A queue of sync hashes in strictly increasing `IndexedFrame` order. -/
def SyncHash.Increasing (q : List SyncHash) : Prop :=
  q.Pairwise (fun a b => a.indexedFrame.value < b.indexedFrame.value)

instance (q : List SyncHash) : Decidable (SyncHash.Increasing q) := by
  unfold SyncHash.Increasing
  exact inferInstance

/-! ## The netplay manager and the messages -/

/-- The enum `NetplayState`, by the names `DllMain.cpp` uses. -/
inductive NetplayState where
  | Unknown | PreInitial | Initial | AutoCharaSelect | CharaSelect | Loading
  | Skippable | InGame | RetryMenu
deriving DecidableEq, Repr

/-- Modelled from the spec: the numeric value of a `NetplayState` (the enum declaration
is not among the sources), in the order of the life cycle
`PreInitial, Initial, AutoCharaSelect, CharaSelect, Loading, Skippable, InGame, RetryMenu`. -/
def NetplayState.value : NetplayState → Nat
  | .Unknown => 0
  | .PreInitial => 1
  | .Initial => 2
  | .AutoCharaSelect => 3
  | .CharaSelect => 4
  | .Loading => 5
  | .Skippable => 6
  | .InGame => 7
  | .RetryMenu => 8

/-- The values of the enum `ClientMode` that `DllMain.cpp` switches on. -/
inductive ClientModeValue where
  | Unknown | Host | Client | SpectateNetplay | SpectateBroadcast | Broadcast | Offline
deriving DecidableEq, Repr

/-- The `ClientMode` of a peer: its value and the two flags `DllMain.cpp` asks for. -/
structure ClientMode where
  value : ClientModeValue := .Unknown
  training : Bool := false
  versus : Bool := true
deriving DecidableEq, Repr

/-- `ClientMode::isHost`. -/
def ClientMode.isHost (m : ClientMode) : Bool := m.value == .Host

/-- `ClientMode::isClient`. -/
def ClientMode.isClient (m : ClientMode) : Bool := m.value == .Client

/-- Modelled from the spec: `ClientMode::isNetplay` (not among the sources), the two
roles that exchange inputs, host and client. -/
def ClientMode.isNetplay (m : ClientMode) : Bool := m.isHost || m.isClient

/-- Modelled from the spec: `ClientMode::isSpectate`, either spectator role. -/
def ClientMode.isSpectate (m : ClientMode) : Bool :=
  m.value == .SpectateNetplay || m.value == .SpectateBroadcast

/-- `ClientMode::isBroadcast`. -/
def ClientMode.isBroadcast (m : ClientMode) : Bool := m.value == .Broadcast

/-- `ClientMode::isOffline`. -/
def ClientMode.isOffline (m : ClientMode) : Bool := m.value == .Offline

/-- Modelled from the spec: `ClientMode::isLocal`, the roles without a remote player,
broadcast and offline. -/
def ClientMode.isLocal (m : ClientMode) : Bool := m.isBroadcast || m.isOffline

/-- `NetplayConfig` of `Messages.h`, with the `mode` that `DllMain.cpp` stores in it. -/
structure NetplayConfig where
  delay : Nat := 0xFF
  rollback : Nat := 0
  training : Nat := 0
  hostPlayer : Nat := 0
  broadcastPort : Nat := 0
  mode : ClientMode := {}
deriving DecidableEq, Repr

/-- `NetplayConfig::getOffset`. -/
def NetplayConfig.getOffset (c : NetplayConfig) : Nat :=
  if c.delay < c.rollback then 0 else c.delay - c.rollback

/-- What `DllMain.cpp` reads of the `NetplayManager`, whose class is not among the
sources: the public `config`, the state, the current frame and the last changed frame.
`internals` stands for everything else it holds (input logs, indices, RNG states). -/
structure NetplayManager where
  config : NetplayConfig := {}
  state : NetplayState := .Unknown
  indexedFrame : IndexedFrame := ⟨0, 0⟩
  lastChangedFrame : IndexedFrame := ⟨0, 0⟩
  /-- `netMan.initial.netplayState`. -/
  initialNetplayState : Nat := 0
  internals : Nat := 0
deriving DecidableEq, Repr

/-- `NetplayManager::getState`. -/
def NetplayManager.getState (n : NetplayManager) : NetplayState := n.state

/-- `NetplayManager::getIndexedFrame`. -/
def NetplayManager.getIndexedFrame (n : NetplayManager) : IndexedFrame := n.indexedFrame

/-- `NetplayManager::getIndex`. -/
def NetplayManager.getIndex (n : NetplayManager) : Nat := n.indexedFrame.index

/-- `NetplayManager::getFrame`. -/
def NetplayManager.getFrame (n : NetplayManager) : Nat := n.indexedFrame.frame

/-- `NetplayManager::getDelay`. -/
def NetplayManager.getDelay (n : NetplayManager) : Nat := n.config.delay

/-- `NetplayManager::getLastChangedFrame`. -/
def NetplayManager.getLastChangedFrame (n : NetplayManager) : IndexedFrame :=
  n.lastChangedFrame

/-- Modelled from the spec: `NetplayManager::isInGame`, the state is `InGame`. -/
def NetplayManager.isInGame (n : NetplayManager) : Bool := n.state == .InGame

/-- Modelled from the spec: `NetplayManager::isInRollback` (not among the sources):
rollback is enabled, that is the negotiated `rollback` is not 0 (`rollback=0` degrades
to pure delay-based netcode). -/
def NetplayManager.isInRollback (n : NetplayManager) : Bool := n.config.rollback != 0

/-- Modelled from the spec: `NetplayManager::setDelay`, which stores the new delay in
the configuration. -/
def NetplayManager.setDelay (n : NetplayManager) (delay : Nat) : NetplayManager :=
  { n with config := { n.config with delay := delay } }

/-- The `ChangeConfig` message: a delay proposal stamped with an `IndexedFrame`. -/
structure ChangeConfig where
  indexedFrame : IndexedFrame := ⟨0, 0⟩
  delay : Nat := 0xFF
deriving DecidableEq, Repr

/-- `PlayerInputs` of `Messages.h`: the last `NUM_INPUTS` inputs of one player. -/
structure PlayerInputs extends BaseInputs where
  inputs : List Nat := []
deriving DecidableEq, Repr

/-- `BothInputs` of `Messages.h`: the last `NUM_INPUTS` inputs of both players. -/
structure BothInputs extends BaseInputs where
  inputs1 : List Nat := []
  inputs2 : List Nat := []
deriving DecidableEq, Repr

/-- Sockets are told apart by the `Socket *` of the callbacks, a number; 0 is the null
pointer. -/
abbrev SocketId := Nat

/-- The messages `DllMain::readEvent` tells apart, with the fields it reads. -/
inductive Msg where
  /-- `VersionConfig`; `similar` is what `LocalVersion.similar` answers for it. -/
  | versionConfig (similar : Bool)
  | confirmConfig
  | ipAddrPort (port : Nat)
  | rngState (rngState : Nat)
  | syncHash (hash : SyncHash)
  | playerInputs (inputs : PlayerInputs)
  | menuIndex (index menuIndex : Nat)
  | changeConfig (config : ChangeConfig)
  | transitionIndex (index : Nat)
  | errorMessage (error : String)
  /-- `InitialGameState`; `known` tells that no `chara` or `moon` of it is
  `UNKNOWN_POSITION`. -/
  | initialGameState (known : Bool)
  | bothInputs (inputs : BothInputs)
  /-- `SpectateConfig`, sent in answer to a `VersionConfig`. -/
  | spectateConfig
  | other
deriving DecidableEq, Repr

/-- The calls to `NetplayManager` methods that change it and whose code is not among
the sources. -/
inductive NetCall where
  | updateFrame
  | clearLastChangedFrame
  | setState (state : NetplayState)
  | setInput (player input : Nat)
  /-- `assignInput ( player, input, frame )` with a frame of the current index. -/
  | assignInputFrame (player input frame : Nat)
  /-- `assignInput ( player, input, indexedFrame )`. -/
  | assignInput (player input : Nat) (indexedFrame : IndexedFrame)
  | setInputs (player : Nat) (inputs : PlayerInputs)
  | setBothInputs (inputs : BothInputs)
  | setRngState (rngState : Nat)
  | setRemoteRetryMenuIndex (menuIndex : Nat)
  | setRetryMenuIndex (index menuIndex : Nat)
  | setRemoteIndex (index : Nat)
  | setInitial
  | setRemotePlayer (player : Nat)
deriving DecidableEq, Repr

/-- What is done to the outside of `DllMain`, in the order it is done. -/
inductive Call where
  /-- `procMan.loadState ( target, netMan )`; `current` records
  `netMan.getIndexedFrame()` at the time of the call. -/
  | loadState (target current : IndexedFrame)
  | saveState
  | allocateStates
  | deallocateStates
  | setRngState (rngState : Nat)
  /-- `socket->send ( msg )`. -/
  | send (socket : SocketId) (msg : Msg)
  /-- `dataSocket->send ( netMan.getInputs ( localPlayer ) )`. -/
  | sendInputs
  /-- `dataSocket->send ( msgMenuIndex )`. -/
  | sendMenuIndex
  | disconnect (socket : SocketId)
  | ipcSend (msg : Msg)
  /-- `procMan.ipcSend ( netMan.config )`. -/
  | ipcSendConfig (config : NetplayConfig)
  | netMan (call : NetCall)
  /-- `EventManager::get().poll ( POLL_TIMEOUT )`. -/
  | poll
  /-- `EventManager::get().stop()`. -/
  | stopEvents
  /-- `LOG_SYNC` and `LOG_TO ( syncLog, ... )`. -/
  | logSync
  /-- `DllOverlayUi::showMessage`. -/
  | showMessage
  | clearInputs
  | frameStepSpectators
  | writeGameInput (player : Nat)
  /-- A failed `ASSERT` or a `THROW_EXCEPTION`. -/
  | thrown
deriving DecidableEq, Repr

/-! ## The state of `DllMain` and what it observes -/

/-- The application state `appState`. -/
inductive AppState where
  | Uninitialized | Polling | Stopping | Deinitialized
deriving DecidableEq, Repr

/-- The timers the `timerExpired` callback tells apart. -/
inductive TimerId where
  | resend | initial | stop | other
deriving DecidableEq, Repr

/-- The fields of `struct DllMain` (and of its bases `Main` and `SpectatorManager`) that
the modelled code reads or writes, the two game variables it writes, and the trace of
what it did to the outside. -/
structure DllMain where
  netMan : NetplayManager := {}
  clientMode : ClientMode := {}
  localPlayer : Nat := 1
  remotePlayer : Nat := 2
  dataSocket : SocketId := 0
  serverCtrlSocket : SocketId := 0
  serverDataSocket : SocketId := 0
  /-- `resendTimer` is set. -/
  resendTimer : Bool := false
  waitInputsTimer : Int := -1
  shouldSyncRngState : Bool := false
  fastFwdStopFrame : IndexedFrame := ⟨0, 0⟩
  /-- `initialTimer` is set. -/
  initialTimer : Bool := false
  /-- `stopTimer` is set: a delayed stop is scheduled. -/
  stopTimer : Bool := false
  localInputs0 : Nat := 0
  localInputs1 : Nat := 0
  localRetryMenuIndexSent : Bool := false
  lazyDisconnect : Bool := false
  shouldChangeDelayRollback : Bool := false
  changeConfig : ChangeConfig := {}
  clientServerAddr : Option Nat := none
  redirectedSockets : List SocketId := []
  /-- The pending sockets of the `SpectatorManager`. -/
  pendingSockets : List SocketId := []
  /-- The spectator sockets of the `SpectatorManager`. -/
  spectators : List SocketId := []
  roundOverTimer : Int := -1
  localSync : List SyncHash := []
  remoteSync : List SyncHash := []
  randomInputs : Bool := false
  randomDelay : Bool := false
  randomRollback : Bool := false
  rollUpTo : Nat := 10
  replayInputs : Bool := false
  /-- The `static bool doneSkipping` of `frameStepNormal`. -/
  doneSkipping : Bool := true
  /-- The game variable `*CC_SKIP_FRAMES_ADDR`. -/
  skipFrames : Nat := 0
  /-- The game variable `*CC_INTRO_STATE_ADDR`. -/
  introState : Nat := 0
  /-- `DllFrameRate::desiredFps`. -/
  desiredFps : Nat := 60
  appState : AppState := .Polling
  calls : List Call := []
deriving DecidableEq, Repr

/-- The build: whether `RELEASE` is defined, whether `DISABLE_LOGGING` is, and the
constant `NUM_INPUTS` of `Constants.h`, which is not among the sources. -/
structure Build where
  release : Bool := true
  disableLogging : Bool := false
  NUM_INPUTS : Nat := 15
deriving DecidableEq, Repr

/-- The game modes `gameModeChanged` tells apart (`CC_GAME_MODE_...`). -/
inductive GameMode where
  | zero | startup | opening | title | main | loadingDemo | highScores
  | charaSelect | loading | inGame | retry | other
deriving DecidableEq, Repr

/-- A change that `ChangeMonitor::get().check()` reports to `hasChanged`. -/
inductive Change where
  | introState (previous current : Nat)
  | gameMode (previous current : GameMode)
  | skippableFlag (previous current : Nat)
  | other
deriving DecidableEq, Repr

/-- A callback that `EventManager::poll` delivers while `frameStepNormal` waits.  The
accept, connect and IPC callbacks are not delivered in this model. -/
inductive Event where
  | readEvent (socket : SocketId) (msg : Option Msg)
  | timerExpired (timer : TimerId)
  /-- `disconnectEvent`; `fresh` is the socket a new `connectUDP` returns. -/
  | disconnectEvent (socket : SocketId) (fresh : SocketId)
deriving DecidableEq, Repr

/-- One call of `EventManager::get().poll ( POLL_TIMEOUT )`: the callbacks it delivers,
what it returns, and what the `NetplayManager` answers afterwards. -/
structure PollRound where
  events : List Event := []
  running : Bool := true
  /-- `netMan.isRemoteInputReady()` after this poll. -/
  remoteInputReady : Bool := true
  /-- `netMan.isRngStateReady ( shouldSyncRngState )` after this poll. -/
  rngStateReady : Bool := true

/-- What the replay manager `repMan` holds for the current frame. -/
structure ReplayFrame where
  /-- The two `ASSERT`s on the recorded game mode and state hold. -/
  consistent : Bool := true
  p1 : Nat := 0
  p2 : Nat := 0
  /-- `repMan.getRollbackTarget ( netMan.getIndexedFrame() )`. -/
  target : IndexedFrame := ⟨0, 0⟩
  /-- `repMan.getReinputs ( netMan.getIndexedFrame() )`: p1, p2, frame. -/
  reinputs : List (Nat × Nat × IndexedFrame) := []
  rngState : Option Nat := none

/-- What one frame step observes of the world outside `DllMain`: the code that is not
among the sources (`NetplayManager` methods, the snapshot provider `procMan`, the socket
state), the input devices and the pseudo-random numbers. -/
structure Env where
  /-- What a `NetplayManager` method does to what `DllMain` reads of it. -/
  net : NetCall → NetplayManager → NetplayManager := fun _ n => n
  /-- `procMan.loadState`: success, and the `NetplayManager` it leaves. -/
  loadState : IndexedFrame → NetplayManager → Bool × NetplayManager :=
    fun _ n => (false, n)
  /-- `dataSocket && dataSocket->isConnected()`. -/
  dataConnected : Bool := true
  overlayEnabled : Bool := false
  /-- `getInput` of the local player's controller, when there is one. -/
  localController : Option Nat := none
  /-- `getInput` of the remote player's controller, when there is one. -/
  remoteController : Option Nat := none
  ctrlDown : Bool := false
  /-- Digit key `'0' + delay` or its numpad key is pressed. -/
  digitPressed : Nat → Bool := fun _ => false
  f9Pressed : Bool := false
  f10Pressed : Bool := false
  f11Pressed : Bool := false
  f12Pressed : Bool := false
  spaceDown : Bool := false
  /-- `rand()` in `rand() % 30 == 0` of the random delay test. -/
  randDelayTrigger : Nat := 1
  /-- `rand()` in `changeConfig.delay = rand() % 10`. -/
  randDelayValue : Nat := 0
  /-- `rand()` in `1 + ( rand() % rollUpTo )`. -/
  randDistance : Nat := 0
  /-- The input the random input test builds with `COMBINE_INPUT`. -/
  randomInput : Nat := 0
  /-- `*CC_SKIPPABLE_FLAG_ADDR` is not 0. -/
  skippableFlag : Bool := false
  replay : ReplayFrame := {}
  /-- `netMan.getLocalRetryMenuIndex()` is not null. -/
  localRetryMenuIndex : Bool := false
  /-- `netMan.getRemoteIndexedFrame()`. -/
  remoteIndexedFrame : IndexedFrame := ⟨0, 0⟩
  /-- `netMan.getRemoteFrameDelta()`. -/
  remoteFrameDelta : Int := 0
  /-- `procMan.getRngState ( index )`, when not null. -/
  procRngState : Nat → Option Nat := fun _ => some 0
  /-- `netMan.getRngState()`, when not null. -/
  netRngState : Option Nat := none
  /-- The fingerprint `SyncHash ( indexedFrame )` computes. -/
  fingerprint : Nat := 0
  /-- `repMan.getLastIndex()` and `repMan.getLastFrame()`. -/
  replayLast : IndexedFrame := ⟨0, 0⟩
  /-- What `ChangeMonitor::get().check()` reports in `frameStep`. -/
  changes : List Change := []
  /-- The successive polls of the waiting loop. -/
  polls : List PollRound := []
  /-- `rand()` in `getRandomRedirectAddress`. -/
  rand : Nat := 0
  /-- `getRandomSpectatorAddress()` of the `SpectatorManager`, when not empty. -/
  randomSpectatorAddress : Option Nat := none
  /-- `newSocket->isConnected()` of an accepted socket. -/
  acceptedConnected : Bool := true
  /-- `address.port` of `Main`. -/
  addressPort : Nat := 0
  /-- The socket `SmartSocket::listenTCP` returns for a port. -/
  listenTCP : Nat → SocketId := fun _ => 1
  /-- The socket `SmartSocket::listenUDP` returns for a port. -/
  listenUDP : Nat → SocketId := fun _ => 2
  /-- The socket `SmartSocket::connectUDP` returns. -/
  connectUDP : SocketId := 3
  /-- `serverCtrlSocket->address.port` once the socket listens on a port. -/
  boundPort : Nat → Nat := fun port => port

/-! ### Assignments to the fields of `DllMain` -/

/-- The assignment `netMan.config = v`. -/
def DllMain.setConfig (d : DllMain) (v : NetplayConfig) : DllMain :=
  { d with netMan := { d.netMan with config := v } }

/-- The assignment `localPlayer = v`. -/
def DllMain.setLocalPlayer (d : DllMain) (v : Nat) : DllMain :=
  { d with localPlayer := v }

/-- The assignment `remotePlayer = v`. -/
def DllMain.setRemotePlayer (d : DllMain) (v : Nat) : DllMain :=
  { d with remotePlayer := v }

/-- The assignment `serverCtrlSocket = v`. -/
def DllMain.setServerCtrlSocket (d : DllMain) (v : SocketId) : DllMain :=
  { d with serverCtrlSocket := v }

/-- The assignment `serverDataSocket = v`. -/
def DllMain.setServerDataSocket (d : DllMain) (v : SocketId) : DllMain :=
  { d with serverDataSocket := v }

/-- The assignment `dataSocket = v`. -/
def DllMain.setDataSocket (d : DllMain) (v : SocketId) : DllMain :=
  { d with dataSocket := v }

/-- The assignment `resendTimer = v`. -/
def DllMain.setResendTimer (d : DllMain) (v : Bool) : DllMain :=
  { d with resendTimer := v }

/-- The assignment `waitInputsTimer = v`. -/
def DllMain.setWaitInputsTimer (d : DllMain) (v : Int) : DllMain :=
  { d with waitInputsTimer := v }

/-- The assignment `shouldSyncRngState = v`. -/
def DllMain.setShouldSyncRngState (d : DllMain) (v : Bool) : DllMain :=
  { d with shouldSyncRngState := v }

/-- The assignment `fastFwdStopFrame = v`. -/
def DllMain.setFastFwdStopFrame (d : DllMain) (v : IndexedFrame) : DllMain :=
  { d with fastFwdStopFrame := v }

/-- The assignment `initialTimer = v`. -/
def DllMain.setInitialTimer (d : DllMain) (v : Bool) : DllMain :=
  { d with initialTimer := v }

/-- The assignment `stopTimer = v`. -/
def DllMain.setStopTimer (d : DllMain) (v : Bool) : DllMain :=
  { d with stopTimer := v }

/-- The assignment `localInputs0 = v`. -/
def DllMain.setLocalInputs0 (d : DllMain) (v : Nat) : DllMain :=
  { d with localInputs0 := v }

/-- The assignment `localInputs1 = v`. -/
def DllMain.setLocalInputs1 (d : DllMain) (v : Nat) : DllMain :=
  { d with localInputs1 := v }

/-- The assignment `localRetryMenuIndexSent = v`. -/
def DllMain.setLocalRetryMenuIndexSent (d : DllMain) (v : Bool) : DllMain :=
  { d with localRetryMenuIndexSent := v }

/-- The assignment `lazyDisconnect = v`. -/
def DllMain.setLazyDisconnect (d : DllMain) (v : Bool) : DllMain :=
  { d with lazyDisconnect := v }

/-- The assignment `shouldChangeDelayRollback = v`. -/
def DllMain.setShouldChangeDelayRollback (d : DllMain) (v : Bool) : DllMain :=
  { d with shouldChangeDelayRollback := v }

/-- The assignment `changeConfig = v`. -/
def DllMain.setChangeConfig (d : DllMain) (v : ChangeConfig) : DllMain :=
  { d with changeConfig := v }

/-- The assignment `clientServerAddr = v`. -/
def DllMain.setClientServerAddr (d : DllMain) (v : Option Nat) : DllMain :=
  { d with clientServerAddr := v }

/-- The assignment `redirectedSockets = v`. -/
def DllMain.setRedirectedSockets (d : DllMain) (v : List SocketId) : DllMain :=
  { d with redirectedSockets := v }

/-- The assignment `pendingSockets = v`. -/
def DllMain.setPendingSockets (d : DllMain) (v : List SocketId) : DllMain :=
  { d with pendingSockets := v }

/-- The assignment `spectators = v`. -/
def DllMain.setSpectators (d : DllMain) (v : List SocketId) : DllMain :=
  { d with spectators := v }

/-- The assignment `roundOverTimer = v`. -/
def DllMain.setRoundOverTimer (d : DllMain) (v : Int) : DllMain :=
  { d with roundOverTimer := v }

/-- The assignment `localSync = v`. -/
def DllMain.setLocalSync (d : DllMain) (v : List SyncHash) : DllMain :=
  { d with localSync := v }

/-- The assignment `remoteSync = v`. -/
def DllMain.setRemoteSync (d : DllMain) (v : List SyncHash) : DllMain :=
  { d with remoteSync := v }

/-- The assignment `randomInputs = v`. -/
def DllMain.setRandomInputs (d : DllMain) (v : Bool) : DllMain :=
  { d with randomInputs := v }

/-- The assignment `randomDelay = v`. -/
def DllMain.setRandomDelay (d : DllMain) (v : Bool) : DllMain :=
  { d with randomDelay := v }

/-- The assignment `randomRollback = v`. -/
def DllMain.setRandomRollback (d : DllMain) (v : Bool) : DllMain :=
  { d with randomRollback := v }

/-- The assignment `replayInputs = v`. -/
def DllMain.setReplayInputs (d : DllMain) (v : Bool) : DllMain :=
  { d with replayInputs := v }

/-- The assignment `doneSkipping = v`. -/
def DllMain.setDoneSkipping (d : DllMain) (v : Bool) : DllMain :=
  { d with doneSkipping := v }

/-- The assignment `skipFrames = v`. -/
def DllMain.setSkipFrames (d : DllMain) (v : Nat) : DllMain :=
  { d with skipFrames := v }

/-- The assignment `introState = v`. -/
def DllMain.setIntroState (d : DllMain) (v : Nat) : DllMain :=
  { d with introState := v }

/-- The assignment `desiredFps = v`. -/
def DllMain.setDesiredFps (d : DllMain) (v : Nat) : DllMain :=
  { d with desiredFps := v }

/-- The assignment `appState = v`. -/
def DllMain.setAppState (d : DllMain) (v : AppState) : DllMain :=
  { d with appState := v }

/-- The call `netMan.setDelay ( delay )`. -/
def DllMain.setDelay (d : DllMain) (delay : Nat) : DllMain :=
  { d with netMan := d.netMan.setDelay delay }

/-- How a modelled function is left. -/
inductive Flow where
  /-- Control reached the end (or left the `switch`) and goes on. -/
  | next (d : DllMain)
  /-- The function executed `return`. -/
  | returned (d : DllMain)
  /-- A failed `ASSERT` or a `THROW_EXCEPTION` left the function. -/
  | thrown (d : DllMain)

/-- The state a function leaves. -/
def Flow.state : Flow → DllMain
  | .next d => d
  | .returned d => d
  | .thrown d => d

/-- The caller of a function that is left by `return` or at its end goes on with `k`;
an exception leaves the caller too. -/
def Flow.andThen (f : Flow) (k : DllMain → Flow) : Flow :=
  match f with
  | .thrown d => .thrown d
  | .next d => k d
  | .returned d => k d

/-- The statements `k` that follow a block `f` in the same function are run when the
block is left at its end, not when it returned or threw. -/
def Flow.bind (f : Flow) (k : DllMain → Flow) : Flow :=
  match f with
  | .next d => k d
  | .returned d => .returned d
  | .thrown d => .thrown d

/-- Adds a call to the trace. -/
def DllMain.push (d : DllMain) (c : Call) : DllMain :=
  { d with calls := d.calls ++ [c] }

/-- A call `netMan.method ( ... )` of a method whose code is not among the sources: the
environment tells what it does to the state, frame counters and internals; the
negotiated configuration is not renegotiated by it. -/
def DllMain.netCall (d : DllMain) (env : Env) (c : NetCall) : DllMain :=
  { d with netMan := { env.net c d.netMan with config := d.netMan.config },
           calls := d.calls ++ [Call.netMan c] }

/-- `DllMain::delayedStop`. -/
def delayedStop (d : DllMain) (error : String) : DllMain :=
  let d := if error ≠ "" then d.push (.ipcSend (.errorMessage error)) else d
  d.setStopTimer true

/-- `DllMain::netplayStateChanged`. -/
def netplayStateChanged (env : Env) (d : DllMain) (state : NetplayState) : Flow :=
  if d.netMan.getState = state then .thrown (d.push .thrown)
  else
    -- Leaving Skippable
    let d := if d.netMan.getState = .Skippable
      then ((d.setRoundOverTimer (-1)).setLazyDisconnect false) else d
    -- Entering InGame
    let d := if state = .InGame ∧ d.netMan.config.rollback ≠ 0
      then d.push .allocateStates else d
    -- Leaving InGame
    let d := if d.netMan.getState = .InGame ∧ d.netMan.config.rollback ≠ 0
      then d.push .deallocateStates else d
    -- Entering CharaSelect OR entering InGame
    let d := if d.clientMode.isOffline = false ∧ (state = .CharaSelect ∨ state = .InGame)
      then (d.setShouldSyncRngState true) else d
    let finish (d : DllMain) : Flow :=
      let d := d.netCall env (.setState state)
      .next (if env.dataConnected
        then d.push (.send d.dataSocket (.transitionIndex d.netMan.getIndex)) else d)
    -- Entering RetryMenu
    if state = .RetryMenu then
      finish ((d.setLazyDisconnect d.clientMode.isNetplay).setLocalRetryMenuIndexSent false)
    else if d.lazyDisconnect then
      let d := (d.setLazyDisconnect false)
      if env.dataConnected = false then .returned (delayedStop d "Disconnected!")
      else finish d
    else finish d

/-- `DllMain::startRoundOverCountDown`, with `ROLLBACK_ROUND_OVER_DELAY = 5`. -/
def startRoundOverCountDown (d : DllMain) : Flow :=
  if d.netMan.config.rollback > 0
  then .next (d.setRoundOverTimer ((d.netMan.config.rollback : Int) + 5))
  else .thrown (d.push .thrown)

/-- `DllMain::checkRoundOver`. -/
def checkRoundOver (env : Env) (d : DllMain) : Flow :=
  if ¬ (d.netMan.getState = .InGame ∧ env.skippableFlag = true) then
    if d.netMan.config.rollback > 0
    then .returned (d.setRoundOverTimer (-1))
    else .thrown (d.push .thrown)
  else
    netplayStateChanged env (d.setRoundOverTimer (-1)) .Skippable

/-- `DllMain::gameModeChanged`. -/
def gameModeChanged (build : Build) (env : Env) (d : DllMain)
    (previous current : GameMode) : Flow :=
  if current = .zero ∨ current = .startup ∨ current = .opening ∨ current = .title
      ∨ current = .main ∨ current = .loadingDemo
      ∨ (previous = .loadingDemo ∧ current = .inGame) ∨ current = .highScores then
    if d.netMan.getState = .PreInitial ∨ d.netMan.getState = .Initial
    then .returned d else .thrown (d.push .thrown)
  else if d.netMan.getState = .Initial
      ∧ (d.netMan.config.mode.isSpectate = true
          ∨ (build.release = false ∧ d.replayInputs = true))
      ∧ d.netMan.initialNetplayState > NetplayState.CharaSelect.value then
    netplayStateChanged env d .AutoCharaSelect
  else if current = .charaSelect then netplayStateChanged env d .CharaSelect
  else if current = .loading then netplayStateChanged env d .Loading
  else if current = .inGame then
    if d.netMan.config.mode.versus = true then netplayStateChanged env d .Skippable
    else netplayStateChanged env d .InGame
  else if current = .retry then netplayStateChanged env d .RetryMenu
  else .thrown (d.push .thrown)

/-- The two `DllMain::hasChanged` callbacks, for the variables `frameStep` monitors. -/
def hasChanged (build : Build) (env : Env) (d : DllMain) : Change → Flow
  | .introState previous current =>
    if previous = 2 ∧ current = 1 ∧ d.netMan.getState = .Skippable
    then netplayStateChanged env d .InGame else .next d
  | .gameMode previous current => gameModeChanged build env d previous current
  | .skippableFlag previous current =>
    if d.clientMode.training = true
        ∨ ¬ (previous = 0 ∧ current = 1 ∧ d.netMan.isInGame = true) then .next d
    else if d.netMan.config.rollback ≠ 0 then startRoundOverCountDown d
    else checkRoundOver env d
  | .other => .next d

/-- `ChangeMonitor::get().check()`: the changes are reported one after the other; a
callback that throws ends the check. -/
def monitorCheck (build : Build) (env : Env) : List Change → DllMain → Flow
  | [], d => .next d
  | c :: cs, d => (hasChanged build env d c).andThen (monitorCheck build env cs)

/-! ## Socket and timer callbacks -/

/-- Modelled from the spec: `SpectatorManager::pushSpectator` (not among the sources):
the pending socket becomes a spectator. -/
def pushSpectator (d : DllMain) (socket : SocketId) : DllMain :=
  (d.setPendingSockets (d.pendingSockets.filter (fun s => s != socket))).setSpectators
    (d.spectators ++ [socket])

/-- The first `switch` of `DllMain::readEvent`, on the message type: `some` when the
case returns, `none` when it leaves the `switch`. -/
def readEventAnyMode (build : Build) (env : Env) (d : DllMain) (socket : SocketId) :
    Msg → Option Flow
  | .versionConfig similar =>
    if similar = false then some (.returned (d.push (.disconnect socket)))
    else some (.returned (d.push (.send socket .spectateConfig)))
  | .confirmConfig => some (.returned d)
  | .ipAddrPort _ =>
    if socket = d.dataSocket ∨ socket ∉ d.pendingSockets then none
    else some (.returned (pushSpectator d socket))
  | .rngState r => some (.returned (d.netCall env (.setRngState r)))
  | .syncHash h =>
    if build.release then none
    else some (.returned (d.setRemoteSync (d.remoteSync ++ [h])))
  | _ => none

/-- The `case ClientMode::Client` of `DllMain::readEvent`, which the host falls into. -/
def readEventClient (env : Env) (d : DllMain) : Msg → Flow
  | .playerInputs inputs => .returned (d.netCall env (.setInputs d.remotePlayer inputs))
  | .menuIndex _ menuIndex => .returned (d.netCall env (.setRemoteRetryMenuIndex menuIndex))
  | .changeConfig config =>
    -- Only use the ChangeConfig if it is for a later frame than the current ChangeConfig.
    -- If for the same frame, then the host's ChangeConfig always takes priority.
    if config.indexedFrame.value > d.changeConfig.indexedFrame.value
        ∨ (config.indexedFrame.value = d.changeConfig.indexedFrame.value
            ∧ d.clientMode.isClient = true) then
      .returned ((d.setShouldChangeDelayRollback true).setChangeConfig config)
    else .returned d
  | .transitionIndex index => .returned (d.netCall env (.setRemoteIndex index))
  | .errorMessage error =>
    if d.lazyDisconnect then .returned d else .returned (delayedStop d error)
  | _ => .next d

/-- The spectator cases of `DllMain::readEvent`. -/
def readEventSpectate (env : Env) (d : DllMain) : Msg → Flow
  | .initialGameState known =>
    let d := d.netCall env .setInitial
    if known = false then .thrown (d.push .thrown)
    else (netplayStateChanged env d .Initial).andThen .returned
  | .bothInputs inputs => .returned (d.netCall env (.setBothInputs inputs))
  | .menuIndex index menuIndex =>
    .returned (d.netCall env (.setRetryMenuIndex index menuIndex))
  | .errorMessage error => .returned (delayedStop d error)
  | _ => .next d

/-- `DllMain::readEvent`. -/
def readEvent (build : Build) (env : Env) (d : DllMain) (socket : SocketId) :
    Option Msg → Flow
  | none => .returned d
  | some msg =>
    if socket ∈ d.redirectedSockets then .returned d
    else
      match readEventAnyMode build env d socket msg with
      | some f => f
      | none =>
        match d.clientMode.value with
        | .Host =>
          match msg with
          | .ipAddrPort port =>
            if socket = d.dataSocket then .returned (d.setClientServerAddr (some port))
            else readEventClient env d msg
          | _ => readEventClient env d msg
        | .Client => readEventClient env d msg
        | .SpectateNetplay => readEventSpectate env d msg
        | .SpectateBroadcast => readEventSpectate env d msg
        | _ => .next d

/-- `DllMain::timerExpired`, with `MAX_WAIT_INPUTS_INTERVAL / RESEND_INPUTS_INTERVAL`
equal to `10000 / 100`.  `SpectatorManager::timerExpired` is not among the sources. -/
def timerExpired (d : DllMain) (timer : TimerId) : DllMain :=
  if timer = .resend ∧ d.resendTimer = true then
    let d := d.push .sendInputs
    let d := (d.setWaitInputsTimer (d.waitInputsTimer + 1))
    if d.waitInputsTimer > 10000 / 100 then delayedStop d "Timed out!" else d
  else if timer = .initial ∧ d.initialTimer = true then
    ((delayedStop d "Disconnected!").setInitialTimer false)
  else if timer = .stop ∧ d.stopTimer = true then
    (d.setAppState .Stopping).push .stopEvents
  else d

/-- `DllMain::disconnectEvent`; removing a socket from the pending and the spectator
sets is modelled from the spec. -/
def disconnectEvent (d : DllMain) (socket fresh : SocketId) : Flow :=
  if socket = d.dataSocket then
    if d.netMan.getState = .PreInitial then .returned (d.setDataSocket fresh)
    else if d.lazyDisconnect then .returned d
    else .returned (delayedStop d "Disconnected!")
  else
    .next (((d.setRedirectedSockets (d.redirectedSockets.filter (fun s => s != socket))
      ).setPendingSockets (d.pendingSockets.filter (fun s => s != socket))
      ).setSpectators (d.spectators.filter (fun s => s != socket)))

/-- One callback. -/
def deliver (build : Build) (env : Env) (d : DllMain) : Event → Flow
  | .readEvent socket msg => readEvent build env d socket msg
  | .timerExpired timer => .next (timerExpired d timer)
  | .disconnectEvent socket fresh => disconnectEvent d socket fresh

/-- The callbacks of one poll, in order; a callback that throws ends the poll. -/
def deliverAll (build : Build) (env : Env) : List Event → DllMain → Flow
  | [], d => .next d
  | e :: es, d => (deliver build env d e).andThen (deliverAll build env es)

/-- How the waiting loop of `frameStepNormal` is left. -/
inductive WaitOutcome where
  /-- The loop was left by `break`: the step may go on. -/
  | ready (d : DllMain)
  /-- `poll` returned false: `appState = AppState::Stopping; return`. -/
  | stopped (d : DllMain)
  /-- A callback threw. -/
  | thrown (d : DllMain)
  /-- The polls of the environment are used up and the loop is still waiting. -/
  | waiting (d : DllMain)

/-- What the waiting loop does after one poll that returned true (DllMain.cpp:467-498):
`true` when the loop is left by `break`. -/
def afterPoll (p : PollRound) (d : DllMain) : DllMain × Bool :=
  -- Don't need to wait for anything in local modes
  if d.clientMode.isLocal = true ∨ d.lazyDisconnect = true then (d, true)
  -- Don't resend inputs in spectator mode
  else if d.clientMode.isSpectate = true then
    (d, p.remoteInputReady && p.rngStateReady)
  -- Stop resending inputs if we're ready
  else if p.remoteInputReady = true ∧ p.rngStateReady = true then
    ((d.setResendTimer false).setWaitInputsTimer (-1), true)
  -- Start resending inputs since we are waiting
  else if d.resendTimer = false then
    ((d.setResendTimer true).setWaitInputsTimer 0, false)
  else (d, false)

/-- The state the waiting loop leaves. -/
def WaitOutcome.state : WaitOutcome → DllMain
  | .ready d => d
  | .stopped d => d
  | .thrown d => d
  | .waiting d => d

/-- The loop `for ( ;; )` of `frameStepNormal` (DllMain.cpp:458-499), over the
successive polls of the environment. -/
def waitLoop (build : Build) (env : Env) : List PollRound → DllMain → WaitOutcome
  | [], d => .waiting d
  | p :: ps, d =>
    -- Poll until we are ready to run
    match deliverAll build env p.events (d.push .poll) with
    | .thrown d2 => .thrown d2
    | f =>
      if p.running = false then .stopped (f.state.setAppState .Stopping)
      else if (afterPoll p f.state).2 then .ready (afterPoll p f.state).1
      else waitLoop build env ps (afterPoll p f.state).1

/-! ## Accepting spectators and the host configuration -/

/-- Modelled from the spec: `SpectatorManager::numSpectators` (not among the sources),
the number of sockets in the spectator set. -/
def numSpectators (d : DllMain) : Nat := d.spectators.length

/-- Modelled from the spec: `SpectatorManager::pushPendingSocket` (not among the
sources): the accepted socket is pending until its `IpAddrPort` makes it a spectator. -/
def pushPendingSocket (d : DllMain) (socket : SocketId) : DllMain :=
  d.setPendingSockets (d.pendingSockets ++ [socket])

/-- The macro `SHOULD_REDIRECT_SPECTATORS`, with `MAX_SPECTATORS = 15` and
`MAX_ROOT_SPECTATORS = 1`. -/
def SHOULD_REDIRECT_SPECTATORS (d : DllMain) : Bool :=
  if d.clientMode.isSpectate then decide (numSpectators d ≥ 15)
  else decide (numSpectators d ≥ 1)

/-- `DllMain::getRandomRedirectAddress`; the empty `IpAddrPort` is `none`. -/
def getRandomRedirectAddress (env : Env) (d : DllMain) : Option Nat :=
  let r := env.rand % (1 + numSpectators d)
  if r = 0 ∧ d.clientServerAddr ≠ none then d.clientServerAddr
  else env.randomSpectatorAddress

/-- `DllMain::acceptEvent`; `newSocket` is the socket `accept` returns.  The
`VersionConfig` sent is the local one, which is similar to itself; `redirectedSockets`
is a set. -/
def acceptEvent (env : Env) (d : DllMain) (serverSocket newSocket : SocketId) : Flow :=
  if serverSocket = d.serverCtrlSocket then
    if newSocket = 0 ∨ env.acceptedConnected = false then .thrown (d.push .thrown)
    else
      let redirectAddr : Option Nat :=
        if SHOULD_REDIRECT_SPECTATORS d then getRandomRedirectAddress env d else none
      match redirectAddr with
      | none =>
        .next (pushPendingSocket (d.push (.send newSocket (.versionConfig true))) newSocket)
      | some addr =>
        .next (pushPendingSocket
          ((d.setRedirectedSockets (d.redirectedSockets.insert newSocket)).push
            (.send newSocket (.ipAddrPort addr))) newSocket)
  else if serverSocket = d.serverDataSocket ∧ d.dataSocket = 0 then
    let d := d.setDataSocket newSocket
    if newSocket = 0 ∨ env.acceptedConnected = false then .thrown (d.push .thrown)
    else (netplayStateChanged env d .Initial).andThen fun d => .next (d.setInitialTimer false)
  else
    -- Unexpected acceptEvent
    .returned (d.push (.disconnect newSocket))

/-- How the IPC callback is left. -/
inductive IpcOutcome where
  /-- The `switch` was left by `break`. -/
  | done (d : DllMain)
  /-- `THROW_EXCEPTION ( ..., ERROR_INVALID_HOST_CONFIG, ... )`. -/
  | invalidHostConfig (d : DllMain)
  /-- A failed `ASSERT`. -/
  | assertion (d : DllMain)
deriving DecidableEq, Repr

/-- The callback goes on with what follows a call that did not throw. -/
def Flow.ipc : Flow → IpcOutcome
  | .next d => .done d
  | .returned d => .done d
  | .thrown d => .assertion d

/-- Determine the player numbers (DllMain.cpp:1462-1473): the host plays `hostPlayer`,
its peer the other player. -/
def assignPlayers (env : Env) (d : DllMain) : DllMain :=
  let d := if d.clientMode.isHost
    then (d.setLocalPlayer d.netMan.config.hostPlayer).setRemotePlayer
      ((3 + 2 ^ 8 - d.netMan.config.hostPlayer) % 2 ^ 8)
    else (d.setRemotePlayer d.netMan.config.hostPlayer).setLocalPlayer
      ((3 + 2 ^ 8 - d.netMan.config.hostPlayer) % 2 ^ 8)
  d.netCall env (.setRemotePlayer d.remotePlayer)

/-- The sockets of a host and of a client, and the timer of the first connection
(DllMain.cpp:1475-1494). -/
def openSockets (env : Env) (d : DllMain) : DllMain :=
  let d := if d.clientMode.isHost
    then (d.setServerCtrlSocket (env.listenTCP env.addressPort)).setServerDataSocket
      (env.listenUDP env.addressPort)
    else if d.clientMode.isClient
    then (d.setServerCtrlSocket (env.listenTCP 0)).setDataSocket env.connectUDP
    else d
  d.setInitialTimer true

/-- The case `MsgType::NetplayConfig` of `DllMain::ipcReadEvent` (DllMain.cpp:1445-1534).
The session id, the writes to the game variables and the assembly hacks are left out. -/
def ipcReadEventNetplayConfig (env : Env) (d : DllMain) (msg : NetplayConfig) :
    IpcOutcome :=
  if d.netMan.config.delay ≠ 0xFF then .done d
  else
    let d := d.setConfig { msg with mode := d.clientMode }
    if d.netMan.config.delay = 0xFF then .invalidHostConfig d
    else if d.clientMode.isNetplay then
      if d.netMan.config.hostPlayer ≠ 1 ∧ d.netMan.config.hostPlayer ≠ 2
      then .invalidHostConfig d
      -- Wait for dataSocket to be connected before changing to NetplayState::Initial
      else .done (openSockets env (assignPlayers env d))
    else if d.clientMode.isBroadcast then
      if d.netMan.config.mode.isBroadcast = false then .assertion (d.push .thrown)
      else
        let d := d.setServerCtrlSocket (env.listenTCP d.netMan.config.broadcastPort)
        -- Update the broadcast port and send over IPC
        let d := d.setConfig
          { d.netMan.config with
            broadcastPort := env.boundPort d.netMan.config.broadcastPort }
        (netplayStateChanged env (d.push (.ipcSendConfig d.netMan.config)) .Initial).ipc
    else if d.clientMode.isOffline then
      if d.netMan.config.hostPlayer = 1 ∨ d.netMan.config.hostPlayer = 2 then
        let d := (d.setLocalPlayer d.netMan.config.hostPlayer).setRemotePlayer
          ((3 + 2 ^ 8 - d.netMan.config.hostPlayer) % 2 ^ 8)
        (netplayStateChanged env (d.netCall env (.setRemotePlayer d.remotePlayer))
          .Initial).ipc
      else .assertion (d.push .thrown)
    else .done d

/-- The state an IPC callback leaves. -/
def IpcOutcome.state : IpcOutcome → DllMain
  | .done d => d
  | .invalidHostConfig d => d
  | .assertion d => d

/-- The callback was left by the invalid host configuration error. -/
def IpcOutcome.isInvalidHostConfig : IpcOutcome → Bool
  | .invalidHostConfig _ => true
  | _ => false

/-- The state after `n` expiries of the resend timer in a row. -/
def resendExpiries : Nat → DllMain → DllMain
  | 0, d => d
  | n + 1, d => timerExpired (resendExpiries n d) .resend

/-- The call is `procMan.ipcSend ( new ErrorMessage ( error ) )`. -/
def Call.isError : Call → Bool
  | .ipcSend (.errorMessage _) => true
  | _ => false

/-! ## The frame step -/

/-- `procMan.loadState ( target, netMan )`: the call is recorded with the current frame,
the snapshot provider resets the `NetplayManager`, and the result tells whether it
succeeded. -/
def DllMain.loadState (d : DllMain) (env : Env) (target : IndexedFrame) : DllMain × Bool :=
  ({ d with netMan := { (env.loadState target d.netMan).2 with config := d.netMan.config },
            calls := d.calls ++ [Call.loadState target d.netMan.getIndexedFrame] },
   (env.loadState target d.netMan).1)

/-- The body of the `Ctrl + Number` branch and of the random delay test
(DllMain.cpp:238-242 and 260-264): a delay change is proposed for the current frame
and sent to the peer. -/
def proposeDelay (d : DllMain) (delay : Nat) : DllMain :=
  let d := (d.setShouldChangeDelayRollback true).setChangeConfig
    { d.changeConfig with indexedFrame := d.netMan.getIndexedFrame, delay := delay }
  d.push (.send d.dataSocket (.changeConfig d.changeConfig))

/-- `localInputs [ clientMode.isLocal() ? 1 : 0 ] = input`. -/
def DllMain.setTestInput (d : DllMain) (input : Nat) : DllMain :=
  if d.clientMode.isLocal then d.setLocalInputs1 input
  else d.setLocalInputs0 input

/-- `if ( roundOverTimer > 0 ) --roundOverTimer`. -/
def roundOverTick (d : DllMain) : Flow :=
  .next (if d.roundOverTimer > 0 then d.setRoundOverTimer (d.roundOverTimer - 1) else d)

/-- `case NetplayState::InGame` of `frameStepNormal`, before it falls through
(DllMain.cpp:175-187). -/
def inGameCase (env : Env) (d : DllMain) : Flow :=
  if d.netMan.config.rollback ≠ 0 then
    -- Only save rollback states in-game
    let d := d.push .saveState
    -- Delayed round over check
    if d.roundOverTimer = 0 then (checkRoundOver env d).andThen roundOverTick
    else roundOverTick d
  else .next d

/-- The fast forward of a spectator (DllMain.cpp:194-210). -/
def spectatorSkip (build : Build) (env : Env) (d : DllMain) : DllMain :=
  if d.clientMode.isSpectate = true ∧ d.netMan.getState ≠ .Loading then
    if d.doneSkipping = true
        ∧ env.remoteIndexedFrame.value > d.netMan.getIndexedFrame.value + build.NUM_INPUTS then
      (d.setSkipFrames 1).setDoneSkipping false
    else if d.doneSkipping = false ∧ d.skipFrames = 0 then d.setDoneSkipping true
    else d
  else d

/-- `if ( playerControllers[localPlayer - 1] ) localInputs[0] = getInput ( ... )`. -/
def readLocalController (env : Env) (d : DllMain) : DllMain :=
  match env.localController with
  | some input => d.setLocalInputs0 input
  | none => d

/-- The `Ctrl + Number` delay change (DllMain.cpp:228-246): the first digit from 0 to 9
that is not the current delay and is pressed. -/
def ctrlNumber (env : Env) (d : DllMain) : DllMain :=
  if env.ctrlDown then
    match (List.range 10).find?
        (fun delay => delay != d.netMan.getDelay && env.digitPressed delay) with
    | some delay => proposeDelay d delay
    | none => d
  else d

/-- The random delay test of a build without `RELEASE` (DllMain.cpp:251-265). -/
def randomDelayTest (env : Env) (d : DllMain) : DllMain :=
  let d := if env.f11Pressed
    then (d.setRandomDelay (!d.randomDelay)).push .showMessage else d
  if d.randomDelay = true ∧ env.randDelayTrigger % 30 = 0
  then proposeDelay d (env.randDelayValue % 10) else d

/-- Reading the input devices (DllMain.cpp:219-282): `none` when the client mode is
unknown and the `switch` is left. -/
def readDevices (build : Build) (env : Env) (d : DllMain) : Option DllMain :=
  if env.overlayEnabled then
    -- Overlay UI input
    some ((d.setLocalInputs0 0).setLocalInputs1 0)
  else if d.clientMode.isNetplay then
    -- Netplay input
    if build.release then some (ctrlNumber env (readLocalController env d))
    else some (randomDelayTest env (ctrlNumber env (readLocalController env d)))
  else if d.clientMode.isLocal then
    -- Local input
    some (readLocalController env d)
  else if d.clientMode.isSpectate then
    -- Spectator input
    some (if env.spaceDown then d.setSkipFrames 0 else d)
  else none

/-- The reinputs of a replayed rollback (DllMain.cpp:305-310). -/
def assignReinputs (env : Env) (d : DllMain) : DllMain :=
  env.replay.reinputs.foldl
    (fun d r => (d.netCall env (.assignInput 1 r.1 r.2.2)).netCall env
      (.assignInput 2 r.2.1 r.2.2)) d

/-- What follows a rollback that was asked for (DllMain.cpp:320-335, 543-555, 571-583):
after a `loadState` that succeeded fast-forwarding starts and the step returns. -/
def startFastForward (r : DllMain × Bool) : Flow :=
  if r.2 then
    -- Start fast-forwarding now
    .returned (((r.1.setSkipFrames 1).push .logSync).push .logSync)
  else .next (r.1.push .logSync)

/-- The RNG state of a replay (DllMain.cpp:337-345). -/
def replayRngState (env : Env) (d : DllMain) : DllMain :=
  if d.netMan.getFrame = 0
      ∧ (d.netMan.getState = .CharaSelect ∨ d.netMan.getState = .InGame) then
    match env.replay.rngState with
    | some r => d.push (.setRngState r)
    | none => d
  else d

/-- The rollback of a replay (DllMain.cpp:299-335), once the replayed inputs are set:
after a `loadState` that failed, `ASSERT_IMPOSSIBLE` throws. -/
def replayRollback (env : Env) (d : DllMain) : Flow :=
  -- Rollback
  if d.netMan.isInRollback = true
      ∧ env.replay.target.value < d.netMan.getIndexedFrame.value then
    -- Reinputs
    let d := assignReinputs env d
    -- Indicate we're re-running to the current frame
    let d := d.setFastFwdStopFrame d.netMan.getIndexedFrame
    -- Reset the game state (this resets game state AND netMan state)
    (startFastForward (d.loadState env env.replay.target)).bind
      fun d => .thrown (d.push .thrown)
  else .next (replayRngState env d)

/-- The replayed inputs and rollback (DllMain.cpp:286-348), reached when `replayInputs`
is set in a build without `RELEASE`; every path that does not return ends with `break`. -/
def replayBlock (env : Env) (d : DllMain) : Flow :=
  if env.replay.consistent = false then .thrown (d.push .thrown)
  else
    -- Inputs
    replayRollback env
      ((d.netCall env (.setInput 1 env.replay.p1)).netCall env (.setInput 2 env.replay.p2))

/-- The random input test (DllMain.cpp:350-383). -/
def randomInputTest (env : Env) (d : DllMain) : DllMain :=
  let d := if env.f12Pressed
    then ((d.setRandomInputs (!d.randomInputs)).setTestInput 0).push .showMessage
    else d
  if d.randomInputs then
    if (if d.netMan.isInRollback then decide (d.netMan.getFrame % 150 < 50)
        else decide (d.netMan.getFrame % 2 ≠ 0))
    then d.setTestInput env.randomInput else d
  else d

/-- Assigning the local player input (DllMain.cpp:386-395). -/
def assignLocalInput (build : Build) (env : Env) (d : DllMain) : DllMain :=
  if d.clientMode.isSpectate then d
  else if build.release = false ∧ d.netMan.isInRollback = true then
    d.netCall env (.assignInputFrame d.localPlayer d.localInputs0
      ((d.netMan.getFrame + d.netMan.getDelay) % 2 ^ 32))
  else d.netCall env (.setInput d.localPlayer d.localInputs0)

/-- The retry menu of a netplay peer (DllMain.cpp:400-422), which ends with `break`. -/
def retryMenuIndex (env : Env) (d : DllMain) : DllMain :=
  -- Lazy disconnect now once the retry menu option has been selected
  if env.localRetryMenuIndex = true ∧ env.dataConnected = false then
    if d.lazyDisconnect then delayedStop (d.setLazyDisconnect false) "Disconnected!" else d
  -- Only send retry menu index once
  else if env.localRetryMenuIndex = true ∧ d.localRetryMenuIndexSent = false then
    (d.setLocalRetryMenuIndexSent true).push .sendMenuIndex
  else d

/-- The input of the second local player (DllMain.cpp:426-432). -/
def assignRemoteInput (env : Env) (d : DllMain) : DllMain :=
  let d := match env.remoteController with
    | some input => if env.overlayEnabled then d else d.setLocalInputs1 input
    | none => d
  d.netCall env (.setInput d.remotePlayer d.localInputs1)

/-- The host or the broadcaster fixes the RNG state (DllMain.cpp:434-446). -/
def syncRngState (env : Env) (d : DllMain) : Flow :=
  if d.shouldSyncRngState = true
      ∧ (d.clientMode.isHost = true ∨ d.clientMode.isBroadcast = true) then
    match env.procRngState d.netMan.getIndex with
    | none => .thrown ((d.setShouldSyncRngState false).push .thrown)
    | some r =>
      let d := (d.setShouldSyncRngState false).netCall env (.setRngState r)
      .next (if d.clientMode.isHost then d.push (.send d.dataSocket (.rngState r)) else d)
  else .next d

/-- Sending the local input (DllMain.cpp:397-447), up to the `break` that ends the
case. -/
def sendLocalInput (env : Env) (d : DllMain) : Flow :=
  if d.clientMode.isNetplay then
    -- Special netplay retry menu behaviour
    if d.netMan.getState = .RetryMenu then .next (retryMenuIndex env d)
    else syncRngState env (d.push .sendInputs)
  else if d.clientMode.isLocal then syncRngState env (assignRemoteInput env d)
  else syncRngState env d

/-- The case shared by `CharaSelect`, `Loading`, `Skippable`, `RetryMenu` and, by falling
through, `InGame` (DllMain.cpp:189-448), once the input devices are read. -/
def commonCaseInputs (build : Build) (env : Env) (d : DllMain) : Flow :=
  if build.release = false ∧ d.replayInputs = true then replayBlock env d
  else if build.release then sendLocalInput env (assignLocalInput build env d)
  else sendLocalInput env (assignLocalInput build env (randomInputTest env d))

/-- The case shared by `CharaSelect`, `Loading`, `Skippable`, `RetryMenu` and, by falling
through, `InGame` (DllMain.cpp:189-448). -/
def commonCase (build : Build) (env : Env) (d : DllMain) : Flow :=
  if ¬ ((spectatorSkip build env d).localPlayer = 1
      ∨ (spectatorSkip build env d).localPlayer = 2) then
    .thrown ((spectatorSkip build env d).push .thrown)
  else
    match readDevices build env (spectatorSkip build env d) with
    | none => .next (spectatorSkip build env d)
    | some d => commonCaseInputs build env d

/-- The `switch ( netMan.getState().value )` of `frameStepNormal` (DllMain.cpp:166-453). -/
def inputPhase (build : Build) (env : Env) (d : DllMain) : Flow :=
  match d.netMan.getState with
  | .PreInitial => .next (d.setSkipFrames 1)
  | .Initial => .next (d.setSkipFrames 1)
  | .AutoCharaSelect => .next (d.setSkipFrames 1)
  | .InGame => (inGameCase env d).andThen (commonCase build env)
  | .CharaSelect => commonCase build env d
  | .Loading => commonCase build env d
  | .Skippable => commonCase build env d
  | .RetryMenu => commonCase build env d
  | .Unknown => .thrown (d.push .thrown)

/-- The target of a test rollback: the current frame moved back by `distance` frames,
not before frame 0 (DllMain.cpp:507-512 and 528-533). -/
def testTarget (current : IndexedFrame) (distance : Nat) : IndexedFrame :=
  if current.frame ≤ distance then { current with frame := 0 }
  else { current with frame := current.frame - distance }

/-- The one time rollback test (DllMain.cpp:504-515), on F9: the result of `loadState`
is not looked at. -/
def oneTimeRollbackTest (env : Env) (d : DllMain) : DllMain :=
  if env.f9Pressed = true ∧ d.netMan.isInGame = true
  then (d.loadState env (testTarget d.netMan.getIndexedFrame 30)).1 else d

/-- F10 switches the random rollback test on and off (DllMain.cpp:517-522). -/
def toggleRandomRollback (env : Env) (d : DllMain) : DllMain :=
  if env.f10Pressed
  then (d.setRandomRollback (!d.randomRollback)).push .showMessage else d

/-- The random rollback test (DllMain.cpp:524-556). -/
def randomRollbackTest (env : Env) (d : DllMain) : Flow :=
  if d.randomRollback = true ∧ d.netMan.isInGame = true ∧ d.netMan.getFrame % 150 < 50 then
    -- Indicate we're re-running to the current frame; reset the game state
    startFastForward ((d.setFastFwdStopFrame d.netMan.getIndexedFrame).loadState env
      (testTarget d.netMan.getIndexedFrame ((1 + env.randDistance % d.rollUpTo) % 2 ^ 32)))
  else .next d

/-- The rollback tests of a build without `RELEASE` (DllMain.cpp:501-558). -/
def testRollback (build : Build) (env : Env) (d : DllMain) : Flow :=
  if build.release = false ∧ d.replayInputs = false then
    randomRollbackTest env (toggleRandomRollback env (oneTimeRollbackTest env d))
  else .next d

/-- The rollback of `frameStepNormal` (DllMain.cpp:560-584). -/
def normalRollback (env : Env) (d : DllMain) : Flow :=
  -- Only rollback when necessary
  if d.netMan.isInRollback = true
      ∧ d.netMan.getLastChangedFrame.value < d.netMan.getIndexedFrame.value then
    -- Indicate we're re-running to the current frame
    -- Reset the game state (this resets game state AND netMan state)
    startFastForward ((d.setFastFwdStopFrame d.netMan.getIndexedFrame).loadState env
      d.netMan.getLastChangedFrame)
  else .next d

/-- Update the RngState if necessary (DllMain.cpp:586-608). -/
def applyRngState (env : Env) (d : DllMain) : DllMain :=
  if d.shouldSyncRngState then
    match env.netRngState with
    | some r => (d.setShouldSyncRngState false).push (.setRngState r)
    | none => d.setShouldSyncRngState false
  else d

/-- Update delay and/or rollback if necessary (DllMain.cpp:610-624). -/
def applyDelayChange (d : DllMain) : DllMain :=
  if d.shouldChangeDelayRollback then
    if d.changeConfig.delay ≠ 0xFF ∧ d.changeConfig.delay ≠ d.netMan.getDelay then
      ((((d.setShouldChangeDelayRollback false).push .showMessage).setDelay
        d.changeConfig.delay).push (.ipcSend (.changeConfig d.changeConfig)))
    else d.setShouldChangeDelayRollback false
  else d

/-- Updating the RNG state, applying a delay change and setting the frame rate
(DllMain.cpp:586-631). -/
def applyChanges (env : Env) (d : DllMain) : DllMain :=
  (applyDelayChange (applyRngState env d)).setDesiredFps
    (if env.remoteFrameDelta < 0 then 61 else 60)

/-- Sending the periodic sync hash (DllMain.cpp:634-646). -/
def sendSyncHash (env : Env) (d : DllMain) : DllMain :=
  if env.dataConnected = true
      ∧ (d.netMan.getFrame % (5 * 60) = 0 ∨ d.netMan.getFrame % 150 = 149)
      ∧ d.netMan.getState.value ≥ NetplayState.CharaSelect.value
      ∧ d.netMan.getState ≠ .Loading ∧ d.netMan.getState ≠ .Skippable
      ∧ d.netMan.getState ≠ .RetryMenu then
    -- Check for desyncs by periodically sending hashes
    if d.netMan.isInRollback = false ∨ d.netMan.getFrame = 0
        ∨ d.netMan.getFrame % 150 = 149 then
      (d.push (.send d.dataSocket (.syncHash ⟨d.netMan.getIndexedFrame, env.fingerprint⟩))
        ).setLocalSync (d.localSync ++ [⟨d.netMan.getIndexedFrame, env.fingerprint⟩])
    else d
  else d

/-- Comparing the sync hashes (DllMain.cpp:648-687): after a desync the step returns. -/
def compareSyncHashes (d : DllMain) : Flow :=
  match compareSync d.localSync d.remoteSync with
  | .compared l r => .next ((d.setLocalSync l).setRemoteSync r)
  | .desync l r =>
    .returned (((delayedStop (((d.setLocalSync l).setRemoteSync r).push .logSync)
      "Desync!").setRandomInputs false).setTestInput 0)

/-- The end of a replay (DllMain.cpp:692-699). -/
def replayEnd (env : Env) (d : DllMain) : Flow :=
  let d := if env.spaceDown = false ∧ d.replayInputs = true
      ∧ d.netMan.getIndex ≤ env.replayLast.index
    then d.setSkipFrames 1 else d
  .next (if d.netMan.getIndex = env.replayLast.index
            ∧ d.netMan.getFrame = env.replayLast.frame
         then d.setReplayInputs false else d)

/-- The sync hashes of a build without `RELEASE` (DllMain.cpp:633-700). -/
def syncCheck (build : Build) (env : Env) (d : DllMain) : Flow :=
  if build.release then .next d
  else (compareSyncHashes (sendSyncHash env d)).bind (replayEnd env)

/-- Logging the state of the frame, unless `DISABLE_LOGGING` (DllMain.cpp:705-739). -/
def logState (build : Build) (env : Env) (d : DllMain) : Flow :=
  if build.disableLogging then .next d
  else
    match env.procRngState 0 with
    | none => .thrown (d.push .thrown)
    | some _ =>
      -- Log state every frame
      if d.netMan.getState = .CharaSelect ∨ d.netMan.getState = .InGame
      then .returned ((d.push .logSync).push .logSync) else .next (d.push .logSync)

/-- The end of `frameStepNormal` (DllMain.cpp:586-740). -/
def finishStep (build : Build) (env : Env) (d : DllMain) : Flow :=
  (syncCheck build env (applyChanges env d)).bind (logState build env)

/-- How a frame step is left. -/
inductive StepOutcome where
  /-- The step ran to its end or returned. -/
  | finished (d : DllMain)
  /-- An `ASSERT` or a `THROW_EXCEPTION` left the step. -/
  | thrown (d : DllMain)
  /-- The polls of the environment are used up while the step waits for inputs. -/
  | waiting (d : DllMain)

/-- The state a frame step leaves. -/
def StepOutcome.state : StepOutcome → DllMain
  | .finished d => d
  | .thrown d => d
  | .waiting d => d

/-- A function that is left by `return` or at its end is finished. -/
def Flow.outcome : Flow → StepOutcome
  | .next d => .finished d
  | .returned d => .finished d
  | .thrown d => .thrown d

/-- `frameStepNormal` once the waiting loop is left: the rollback tests, the rollback and
the end of the step (DllMain.cpp:501-740). -/
def afterWait (build : Build) (env : Env) (d : DllMain) : Flow :=
  (testRollback build env d).bind fun d =>
    (normalRollback env d).bind (finishStep build env)

/-- `frameStepNormal` from the waiting loop on (DllMain.cpp:455-740). -/
def waitAndRun (build : Build) (env : Env) (d : DllMain) : StepOutcome :=
  -- Clear the last changed frame before we get new inputs
  match waitLoop build env env.polls (d.netCall env .clearLastChangedFrame) with
  | .ready d => (afterWait build env d).outcome
  | .stopped d => .finished d
  | .thrown d => .thrown d
  | .waiting d => .waiting d

/-- `DllMain::frameStepNormal`. -/
def frameStepNormal (build : Build) (env : Env) (d : DllMain) : StepOutcome :=
  match inputPhase build env d with
  | .next d => waitAndRun build env d
  | .returned d => .finished d
  | .thrown d => .thrown d

/-- `DllMain::frameStepRerun`. -/
def frameStepRerun (build : Build) (d : DllMain) : DllMain :=
  -- Stop fast-forwarding once we're reached the frame we want
  let d := if d.netMan.getIndexedFrame.value ≥ d.fastFwdStopFrame.value
    then d.setFastFwdStopFrame ⟨0, 0⟩ else d
  -- Disable FPS limit only while fast-forwarding
  let d := d.setSkipFrames (if d.fastFwdStopFrame.value ≠ 0 then 1 else 0)
  (if build.release = false ∧ d.replayInputs = true then d.setSkipFrames 1 else d).push
    .logSync

/-- Need to manually set the intro state to 0 during rollback (DllMain.cpp:770-772). -/
def clearIntroState (d : DllMain) : DllMain :=
  if d.netMan.isInGame = true ∧ d.netMan.getFrame > 224 ∧ d.introState ≠ 0
  then d.setIntroState 0 else d

/-- Perform the frame step (DllMain.cpp:774-778). -/
def performStep (build : Build) (env : Env) (d : DllMain) : StepOutcome :=
  if d.fastFwdStopFrame.value ≠ 0 then .finished (frameStepRerun build d)
  else frameStepNormal build env d

/-- Update spectators, write game inputs (DllMain.cpp:780-785). -/
def closeStep (d : DllMain) : DllMain :=
  ((d.push .frameStepSpectators).push (.writeGameInput d.localPlayer)).push
    (.writeGameInput d.remotePlayer)

/-- `DllMain::frameStep`, once the monitored variables are checked. -/
def frameStepBody (build : Build) (env : Env) (d : DllMain) : StepOutcome :=
  match performStep build env (clearIntroState d) with
  | .finished d => .finished (closeStep d)
  | o => o

/-- `DllMain::frameStep`. -/
def frameStep (build : Build) (env : Env) (d : DllMain) : StepOutcome :=
  -- New frame; check for changes to important variables for state transitions
  match monitorCheck build env env.changes
      ((d.netCall env .updateFrame).push .clearInputs) with
  | .thrown d => .thrown d
  | .next d => frameStepBody build env d
  | .returned d => frameStepBody build env d

/-- The frame steps of a session, one environment per step, for as long as they
finish; the step that throws or still waits ends the run. -/
def frameSteps (build : Build) : List Env → DllMain → StepOutcome
  | [], d => .finished d
  | env :: envs, d =>
    match frameStep build env d with
    | .finished d2 => frameSteps build envs d2
    | o => o

/-- The targets and current frames of the `loadState` calls of a trace. -/
def loadStateCalls (calls : List Call) : List (IndexedFrame × IndexedFrame) :=
  calls.filterMap fun c =>
    match c with
    | .loadState target current => some (target, current)
    | _ => none

/-- The call is a `procMan.loadState`. -/
def Call.isLoadState : Call → Bool
  | .loadState _ _ => true
  | _ => false

/-- What decides a rollback and what records one: the negotiated `rollback`, the
flag of the random rollback test, and the `loadState` calls made so far. -/
def DllMain.rollbackView (d : DllMain) : Nat × Bool × List (IndexedFrame × IndexedFrame) :=
  (d.netMan.config.rollback, d.randomRollback, loadStateCalls d.calls)

/-- What the fast forward is said to suppress: sending the input window, a `ChangeConfig`
or a `SyncHash`, saving a rollback state, polling for events, and writing to the sync
log. -/
def Call.isLive : Call → Bool
  | .sendInputs => true
  | .send _ (.changeConfig _) => true
  | .send _ (.syncHash _) => true
  | .saveState => true
  | .poll => true
  | .logSync => true
  | _ => false

/-- What decides whether a step re-runs a frame and what records that it was not quiet:
the stop frame of the fast forward and the live calls made so far. -/
def DllMain.liveView (d : DllMain) : IndexedFrame × List Call :=
  (d.fastFwdStopFrame, d.calls.filter Call.isLive)

/-! ## The event loop (`EventManager.cpp`) -/

/-- `UINT64_MAX`. -/
def UINT64_MAX : Nat := 2 ^ 64 - 1

/-- What `EventManager.cpp` reads and writes: `running`, the bits of `checkBitMask`, and
`getNow()` and `getNextExpiry()` of the `TimerManager`, which is not among the sources.
`clock` is the time in milliseconds that `updateNow` reads. -/
structure EventManager where
  running : Bool := true
  /-- `checkBitMask & CHECK_TIMERS`. -/
  checkTimers : Bool := true
  /-- `checkBitMask & CHECK_SOCKETS`. -/
  checkSockets : Bool := true
  /-- `checkBitMask & CHECK_CONTROLLERS`. -/
  checkControllers : Bool := true
  now : Nat := 0
  nextExpiry : Nat := UINT64_MAX
  clock : Nat := 0
deriving DecidableEq, Repr

/-- The managers that `EventManager.cpp` calls and whose code is not among the sources:
what their checks do to the state (callbacks may stop the loop and start timers, and
waiting lets the clock advance). -/
structure EventEnv where
  /-- `TimerManager::get().check()`. -/
  timerCheck : EventManager → EventManager := fun e => e
  /-- `SocketManager::get().check ( timeout )`. -/
  socketCheck : Nat → EventManager → EventManager := fun _ e => e
  /-- `ControllerManager::get().check()`. -/
  controllerCheck : EventManager → EventManager := fun e => e

/-- `TimerManager::get().updateNow()` (not among the sources): `now` becomes the time of
the clock. -/
def EventManager.updateNow (e : EventManager) : EventManager :=
  { e with now := e.clock }

/-- The timeout `checkEvents` goes on with after the timers are checked
(EventManager.cpp:23-24), in `uint64_t` arithmetic. -/
def socketTimeout (e : EventManager) (timeout : Nat) : Nat :=
  if e.nextExpiry ≠ UINT64_MAX then (e.nextExpiry + 2 ^ 64 - e.now) % 2 ^ 64 else timeout

/-- `EventManager::checkEvents`: the state it leaves and the timeouts it handed to
`SocketManager::check`, or `none` when `ASSERT ( timeout > 0 )` fails. -/
def checkEvents (env : EventEnv) (timeout : Nat) (e : EventManager) :
    Option (EventManager × List Nat) :=
  let e1 := if e.checkTimers then env.timerCheck e else e
  let timeout := if e.checkTimers then socketTimeout e1 timeout else timeout
  if e1.checkSockets = true ∧ timeout = 0 then none
  else
    let e2 := if e1.checkSockets then env.socketCheck timeout e1 else e1
    let e3 := if e2.checkControllers then env.controllerCheck e2 else e2
    some (e3, if e1.checkSockets then [timeout] else [])

/-- How `EventManager::poll` is left. -/
inductive PollOutcome where
  /-- It returned `result`; `timeouts` are the timeouts handed to the socket wait. -/
  | returned (result : Bool) (e : EventManager) (timeouts : List Nat)
  /-- An `ASSERT` failed. -/
  | assertion
  /-- The loop has not ended after the given number of rounds. -/
  | looping
deriving DecidableEq, Repr

/-- The loop `while ( now < end )` of `EventManager::poll`, for at most `fuel` rounds. -/
def pollLoop (env : EventEnv) (endTime : Nat) :
    Nat → Nat → EventManager → List Nat → PollOutcome
  | 0, _, _, _ => .looping
  | fuel + 1, now, e, timeouts =>
    if now < endTime then
      match checkEvents env (endTime - now) e with
      | none => .assertion
      | some (e, handed) =>
        if e.running = false then .returned false e (timeouts ++ handed)
        else pollLoop env endTime fuel e.updateNow.now e.updateNow (timeouts ++ handed)
    else .returned e.running e timeouts

/-- `EventManager::poll`, for at most `fuel` rounds of its loop. -/
def poll (env : EventEnv) (fuel : Nat) (timeout : Nat) (e : EventManager) : PollOutcome :=
  if e.running = false then .returned false e []
  else if timeout = 0 then .assertion
  else pollLoop env ((e.updateNow.now + timeout) % 2 ^ 64) fuel e.updateNow.now e.updateNow []

/-! ## The input logs -/

/-- Modelled from the spec: the Input Log of one player, a sparse mapping from the
frames of each transition index to input values. -/
def InputLog : Type := Nat → Nat → Option Nat

/-- Modelled from the spec: the input of one frame is assigned, replacing what the log
held for that frame. -/
def InputLog.assign (log : InputLog) (index frame input : Nat) : InputLog :=
  fun i f => if i = index ∧ f = frame then some input else log i f

/-- Modelled from the spec: the input a window holds for a frame.  The window stands for
the frames `[getStartFrame, getEndFrame)` and its `NUM_INPUTS` entries end with the input
of the last frame: a window of fewer real frames is padded at the front. -/
def PlayerInputs.inputAt (NUM_INPUTS : Nat) (w : PlayerInputs) (frame : Nat) : Option Nat :=
  if w.getStartFrame NUM_INPUTS ≤ frame ∧ frame < w.getEndFrame then
    w.inputs[frame + NUM_INPUTS - w.getEndFrame]?
  else none

/-- Modelled from the spec: `mergeWindow`, what `NetplayManager::setInputs` (not among
the sources) does to the log of the player: every frame of the window gets the input the
window holds for it, the other frames keep theirs. -/
def InputLog.mergeWindow (NUM_INPUTS : Nat) (log : InputLog) (w : PlayerInputs) : InputLog :=
  fun i f =>
    match (if i = w.getIndex then w.inputAt NUM_INPUTS f else none) with
    | some input => some input
    | none => log i f

/-- The logs of the players, by player number. -/
def InputLogs : Type := Nat → InputLog

/-- The log of one player is replaced. -/
def InputLogs.set (logs : InputLogs) (player : Nat) (log : InputLog) : InputLogs :=
  fun p => if p = player then log else logs p

/-- Modelled from the spec: what the input calls of the `NetplayManager` (not among the
sources) do to the input logs: `setInput` assigns the input at the current frame plus
the delay, `assignInput` at the frame it is given, `setInputs` merges a window. -/
def NetCall.onLogs (NUM_INPUTS : Nat) (netMan : NetplayManager) (logs : InputLogs) :
    NetCall → InputLogs
  | .setInput player input =>
    logs.set player ((logs player).assign netMan.getIndex
      ((netMan.getFrame + netMan.getDelay) % 2 ^ 32) input)
  | .assignInputFrame player input frame =>
    logs.set player ((logs player).assign netMan.getIndex frame input)
  | .assignInput player input indexedFrame =>
    logs.set player ((logs player).assign indexedFrame.index indexedFrame.frame input)
  | .setInputs player inputs =>
    logs.set player ((logs player).mergeWindow NUM_INPUTS inputs)
  | _ => logs

/-- Modelled from the spec: `NetplayManager::getInput` (not among the sources), the
input the simulation uses for the current frame. -/
def NetplayManager.getInput (netMan : NetplayManager) (logs : InputLogs) (player : Nat) :
    Option Nat :=
  logs player netMan.getIndex netMan.getFrame

/-- Two windows agree on the frames they share: when they are of the same transition
index, no frame has an input in both that differs. -/
def PlayerInputs.Agree (NUM_INPUTS : Nat) (a b : PlayerInputs) : Prop :=
  a.getIndex = b.getIndex →
    ∀ frame < a.getEndFrame, a.inputAt NUM_INPUTS frame = none
      ∨ b.inputAt NUM_INPUTS frame = none
      ∨ a.inputAt NUM_INPUTS frame = b.inputAt NUM_INPUTS frame

instance (NUM_INPUTS : Nat) (a b : PlayerInputs) :
    Decidable (PlayerInputs.Agree NUM_INPUTS a b) := by
  unfold PlayerInputs.Agree
  infer_instance

/-! ## Example states -/

/-- The local queue 0:1, 0:5, to be compared with the remote queue 0:3. -/
def spuriousLocalSync : List SyncHash := [⟨⟨0, 1⟩, 7⟩, ⟨⟨0, 5⟩, 8⟩]

/-- The remote queue 0:3. -/
def spuriousRemoteSync : List SyncHash := [⟨⟨0, 3⟩, 9⟩]

/-- A host at frame 1:10. -/
def tieHost : DllMain :=
  { clientMode := { value := .Host }, netMan := { indexedFrame := ⟨1, 10⟩ } }

/-- A client at frame 1:10. -/
def tieClient : DllMain :=
  { clientMode := { value := .Client }, netMan := { indexedFrame := ⟨1, 10⟩ } }

/-- The maximal `IndexedFrame`, `MaxIndexedFrame`. -/
def maxIndexedFrame : IndexedFrame := ⟨2 ^ 32 - 1, 2 ^ 32 - 1⟩

/-- A host in game at frame `1:frame`, with delay 2 and the given rollback; its data
socket is socket 7. -/
def rollbackPeer (rollback frame : Nat) : DllMain :=
  { netMan := { config := { delay := 2, rollback := rollback, hostPlayer := 1,
                            mode := { value := .Host } },
                state := .InGame, indexedFrame := ⟨1, frame⟩ },
    clientMode := { value := .Host }, dataSocket := 7 }

/-- A frame step during which the inputs of the peer arrive in the first poll and
change the input of frame `last`: `clearLastChangedFrame` sets the last changed frame to
`MaxIndexedFrame`, `setInputs` sets it to `last`, and `loadState` succeeds and moves the
current frame to its target. -/
def lateInputEnv (last : IndexedFrame) : Env :=
  { net := fun c n =>
      match c with
      | .clearLastChangedFrame => { n with lastChangedFrame := maxIndexedFrame }
      | .setInputs _ _ => { n with lastChangedFrame := last }
      | _ => n,
    loadState := fun target n => (true, { n with indexedFrame := target }),
    polls := [{ events := [.readEvent 7 (some (.playerInputs {}))] }] }

/-- A frame step during which F9 is pressed, no input changes and the first poll finds
the inputs ready; `loadState` succeeds and moves the current frame to its target. -/
def f9Env : Env :=
  { net := fun c n =>
      match c with
      | .clearLastChangedFrame => { n with lastChangedFrame := maxIndexedFrame }
      | _ => n,
    loadState := fun target n => (true, { n with indexedFrame := target }),
    f9Pressed := true, polls := [{}] }

/-- A build without `RELEASE`. -/
def debugBuild : Build := { release := false }

/-- Like `lateInputEnv`, but the snapshot provider holds no state for the frame `last`
any more: `loadState` fails and leaves the `NetplayManager` as it is. -/
def staleInputEnv (last : IndexedFrame) : Env :=
  { net := fun c n =>
      match c with
      | .clearLastChangedFrame => { n with lastChangedFrame := maxIndexedFrame }
      | .setInputs _ _ => { n with lastChangedFrame := last }
      | _ => n,
    loadState := fun _ n => (false, n),
    polls := [{ events := [.readEvent 7 (some (.playerInputs {}))] }] }

/-- A client connected to its peer by socket 7. -/
def clientPeer : DllMain :=
  { clientMode := { value := .Client }, dataSocket := 7 }

/-- A poll after which the inputs of the peer are still missing. -/
def notReadyPoll : PollRound := { remoteInputReady := false }

/-- A host in game that waits for inputs, with redirected, pending and spectator
sockets; it listens for spectators on socket 3. -/
def relayPeer : DllMain :=
  { clientMode := { value := .Host }, dataSocket := 7, serverCtrlSocket := 3,
    redirectedSockets := [4, 5], pendingSockets := [5, 6], spectators := [5, 8],
    resendTimer := true, waitInputsTimer := 3,
    netMan := { config := { delay := 2, hostPlayer := 1, mode := { value := .Host } },
                state := .InGame, indexedFrame := ⟨1, 10⟩ } }

/-- A host without spectators that listens for them on socket 3. -/
def listeningHost : DllMain :=
  { clientMode := { value := .Host }, dataSocket := 7, serverCtrlSocket := 3 }

/-- A spectator that relays to 14 spectators of its own, the sockets 10 to 23, and
listens for more on socket 3. -/
def relaySpectator : DllMain :=
  { clientMode := { value := .SpectateNetplay }, serverCtrlSocket := 3,
    spectators := (List.range 14).map (fun s => s + 10) }

/-- A broadcasting peer in game with one spectator, socket 5; it listens for spectators
on socket 3. -/
def broadcastPeer : DllMain :=
  { clientMode := { value := .Broadcast }, serverCtrlSocket := 3, spectators := [5],
    netMan := { config := { delay := 2, hostPlayer := 1, mode := { value := .Broadcast } },
                state := .InGame } }

/-- The spectator manager answers with the address of a spectator, port 4000. -/
def redirectEnv : Env := { rand := 1, randomSpectatorAddress := some 4000 }

/-- A host that has not received its `NetplayConfig` yet. -/
def unconfiguredHost : DllMain := { clientMode := { value := .Host } }

/-- A host configuration with delay 2 in which the host is player 1. -/
def hostConfig : NetplayConfig := { delay := 2, hostPlayer := 1 }

/-- The state `EventManager::poll` finds while the resend timer runs: the time is 1000
and the timer expires at 1100. -/
def resendTimerEvents : EventManager := { now := 1000, clock := 1000, nextExpiry := 1100 }

/-- No timer expires and no socket has anything to read: the socket wait lasts for the
whole timeout it is given. -/
def quietEventEnv : EventEnv :=
  { socketCheck := fun timeout e => { e with clock := e.clock + timeout } }

/-- A host at frame 1:10 with delay 2 and no rollback, whose local input is 0x21. -/
def inputPeer : DllMain := { rollbackPeer 0 10 with localInputs0 := 0x21 }

/-- The log that holds no input. -/
def emptyLog : InputLog := fun _ _ => none

/-- The window of the frames 1:3 to 1:5, for `NUM_INPUTS = 3`. -/
def windowA : PlayerInputs := { indexedFrame := ⟨1, 5⟩, inputs := [10, 11, 12] }

/-- The window of the frames 1:4 to 1:6, for `NUM_INPUTS = 3`. -/
def windowB : PlayerInputs := { indexedFrame := ⟨1, 6⟩, inputs := [11, 12, 13] }

/-- A peer that re-runs the frames up to frame 1:23 after a rollback and is at the frame
`1:frame`. -/
def rerunPeer (frame : Nat) : DllMain :=
  { rollbackPeer 5 frame with fastFwdStopFrame := ⟨1, 23⟩, skipFrames := 1 }

/-- A host with rollback 5 at frame 1:23 that has learnt that the input of frame 1:20
changed. -/
def lateInputPeer : DllMain :=
  { rollbackPeer 5 23 with
    netMan := { (rollbackPeer 5 23).netMan with lastChangedFrame := ⟨1, 20⟩ } }

/-- A configuration whose rollback 5 is larger than its delay 2. -/
def deepRollbackConfig : NetplayConfig := { delay := 2, rollback := 5 }

/-- A configuration whose delay 5 is larger than its rollback 2. -/
def longDelayConfig : NetplayConfig := { delay := 5, rollback := 2 }

/-! ## Theorems -/

/-- The packed key of a valid frame is `index * 2^32 + frame`. -/
theorem IndexedFrame.value_of_valid (a : IndexedFrame) (h : a.valid) :
    a.value = a.index * 2 ^ 32 + a.frame := by
  obtain ⟨hi, hf⟩ := h
  unfold IndexedFrame.value
  rw [Nat.mod_eq_of_lt hi, Nat.mod_eq_of_lt hf]

/-- The packed keys of valid frames compare lexicographically. -/
theorem IndexedFrame.value_lt_iff (a b : IndexedFrame) (ha : a.valid) (hb : b.valid) :
    a.value < b.value ↔ a.index < b.index ∨ (a.index = b.index ∧ a.frame < b.frame) := by
  rw [IndexedFrame.value_of_valid a ha, IndexedFrame.value_of_valid b hb]
  obtain ⟨_, hfa⟩ := ha
  obtain ⟨_, hfb⟩ := hb
  constructor
  · intro h
    by_contra hc
    push_neg at hc
    omega
  · rintro (h | ⟨h, h2⟩) <;> omega

/-- The packed key determines a valid frame. -/
theorem IndexedFrame.value_injective (a b : IndexedFrame) (ha : a.valid) (hb : b.valid)
    (h : a.value = b.value) : a = b := by
  rw [IndexedFrame.value_of_valid a ha, IndexedFrame.value_of_valid b hb] at h
  obtain ⟨_, hfa⟩ := ha
  obtain ⟨_, hfb⟩ := hb
  cases a
  cases b
  simp only [IndexedFrame.mk.injEq] at *
  omega

/-- C1: when `frame + 1` does not wrap, `getEndFrame()` is `frame + 1` and
`getStartFrame()` is `0` if `frame + 1 < NUM_INPUTS` and `frame + 1 - NUM_INPUTS`
otherwise, so the window is the half-open range `[max(0, f+1-N), f+1)`. -/
theorem getStartFrame_getEndFrame_range (N : Nat) (b : BaseInputs)
    (hf : b.indexedFrame.frame + 1 < 2 ^ 32) :
    b.getEndFrame = b.indexedFrame.frame + 1 ∧
    b.getStartFrame N = (if b.indexedFrame.frame + 1 < N then 0
                         else b.indexedFrame.frame + 1 - N) ∧
    (b.getStartFrame N : Int) = max 0 ((b.indexedFrame.frame : Int) + 1 - N) := by
  have hm : (b.indexedFrame.frame + 1) % 2 ^ 32 = b.indexedFrame.frame + 1 :=
    Nat.mod_eq_of_lt hf
  refine ⟨hm, ?_, ?_⟩
  · unfold BaseInputs.getStartFrame
    rw [hm]
    split
    · rfl
    · omega
  · unfold BaseInputs.getStartFrame
    rw [hm]
    split <;> omega

/-- Witness of C1: frame 20 with a window of 15 inputs is the range `[6, 21)`. -/
theorem getStartFrame_getEndFrame_range_witness :
    (BaseInputs.mk ⟨0, 20⟩).indexedFrame.frame + 1 < 2 ^ 32 ∧
    (BaseInputs.mk ⟨0, 20⟩).getEndFrame = 20 + 1 ∧
    (BaseInputs.mk ⟨0, 20⟩).getStartFrame 15 = (if 20 + 1 < 15 then 0 else 20 + 1 - 15) ∧
    (((BaseInputs.mk ⟨0, 20⟩).getStartFrame 15 : Nat) : Int)
      = max 0 (((20 : Nat) : Int) + 1 - ((15 : Nat) : Int)) :=
  ⟨by decide, getStartFrame_getEndFrame_range 15 ⟨⟨0, 20⟩⟩ (by decide)⟩

/-- C2, as stated, fails: at frame 0 with `NUM_INPUTS = 15` the window `size()` is 1. -/
theorem size_early_frame_counterexample :
    (BaseInputs.mk ⟨0, 0⟩).size 15 = 1 ∧ (BaseInputs.mk ⟨0, 0⟩).size 15 ≠ 15 := by
  decide

/-- C2, amended: when `frame + 1` does not wrap, `size()` is `min (frame + 1) NUM_INPUTS`;
it equals `NUM_INPUTS` exactly when `NUM_INPUTS <= frame + 1`, and early in a match it is
`frame + 1`. -/
theorem size_eq_min (N : Nat) (b : BaseInputs) (hf : b.indexedFrame.frame + 1 < 2 ^ 32) :
    b.size N = min (b.indexedFrame.frame + 1) N ∧
    (b.size N = N ↔ N ≤ b.indexedFrame.frame + 1) ∧
    (b.indexedFrame.frame + 1 < N → b.size N = b.indexedFrame.frame + 1) := by
  have hm : (b.indexedFrame.frame + 1) % 2 ^ 32 = b.indexedFrame.frame + 1 :=
    Nat.mod_eq_of_lt hf
  have key : b.size N = min (b.indexedFrame.frame + 1) N := by
    unfold BaseInputs.size BaseInputs.getEndFrame BaseInputs.getStartFrame
    split <;> omega
  refine ⟨key, ?_, ?_⟩
  · rw [key]
    omega
  · intro h
    rw [key]
    omega

/-- Witness of C2 amended: frame 3 with a window of 15 inputs has size 4. -/
theorem size_eq_min_witness :
    (BaseInputs.mk ⟨0, 3⟩).indexedFrame.frame + 1 < 2 ^ 32 ∧
    (BaseInputs.mk ⟨0, 3⟩).size 15 = min (3 + 1) 15 ∧
    ((BaseInputs.mk ⟨0, 3⟩).size 15 = 15 ↔ 15 ≤ 3 + 1) ∧
    (3 + 1 < 15 → (BaseInputs.mk ⟨0, 3⟩).size 15 = 3 + 1) :=
  ⟨by decide, size_eq_min 15 ⟨⟨0, 3⟩⟩ (by decide)⟩

/-- C3: for valid frames `a`, `b`, `c` the packed-key comparison `a.value < b.value`
holds iff `a.index < b.index`, or `a.index = b.index` and `a.frame < b.frame`, and the
relation is a strict total order: irreflexive, transitive and trichotomous. -/
theorem indexedFrame_value_strict_total_order (a b c : IndexedFrame)
    (ha : a.valid) (hb : b.valid) :
    (a.value < b.value ↔
      a.index < b.index ∨ (a.index = b.index ∧ a.frame < b.frame)) ∧
    ¬ a.value < a.value ∧
    (a.value < b.value → b.value < c.value → a.value < c.value) ∧
    (a.value < b.value ∨ a = b ∨ b.value < a.value) := by
  refine ⟨IndexedFrame.value_lt_iff a b ha hb, lt_irrefl _, lt_trans, ?_⟩
  rcases lt_trichotomy a.value b.value with h | h | h
  · exact Or.inl h
  · exact Or.inr (Or.inl (IndexedFrame.value_injective a b ha hb h))
  · exact Or.inr (Or.inr h)

/-- Witness of C3: the frames 1:5, 2:0 and 2:7. -/
theorem indexedFrame_value_strict_total_order_witness :
    (IndexedFrame.mk 1 5).valid ∧ (IndexedFrame.mk 2 0).valid ∧
    (((IndexedFrame.mk 1 5).value < (IndexedFrame.mk 2 0).value ↔
      (1 : Nat) < 2 ∨ ((1 : Nat) = 2 ∧ (5 : Nat) < 0)) ∧
    ¬ (IndexedFrame.mk 1 5).value < (IndexedFrame.mk 1 5).value ∧
    ((IndexedFrame.mk 1 5).value < (IndexedFrame.mk 2 0).value →
      (IndexedFrame.mk 2 0).value < (IndexedFrame.mk 2 7).value →
      (IndexedFrame.mk 1 5).value < (IndexedFrame.mk 2 7).value) ∧
    ((IndexedFrame.mk 1 5).value < (IndexedFrame.mk 2 0).value ∨
      IndexedFrame.mk 1 5 = IndexedFrame.mk 2 0 ∨
      (IndexedFrame.mk 2 0).value < (IndexedFrame.mk 1 5).value)) :=
  ⟨by decide, by decide,
    indexedFrame_value_strict_total_order ⟨1, 5⟩ ⟨2, 0⟩ ⟨2, 7⟩ (by decide) (by decide)⟩

/-! ### The comparison of sync hashes -/

/-- An element that fails the test of `dropWhile` is kept. -/
theorem mem_dropWhile_of_false {α : Type} (p : α → Bool) (x : α) (xs : List α)
    (hx : x ∈ xs) (hp : p x = false) : x ∈ xs.dropWhile p := by
  induction xs with
  | nil => cases hx
  | cons y ys ih =>
    rw [List.dropWhile_cons]
    split
    · rcases List.mem_cons.1 hx with h | h
      · subst h
        simp_all
      · exact ih h
    · exact hx

/-- Dropping stale entries keeps a queue increasing. -/
theorem SyncHash.Increasing.dropWhile (p : SyncHash → Bool) (q : List SyncHash)
    (h : SyncHash.Increasing q) : SyncHash.Increasing (q.dropWhile p) :=
  List.Pairwise.sublist (List.dropWhile_suffix p).sublist h

/-- The front of an increasing queue is its least entry. -/
theorem SyncHash.Increasing.head_le (x : SyncHash) (xs : List SyncHash) (a : SyncHash)
    (h : SyncHash.Increasing (x :: xs)) (ha : a ∈ x :: xs) :
    x.indexedFrame.value ≤ a.indexedFrame.value := by
  rcases List.mem_cons.1 ha with h1 | h1
  · rw [h1]
  · exact le_of_lt ((List.pairwise_cons.1 h).1 a h1)

/-- An entry later than the front of a queue is in the rest of the queue. -/
theorem SyncHash.Increasing.mem_tail (x : SyncHash) (xs : List SyncHash) (a : SyncHash)
    (ha : a ∈ x :: xs) (hlt : x.indexedFrame.value < a.indexedFrame.value) : a ∈ xs := by
  rcases List.mem_cons.1 ha with h1 | h1
  · rw [h1] at hlt
    exact absurd hlt (lt_irrefl _)
  · exact h1

/-- With enough fuel the comparison loop reports a desync whenever the two increasing
queues hold entries of one frame with different fingerprints. -/
theorem compareSyncLoop_desync (fuel : Nat) :
    ∀ (l r : List SyncHash), l.length < fuel →
      SyncHash.Increasing l → SyncHash.Increasing r →
      ∀ a ∈ l, ∀ b ∈ r, a.indexedFrame.value = b.indexedFrame.value →
        a.fingerprint ≠ b.fingerprint →
        ∃ l2 r2, compareSyncLoop fuel l r = some (.desync l2 r2) := by
  induction fuel with
  | zero =>
    intro l r h
    omega
  | succ n ih =>
    intro l r hlen hl hr a ha b hb hab hfp
    match l, r with
    | [], _ => cases ha
    | _ :: _, [] => cases hb
    | l0 :: ls, r0 :: rs =>
      unfold compareSyncLoop
      have hb1 : b ∈ (r0 :: rs).dropWhile
          (fun x => l0.indexedFrame.value > x.indexedFrame.value) := by
        apply mem_dropWhile_of_false _ _ _ hb
        have := SyncHash.Increasing.head_le l0 ls a hl ha
        simp only [gt_iff_lt, decide_eq_false_iff_not, not_lt]
        omega
      have hr1 := SyncHash.Increasing.dropWhile
        (fun x => l0.indexedFrame.value > x.indexedFrame.value) _ hr
      generalize (r0 :: rs).dropWhile
          (fun x => l0.indexedFrame.value > x.indexedFrame.value) = R at hb1 hr1
      match R with
      | [] => cases hb1
      | r2 :: rs2 =>
        simp only
        have ha1 : a ∈ (l0 :: ls).dropWhile
            (fun x => r2.indexedFrame.value > x.indexedFrame.value) := by
          apply mem_dropWhile_of_false _ _ _ ha
          have := SyncHash.Increasing.head_le r2 rs2 b hr1 hb1
          simp only [gt_iff_lt, decide_eq_false_iff_not, not_lt]
          omega
        have hl1 := SyncHash.Increasing.dropWhile
          (fun x => r2.indexedFrame.value > x.indexedFrame.value) _ hl
        have hlen1 : ((l0 :: ls).dropWhile
            (fun x => r2.indexedFrame.value > x.indexedFrame.value)).length
              ≤ (l0 :: ls).length :=
          (List.dropWhile_suffix _).sublist.length_le
        generalize (l0 :: ls).dropWhile
            (fun x => r2.indexedFrame.value > x.indexedFrame.value) = L at ha1 hl1 hlen1
        match L with
        | [] => cases ha1
        | l2 :: ls2 =>
          simp only
          by_cases heq : l2.equals r2 = true
          · rw [if_pos heq]
            simp only [SyncHash.equals, Bool.and_eq_true, beq_iff_eq] at heq
            obtain ⟨hv, hf⟩ := heq
            have hrb := SyncHash.Increasing.head_le r2 rs2 b hr1 hb1
            have hlt : l2.indexedFrame.value < a.indexedFrame.value := by
              rcases Nat.lt_or_ge l2.indexedFrame.value a.indexedFrame.value with h | h
              · exact h
              · exfalso
                have ha2 : a = l2 := by
                  rcases List.mem_cons.1 ha1 with h1 | h1
                  · exact h1
                  · have := (List.pairwise_cons.1 hl1).1 a h1
                    omega
                have hb2 : b = r2 := by
                  rcases List.mem_cons.1 hb1 with h1 | h1
                  · exact h1
                  · have := (List.pairwise_cons.1 hr1).1 b h1
                    rw [ha2] at hab
                    omega
                rw [ha2, hb2] at hfp
                exact hfp hf
            have ha3 := SyncHash.Increasing.mem_tail l2 ls2 a ha1 hlt
            have hb3 := SyncHash.Increasing.mem_tail r2 rs2 b hb1 (by omega)
            simp only [List.length_cons] at hlen1 hlen
            exact ih ls2 rs2 (by omega) (List.pairwise_cons.1 hl1).2
              (List.pairwise_cons.1 hr1).2 a ha3 b hb3 hab hfp
          · rw [if_neg heq]
            exact ⟨_, _, rfl⟩

/-- C4 fails on the code: the local queue 0:1, 0:5 and the remote queue 0:3 are
increasing and share no frame, so no two entries of one frame differ, and yet the
comparison compares the fronts 0:5 and 0:3 and reports a desync: the step schedules the
stop and sends the error `Desync!`. -/
theorem compareSync_spurious_desync :
    SyncHash.Increasing spuriousLocalSync ∧ SyncHash.Increasing spuriousRemoteSync ∧
    (∀ a ∈ spuriousLocalSync, ∀ b ∈ spuriousRemoteSync,
      a.indexedFrame.value = b.indexedFrame.value → a.fingerprint = b.fingerprint) ∧
    compareSync spuriousLocalSync spuriousRemoteSync
      = .desync [⟨⟨0, 5⟩, 8⟩] [⟨⟨0, 3⟩, 9⟩] ∧
    (compareSyncHashes
        { localSync := spuriousLocalSync, remoteSync := spuriousRemoteSync }).state.stopTimer
      = true ∧
    Call.ipcSend (.errorMessage "Desync!") ∈
      (compareSyncHashes
        { localSync := spuriousLocalSync, remoteSync := spuriousRemoteSync }).state.calls := by
  refine ⟨by decide, by decide, by decide, by decide, by decide, by decide⟩

/-- C5: when the local and the remote queue are increasing and hold a local and a remote
entry of the same frame with different fingerprints, the comparison of the frame step
reports a desync: it returns after `delayedStop ( "Desync!" )`, which schedules the stop
and sends the error. -/
theorem compareSyncHashes_reports_desync (d : DllMain) (a b : SyncHash)
    (hl : SyncHash.Increasing d.localSync) (hr : SyncHash.Increasing d.remoteSync)
    (ha : a ∈ d.localSync) (hb : b ∈ d.remoteSync)
    (hab : a.indexedFrame.value = b.indexedFrame.value)
    (hfp : a.fingerprint ≠ b.fingerprint) :
    (∃ l r, compareSync d.localSync d.remoteSync = .desync l r) ∧
    ∃ d2, compareSyncHashes d = .returned d2 ∧ d2.stopTimer = true ∧
      Call.ipcSend (.errorMessage "Desync!") ∈ d2.calls := by
  obtain ⟨l, r, h⟩ := compareSyncLoop_desync (d.localSync.length + 1) d.localSync
    d.remoteSync (Nat.lt_succ_self _) hl hr a ha b hb hab hfp
  have hc : compareSync d.localSync d.remoteSync = .desync l r := by
    unfold compareSync
    rw [h]
  refine ⟨⟨l, r, hc⟩, ?_⟩
  unfold compareSyncHashes
  rw [hc]
  refine ⟨_, rfl, ?_, ?_⟩
  · unfold DllMain.setTestInput
    split <;> rfl
  · unfold DllMain.setTestInput
    split <;> simp [delayedStop, DllMain.push, DllMain.setStopTimer,
      DllMain.setRandomInputs, DllMain.setLocalInputs0, DllMain.setLocalInputs1]

/-- Witness of C5: both queues hold frame 0:5, with fingerprints 8 and 9. -/
theorem compareSyncHashes_reports_desync_witness :
    ∃ d2, compareSyncHashes
        { localSync := [⟨⟨0, 1⟩, 7⟩, ⟨⟨0, 5⟩, 8⟩], remoteSync := [⟨⟨0, 5⟩, 9⟩] }
        = .returned d2 ∧ d2.stopTimer = true ∧
      Call.ipcSend (.errorMessage "Desync!") ∈ d2.calls :=
  (compareSyncHashes_reports_desync
    { localSync := [⟨⟨0, 1⟩, 7⟩, ⟨⟨0, 5⟩, 8⟩], remoteSync := [⟨⟨0, 5⟩, 9⟩] }
    ⟨⟨0, 5⟩, 8⟩ ⟨⟨0, 5⟩, 9⟩ (by decide) (by decide) (by decide) (by decide) (by decide)
    (by decide)).2

/-! ### Delay change proposals -/

/-- C6: in `readEvent` on a host or a client, for a `ChangeConfig` that arrives on a
socket that was not redirected: when its `IndexedFrame` is strictly later than that of
the stored `changeConfig` it replaces it and sets `shouldChangeDelayRollback`; when it
is strictly earlier nothing changes, neither `changeConfig` nor
`shouldChangeDelayRollback`. -/
theorem readEvent_changeConfig_later_wins (build : Build) (env : Env) (d : DllMain)
    (socket : SocketId) (c : ChangeConfig)
    (hmode : d.clientMode.value = .Host ∨ d.clientMode.value = .Client)
    (hsocket : socket ∉ d.redirectedSockets) :
    (d.changeConfig.indexedFrame.value < c.indexedFrame.value →
      readEvent build env d socket (some (.changeConfig c))
        = .returned { d with shouldChangeDelayRollback := true, changeConfig := c }) ∧
    (c.indexedFrame.value < d.changeConfig.indexedFrame.value →
      readEvent build env d socket (some (.changeConfig c)) = .returned d) := by
  constructor
  · intro h
    rcases hmode with hm | hm <;>
      simp [readEvent, readEventAnyMode, readEventClient, hsocket, hm, h] <;> rfl
  · intro h
    have h1 : ¬ c.indexedFrame.value > d.changeConfig.indexedFrame.value := by omega
    have h2 : ¬ c.indexedFrame.value = d.changeConfig.indexedFrame.value := by omega
    rcases hmode with hm | hm <;>
      simp [readEvent, readEventAnyMode, readEventClient, hsocket, hm, h1, h2]

/-- Witness of C6: a host that stores a proposal for frame 1:10 receives one for frame
1:12 on socket 5. -/
theorem readEvent_changeConfig_later_wins_witness :
    readEvent {} {} { clientMode := { value := .Host }, changeConfig := ⟨⟨1, 10⟩, 3⟩ } 5
        (some (.changeConfig ⟨⟨1, 12⟩, 2⟩))
      = .returned { clientMode := { value := .Host }, changeConfig := ⟨⟨1, 12⟩, 2⟩,
                    shouldChangeDelayRollback := true } :=
  (readEvent_changeConfig_later_wins {} {}
    { clientMode := { value := .Host }, changeConfig := ⟨⟨1, 10⟩, 3⟩ } 5 ⟨⟨1, 12⟩, 2⟩
    (Or.inl rfl) (by decide)).1 (by decide)

/-- C7: a host and a client, at the same `IndexedFrame`, each propose a delay change
(`proposeDelay`) and then each receive the proposal of the other on a socket that was
not redirected: the host keeps its own proposal, the client replaces its proposal with
the one it received, so both hold the proposal of the host, and both still have
`shouldChangeDelayRollback` set. -/
theorem changeConfig_tie_host_wins (build : Build) (envHost envClient : Env)
    (host client : DllMain) (socketHost socketClient : SocketId)
    (delayHost delayClient : Nat)
    (hhost : host.clientMode.value = .Host) (hclient : client.clientMode.value = .Client)
    (hsh : socketHost ∉ host.redirectedSockets)
    (hsc : socketClient ∉ client.redirectedSockets)
    (hframe : host.netMan.getIndexedFrame.value = client.netMan.getIndexedFrame.value) :
    readEvent build envHost (proposeDelay host delayHost) socketHost
        (some (.changeConfig (proposeDelay client delayClient).changeConfig))
      = .returned (proposeDelay host delayHost) ∧
    readEvent build envClient (proposeDelay client delayClient) socketClient
        (some (.changeConfig (proposeDelay host delayHost).changeConfig))
      = .returned { proposeDelay client delayClient with
                    changeConfig := (proposeDelay host delayHost).changeConfig } ∧
    (proposeDelay host delayHost).changeConfig
      = ⟨host.netMan.getIndexedFrame, delayHost⟩ ∧
    (proposeDelay host delayHost).shouldChangeDelayRollback = true ∧
    (proposeDelay client delayClient).shouldChangeDelayRollback = true := by
  refine ⟨?_, ?_, rfl, rfl, rfl⟩
  · have h1 : (proposeDelay host delayHost).clientMode.value = .Host := hhost
    have h2 : socketHost ∉ (proposeDelay host delayHost).redirectedSockets := hsh
    have h3 : (proposeDelay client delayClient).changeConfig.indexedFrame.value
        = (proposeDelay host delayHost).changeConfig.indexedFrame.value := hframe.symm
    simp [readEvent, readEventAnyMode, readEventClient, h2, h1, h3, ClientMode.isClient]
  · have h1 : (proposeDelay client delayClient).clientMode.value = .Client := hclient
    have h2 : socketClient ∉ (proposeDelay client delayClient).redirectedSockets := hsc
    have h3 : (proposeDelay host delayHost).changeConfig.indexedFrame.value
        = (proposeDelay client delayClient).changeConfig.indexedFrame.value := hframe
    simp [readEvent, readEventAnyMode, readEventClient, h2, h1, h3, ClientMode.isClient]
    rfl

/-- Witness of C7: at frame 1:10 the host proposes delay 2 and the client delay 4. -/
theorem changeConfig_tie_host_wins_witness :
    (readEvent {} {} (proposeDelay tieClient 4) 9
        (some (.changeConfig (proposeDelay tieHost 2).changeConfig))).state.changeConfig
      = ⟨⟨1, 10⟩, 2⟩ ∧
    (readEvent {} {} (proposeDelay tieHost 2) 9
        (some (.changeConfig (proposeDelay tieClient 4).changeConfig))).state.changeConfig
      = ⟨⟨1, 10⟩, 2⟩ := by
  have h := changeConfig_tie_host_wins {} {} {} tieHost tieClient 9 9 2 4 rfl rfl
    (by decide) (by decide) rfl
  refine ⟨?_, ?_⟩
  · rw [h.2.1]
    rfl
  · rw [h.1]
    rfl

/-! ### What leaves the rollback untouched

Most of the code neither calls `loadState` nor changes what decides a rollback: it
leaves `DllMain.rollbackView` as it is. -/

/-- The state of a `Flow` that goes on. -/
@[simp] theorem Flow.state_next (d : DllMain) : (Flow.next d).state = d := rfl

/-- The state of a `Flow` that returned. -/
@[simp] theorem Flow.state_returned (d : DllMain) : (Flow.returned d).state = d := rfl

/-- The state of a `Flow` that threw. -/
@[simp] theorem Flow.state_thrown (d : DllMain) : (Flow.thrown d).state = d := rfl

/-- When what follows a call leaves the rollback untouched, the rollback is as the call
left it. -/
theorem rollbackView_andThen (f : Flow) (k : DllMain → Flow)
    (hk : ∀ d, (k d).state.rollbackView = d.rollbackView) :
    (f.andThen k).state.rollbackView = f.state.rollbackView := by
  cases f <;> simp [Flow.andThen, hk]

/-- When what follows a block leaves the rollback untouched, the rollback is as the
block left it. -/
theorem rollbackView_bind (f : Flow) (k : DllMain → Flow)
    (hk : ∀ d, (k d).state.rollbackView = d.rollbackView) :
    (f.bind k).state.rollbackView = f.state.rollbackView := by
  cases f <;> simp [Flow.bind, hk]

/-- Assigning `dataSocket` leaves the rollback untouched. -/
@[simp] theorem DllMain.rollbackView_setDataSocket (d : DllMain) (v) :
    (d.setDataSocket v).rollbackView = d.rollbackView := rfl

/-- Assigning `resendTimer` leaves the rollback untouched. -/
@[simp] theorem DllMain.rollbackView_setResendTimer (d : DllMain) (v) :
    (d.setResendTimer v).rollbackView = d.rollbackView := rfl

/-- Assigning `waitInputsTimer` leaves the rollback untouched. -/
@[simp] theorem DllMain.rollbackView_setWaitInputsTimer (d : DllMain) (v) :
    (d.setWaitInputsTimer v).rollbackView = d.rollbackView := rfl

/-- Assigning `shouldSyncRngState` leaves the rollback untouched. -/
@[simp] theorem DllMain.rollbackView_setShouldSyncRngState (d : DllMain) (v) :
    (d.setShouldSyncRngState v).rollbackView = d.rollbackView := rfl

/-- Assigning `fastFwdStopFrame` leaves the rollback untouched. -/
@[simp] theorem DllMain.rollbackView_setFastFwdStopFrame (d : DllMain) (v) :
    (d.setFastFwdStopFrame v).rollbackView = d.rollbackView := rfl

/-- Assigning `initialTimer` leaves the rollback untouched. -/
@[simp] theorem DllMain.rollbackView_setInitialTimer (d : DllMain) (v) :
    (d.setInitialTimer v).rollbackView = d.rollbackView := rfl

/-- Assigning `stopTimer` leaves the rollback untouched. -/
@[simp] theorem DllMain.rollbackView_setStopTimer (d : DllMain) (v) :
    (d.setStopTimer v).rollbackView = d.rollbackView := rfl

/-- Assigning `localInputs0` leaves the rollback untouched. -/
@[simp] theorem DllMain.rollbackView_setLocalInputs0 (d : DllMain) (v) :
    (d.setLocalInputs0 v).rollbackView = d.rollbackView := rfl

/-- Assigning `localInputs1` leaves the rollback untouched. -/
@[simp] theorem DllMain.rollbackView_setLocalInputs1 (d : DllMain) (v) :
    (d.setLocalInputs1 v).rollbackView = d.rollbackView := rfl

/-- Assigning `localRetryMenuIndexSent` leaves the rollback untouched. -/
@[simp] theorem DllMain.rollbackView_setLocalRetryMenuIndexSent (d : DllMain) (v) :
    (d.setLocalRetryMenuIndexSent v).rollbackView = d.rollbackView := rfl

/-- Assigning `lazyDisconnect` leaves the rollback untouched. -/
@[simp] theorem DllMain.rollbackView_setLazyDisconnect (d : DllMain) (v) :
    (d.setLazyDisconnect v).rollbackView = d.rollbackView := rfl

/-- Assigning `shouldChangeDelayRollback` leaves the rollback untouched. -/
@[simp] theorem DllMain.rollbackView_setShouldChangeDelayRollback (d : DllMain) (v) :
    (d.setShouldChangeDelayRollback v).rollbackView = d.rollbackView := rfl

/-- Assigning `changeConfig` leaves the rollback untouched. -/
@[simp] theorem DllMain.rollbackView_setChangeConfig (d : DllMain) (v) :
    (d.setChangeConfig v).rollbackView = d.rollbackView := rfl

/-- Assigning `clientServerAddr` leaves the rollback untouched. -/
@[simp] theorem DllMain.rollbackView_setClientServerAddr (d : DllMain) (v) :
    (d.setClientServerAddr v).rollbackView = d.rollbackView := rfl

/-- Assigning `redirectedSockets` leaves the rollback untouched. -/
@[simp] theorem DllMain.rollbackView_setRedirectedSockets (d : DllMain) (v) :
    (d.setRedirectedSockets v).rollbackView = d.rollbackView := rfl

/-- Assigning `pendingSockets` leaves the rollback untouched. -/
@[simp] theorem DllMain.rollbackView_setPendingSockets (d : DllMain) (v) :
    (d.setPendingSockets v).rollbackView = d.rollbackView := rfl

/-- Assigning `spectators` leaves the rollback untouched. -/
@[simp] theorem DllMain.rollbackView_setSpectators (d : DllMain) (v) :
    (d.setSpectators v).rollbackView = d.rollbackView := rfl

/-- Assigning `roundOverTimer` leaves the rollback untouched. -/
@[simp] theorem DllMain.rollbackView_setRoundOverTimer (d : DllMain) (v) :
    (d.setRoundOverTimer v).rollbackView = d.rollbackView := rfl

/-- Assigning `localSync` leaves the rollback untouched. -/
@[simp] theorem DllMain.rollbackView_setLocalSync (d : DllMain) (v) :
    (d.setLocalSync v).rollbackView = d.rollbackView := rfl

/-- Assigning `remoteSync` leaves the rollback untouched. -/
@[simp] theorem DllMain.rollbackView_setRemoteSync (d : DllMain) (v) :
    (d.setRemoteSync v).rollbackView = d.rollbackView := rfl

/-- Assigning `randomInputs` leaves the rollback untouched. -/
@[simp] theorem DllMain.rollbackView_setRandomInputs (d : DllMain) (v) :
    (d.setRandomInputs v).rollbackView = d.rollbackView := rfl

/-- Assigning `randomDelay` leaves the rollback untouched. -/
@[simp] theorem DllMain.rollbackView_setRandomDelay (d : DllMain) (v) :
    (d.setRandomDelay v).rollbackView = d.rollbackView := rfl

/-- Assigning `replayInputs` leaves the rollback untouched. -/
@[simp] theorem DllMain.rollbackView_setReplayInputs (d : DllMain) (v) :
    (d.setReplayInputs v).rollbackView = d.rollbackView := rfl

/-- Assigning `doneSkipping` leaves the rollback untouched. -/
@[simp] theorem DllMain.rollbackView_setDoneSkipping (d : DllMain) (v) :
    (d.setDoneSkipping v).rollbackView = d.rollbackView := rfl

/-- Assigning `skipFrames` leaves the rollback untouched. -/
@[simp] theorem DllMain.rollbackView_setSkipFrames (d : DllMain) (v) :
    (d.setSkipFrames v).rollbackView = d.rollbackView := rfl

/-- Assigning `introState` leaves the rollback untouched. -/
@[simp] theorem DllMain.rollbackView_setIntroState (d : DllMain) (v) :
    (d.setIntroState v).rollbackView = d.rollbackView := rfl

/-- Assigning `desiredFps` leaves the rollback untouched. -/
@[simp] theorem DllMain.rollbackView_setDesiredFps (d : DllMain) (v) :
    (d.setDesiredFps v).rollbackView = d.rollbackView := rfl

/-- Assigning `appState` leaves the rollback untouched. -/
@[simp] theorem DllMain.rollbackView_setAppState (d : DllMain) (v) :
    (d.setAppState v).rollbackView = d.rollbackView := rfl

/-- Changing the delay leaves the rollback untouched. -/
@[simp] theorem DllMain.rollbackView_setDelay (d : DllMain) (delay : Nat) :
    (d.setDelay delay).rollbackView = d.rollbackView := rfl

/-- A call that is not `loadState` leaves the rollback untouched. -/
theorem DllMain.rollbackView_push (d : DllMain) (c : Call) (h : c.isLoadState = false) :
    (d.push c).rollbackView = d.rollbackView := by
  cases c <;> simp [Call.isLoadState] at h <;>
    simp [DllMain.rollbackView, DllMain.push, loadStateCalls, List.filterMap_append]

/-- A `NetplayManager` call leaves the rollback untouched. -/
@[simp] theorem DllMain.rollbackView_netCall (d : DllMain) (env : Env) (c : NetCall) :
    (d.netCall env c).rollbackView = d.rollbackView := by
  simp [DllMain.rollbackView, DllMain.netCall, loadStateCalls, List.filterMap_append]

/-- `delayedStop` leaves the rollback untouched. -/
@[simp] theorem rollbackView_delayedStop (d : DllMain) (error : String) :
    (delayedStop d error).rollbackView = d.rollbackView := by
  unfold delayedStop
  split
  · exact (DllMain.rollbackView_setStopTimer _ _).trans (DllMain.rollbackView_push d _ rfl)
  · rfl

/-- `netplayStateChanged` leaves the rollback untouched. -/
@[simp] theorem rollbackView_netplayStateChanged (env : Env) (d : DllMain)
    (state : NetplayState) :
    (netplayStateChanged env d state).state.rollbackView = d.rollbackView := by
  unfold netplayStateChanged
  simp [apply_ite Flow.state, apply_ite DllMain.rollbackView, DllMain.rollbackView_push,
    Call.isLoadState]

/-- `startRoundOverCountDown` leaves the rollback untouched. -/
@[simp] theorem rollbackView_startRoundOverCountDown (d : DllMain) :
    (startRoundOverCountDown d).state.rollbackView = d.rollbackView := by
  unfold startRoundOverCountDown
  simp [apply_ite Flow.state, apply_ite DllMain.rollbackView, DllMain.rollbackView_push,
    Call.isLoadState]

/-- `checkRoundOver` leaves the rollback untouched. -/
@[simp] theorem rollbackView_checkRoundOver (env : Env) (d : DllMain) :
    (checkRoundOver env d).state.rollbackView = d.rollbackView := by
  unfold checkRoundOver
  simp [apply_ite Flow.state, apply_ite DllMain.rollbackView, DllMain.rollbackView_push,
    Call.isLoadState]

/-- `gameModeChanged` leaves the rollback untouched. -/
@[simp] theorem rollbackView_gameModeChanged (build : Build) (env : Env) (d : DllMain)
    (previous current : GameMode) :
    (gameModeChanged build env d previous current).state.rollbackView
      = d.rollbackView := by
  unfold gameModeChanged
  simp [apply_ite Flow.state, apply_ite DllMain.rollbackView, DllMain.rollbackView_push,
    Call.isLoadState]

/-- `hasChanged` leaves the rollback untouched. -/
@[simp] theorem rollbackView_hasChanged (build : Build) (env : Env) (d : DllMain)
    (c : Change) : (hasChanged build env d c).state.rollbackView = d.rollbackView := by
  cases c <;>
    simp [hasChanged, apply_ite Flow.state, apply_ite DllMain.rollbackView,
      DllMain.rollbackView_push, Call.isLoadState]

/-- `monitorCheck` leaves the rollback untouched. -/
@[simp] theorem rollbackView_monitorCheck (build : Build) (env : Env) (cs : List Change) :
    ∀ d : DllMain, (monitorCheck build env cs d).state.rollbackView = d.rollbackView := by
  induction cs with
  | nil =>
    intro d
    rfl
  | cons c cs ih =>
    intro d
    unfold monitorCheck
    rw [rollbackView_andThen _ _ ih, rollbackView_hasChanged]

/-- `pushSpectator` leaves the rollback untouched. -/
@[simp] theorem rollbackView_pushSpectator (d : DllMain) (socket : SocketId) :
    (pushSpectator d socket).rollbackView = d.rollbackView := rfl

/-- `proposeDelay` leaves the rollback untouched. -/
@[simp] theorem rollbackView_proposeDelay (d : DllMain) (delay : Nat) :
    (proposeDelay d delay).rollbackView = d.rollbackView := by
  unfold proposeDelay
  simp [DllMain.rollbackView_push, Call.isLoadState]

/-- `setTestInput` leaves the rollback untouched. -/
@[simp] theorem DllMain.rollbackView_setTestInput (d : DllMain) (input : Nat) :
    (d.setTestInput input).rollbackView = d.rollbackView := by
  unfold DllMain.setTestInput
  split <;> rfl

/-- The first `switch` of `readEvent` leaves the rollback untouched. -/
theorem rollbackView_readEventAnyMode (build : Build) (env : Env) (d : DllMain)
    (socket : SocketId) (msg : Msg) (f : Flow)
    (h : readEventAnyMode build env d socket msg = some f) :
    f.state.rollbackView = d.rollbackView := by
  cases msg <;> simp only [readEventAnyMode] at h <;> try split at h
  all_goals
    simp at h
    try
      subst h
      simp [DllMain.rollbackView_push, Call.isLoadState]

/-- The client case of `readEvent` leaves the rollback untouched. -/
@[simp] theorem rollbackView_readEventClient (env : Env) (d : DllMain) (msg : Msg) :
    (readEventClient env d msg).state.rollbackView = d.rollbackView := by
  cases msg <;>
    simp [readEventClient, apply_ite Flow.state, apply_ite DllMain.rollbackView]

/-- The spectator cases of `readEvent` leave the rollback untouched. -/
@[simp] theorem rollbackView_readEventSpectate (env : Env) (d : DllMain) (msg : Msg) :
    (readEventSpectate env d msg).state.rollbackView = d.rollbackView := by
  cases msg <;>
    simp [readEventSpectate, apply_ite Flow.state, apply_ite DllMain.rollbackView]
  split
  · simp [DllMain.rollbackView_push, Call.isLoadState]
  · rw [rollbackView_andThen _ Flow.returned (fun _ => rfl)]
    simp

/-- `readEvent` leaves the rollback untouched. -/
@[simp] theorem rollbackView_readEvent (build : Build) (env : Env) (d : DllMain)
    (socket : SocketId) (msg : Option Msg) :
    (readEvent build env d socket msg).state.rollbackView = d.rollbackView := by
  cases msg with
  | none => rfl
  | some msg =>
    simp only [readEvent]
    split
    · rfl
    · split
      · rename_i f hf
        exact rollbackView_readEventAnyMode build env d socket msg f hf
      · split
        · split
          · split <;> simp
          · simp
        all_goals simp

/-- `timerExpired` leaves the rollback untouched. -/
@[simp] theorem rollbackView_timerExpired (d : DllMain) (timer : TimerId) :
    (timerExpired d timer).rollbackView = d.rollbackView := by
  unfold timerExpired
  simp [apply_ite DllMain.rollbackView, DllMain.rollbackView_push, Call.isLoadState]

/-- `disconnectEvent` leaves the rollback untouched. -/
@[simp] theorem rollbackView_disconnectEvent (d : DllMain) (socket fresh : SocketId) :
    (disconnectEvent d socket fresh).state.rollbackView = d.rollbackView := by
  unfold disconnectEvent
  simp [apply_ite Flow.state, apply_ite DllMain.rollbackView]

/-- A callback leaves the rollback untouched. -/
@[simp] theorem rollbackView_deliver (build : Build) (env : Env) (d : DllMain)
    (e : Event) : (deliver build env d e).state.rollbackView = d.rollbackView := by
  cases e <;> simp [deliver]

/-- The callbacks of a poll leave the rollback untouched. -/
@[simp] theorem rollbackView_deliverAll (build : Build) (env : Env) (es : List Event) :
    ∀ d : DllMain, (deliverAll build env es d).state.rollbackView = d.rollbackView := by
  induction es with
  | nil =>
    intro d
    rfl
  | cons e es ih =>
    intro d
    unfold deliverAll
    rw [rollbackView_andThen _ _ ih, rollbackView_deliver]

/-- What follows a poll leaves the rollback untouched. -/
@[simp] theorem rollbackView_afterPoll (p : PollRound) (d : DllMain) :
    (afterPoll p d).1.rollbackView = d.rollbackView := by
  unfold afterPoll
  split_ifs <;> rfl

/-- The waiting loop leaves the rollback untouched. -/
@[simp] theorem rollbackView_waitLoop (build : Build) (env : Env) (ps : List PollRound) :
    ∀ d : DllMain, (waitLoop build env ps d).state.rollbackView = d.rollbackView := by
  induction ps with
  | nil =>
    intro d
    rfl
  | cons p ps ih =>
    intro d
    have h := rollbackView_deliverAll build env p.events (d.push .poll)
    rw [DllMain.rollbackView_push d Call.poll rfl] at h
    unfold waitLoop
    cases hf : deliverAll build env p.events (d.push .poll) <;> rw [hf] at h <;>
      simp only [Flow.state_next, Flow.state_returned, Flow.state_thrown] at h ⊢
    · split_ifs <;> first | rw [ih] | skip
      all_goals simp [WaitOutcome.state, h]
    · split_ifs <;> first | rw [ih] | skip
      all_goals simp [WaitOutcome.state, h]
    · simp [WaitOutcome.state, h]

/-- The tick of the round over timer leaves the rollback untouched. -/
@[simp] theorem rollbackView_roundOverTick (d : DllMain) :
    (roundOverTick d).state.rollbackView = d.rollbackView := by
  unfold roundOverTick
  simp [apply_ite DllMain.rollbackView]

/-- The `InGame` case leaves the rollback untouched. -/
@[simp] theorem rollbackView_inGameCase (env : Env) (d : DllMain) :
    (inGameCase env d).state.rollbackView = d.rollbackView := by
  unfold inGameCase
  simp only []
  split_ifs
  · rw [rollbackView_andThen _ _ rollbackView_roundOverTick]
    simp [DllMain.rollbackView_push, Call.isLoadState]
  · simp [DllMain.rollbackView_push, Call.isLoadState]
  · rfl

/-- The fast forward of a spectator leaves the rollback untouched. -/
@[simp] theorem rollbackView_spectatorSkip (build : Build) (env : Env) (d : DllMain) :
    (spectatorSkip build env d).rollbackView = d.rollbackView := by
  unfold spectatorSkip
  simp [apply_ite DllMain.rollbackView]

/-- Reading the local controller leaves the rollback untouched. -/
@[simp] theorem rollbackView_readLocalController (env : Env) (d : DllMain) :
    (readLocalController env d).rollbackView = d.rollbackView := by
  unfold readLocalController
  split <;> rfl

/-- `Ctrl + Number` leaves the rollback untouched. -/
@[simp] theorem rollbackView_ctrlNumber (env : Env) (d : DllMain) :
    (ctrlNumber env d).rollbackView = d.rollbackView := by
  unfold ctrlNumber
  split
  · split <;> simp
  · rfl

/-- The random delay test leaves the rollback untouched. -/
@[simp] theorem rollbackView_randomDelayTest (env : Env) (d : DllMain) :
    (randomDelayTest env d).rollbackView = d.rollbackView := by
  unfold randomDelayTest
  simp [apply_ite DllMain.rollbackView, DllMain.rollbackView_push, Call.isLoadState]

/-- Reading the input devices leaves the rollback untouched. -/
theorem rollbackView_readDevices (build : Build) (env : Env) (d d2 : DllMain)
    (h : readDevices build env d = some d2) : d2.rollbackView = d.rollbackView := by
  unfold readDevices at h
  split_ifs at h <;> simp only [Option.some.injEq] at h <;> subst h <;>
    simp [apply_ite DllMain.rollbackView]

/-- The random input test leaves the rollback untouched. -/
@[simp] theorem rollbackView_randomInputTest (env : Env) (d : DllMain) :
    (randomInputTest env d).rollbackView = d.rollbackView := by
  unfold randomInputTest
  simp [apply_ite DllMain.rollbackView, DllMain.rollbackView_push, Call.isLoadState]

/-- Assigning the local input leaves the rollback untouched. -/
@[simp] theorem rollbackView_assignLocalInput (build : Build) (env : Env) (d : DllMain) :
    (assignLocalInput build env d).rollbackView = d.rollbackView := by
  unfold assignLocalInput
  simp [apply_ite DllMain.rollbackView]

/-- The retry menu leaves the rollback untouched. -/
@[simp] theorem rollbackView_retryMenuIndex (env : Env) (d : DllMain) :
    (retryMenuIndex env d).rollbackView = d.rollbackView := by
  unfold retryMenuIndex
  simp [apply_ite DllMain.rollbackView, DllMain.rollbackView_push, Call.isLoadState]

/-- The input of the second local player leaves the rollback untouched. -/
@[simp] theorem rollbackView_assignRemoteInput (env : Env) (d : DllMain) :
    (assignRemoteInput env d).rollbackView = d.rollbackView := by
  unfold assignRemoteInput
  simp only [DllMain.rollbackView_netCall]
  split
  · split <;> rfl
  · rfl

/-- Fixing the RNG state leaves the rollback untouched. -/
@[simp] theorem rollbackView_syncRngState (env : Env) (d : DllMain) :
    (syncRngState env d).state.rollbackView = d.rollbackView := by
  unfold syncRngState
  split
  · split <;>
      simp [apply_ite DllMain.rollbackView, DllMain.rollbackView_push, Call.isLoadState]
  · rfl

/-- Sending the local input leaves the rollback untouched. -/
@[simp] theorem rollbackView_sendLocalInput (env : Env) (d : DllMain) :
    (sendLocalInput env d).state.rollbackView = d.rollbackView := by
  unfold sendLocalInput
  split_ifs <;> simp [DllMain.rollbackView_push, Call.isLoadState]

/-- Updating the RNG state leaves the rollback untouched. -/
@[simp] theorem rollbackView_applyRngState (env : Env) (d : DllMain) :
    (applyRngState env d).rollbackView = d.rollbackView := by
  unfold applyRngState
  split
  · split <;> simp [DllMain.rollbackView_push, Call.isLoadState]
  · rfl

/-- Applying a delay change leaves the rollback untouched. -/
@[simp] theorem rollbackView_applyDelayChange (d : DllMain) :
    (applyDelayChange d).rollbackView = d.rollbackView := by
  unfold applyDelayChange
  split_ifs <;> simp [DllMain.rollbackView_push, Call.isLoadState]

/-- Applying the pending changes leaves the rollback untouched. -/
@[simp] theorem rollbackView_applyChanges (env : Env) (d : DllMain) :
    (applyChanges env d).rollbackView = d.rollbackView := by
  unfold applyChanges
  simp

/-- Sending the sync hash leaves the rollback untouched. -/
@[simp] theorem rollbackView_sendSyncHash (env : Env) (d : DllMain) :
    (sendSyncHash env d).rollbackView = d.rollbackView := by
  unfold sendSyncHash
  simp [apply_ite DllMain.rollbackView, DllMain.rollbackView_push, Call.isLoadState]

/-- Comparing the sync hashes leaves the rollback untouched. -/
@[simp] theorem rollbackView_compareSyncHashes (d : DllMain) :
    (compareSyncHashes d).state.rollbackView = d.rollbackView := by
  unfold compareSyncHashes
  split <;> simp [DllMain.rollbackView_push, Call.isLoadState]

/-- The end of a replay leaves the rollback untouched. -/
@[simp] theorem rollbackView_replayEnd (env : Env) (d : DllMain) :
    (replayEnd env d).state.rollbackView = d.rollbackView := by
  unfold replayEnd
  simp [apply_ite DllMain.rollbackView]

/-- The sync hashes leave the rollback untouched. -/
@[simp] theorem rollbackView_syncCheck (build : Build) (env : Env) (d : DllMain) :
    (syncCheck build env d).state.rollbackView = d.rollbackView := by
  unfold syncCheck
  split
  · rfl
  · rw [rollbackView_bind _ _ (rollbackView_replayEnd env)]
    simp

/-- Logging the state leaves the rollback untouched. -/
@[simp] theorem rollbackView_logState (build : Build) (env : Env) (d : DllMain) :
    (logState build env d).state.rollbackView = d.rollbackView := by
  unfold logState
  split
  · rfl
  · split
    · simp [DllMain.rollbackView_push, Call.isLoadState]
    · split <;> simp [DllMain.rollbackView_push, Call.isLoadState]

/-- The end of the step leaves the rollback untouched. -/
@[simp] theorem rollbackView_finishStep (build : Build) (env : Env) (d : DllMain) :
    (finishStep build env d).state.rollbackView = d.rollbackView := by
  unfold finishStep
  rw [rollbackView_bind _ _ (rollbackView_logState build env)]
  simp

/-- `frameStepRerun` leaves the rollback untouched. -/
@[simp] theorem rollbackView_frameStepRerun (build : Build) (d : DllMain) :
    (frameStepRerun build d).rollbackView = d.rollbackView := by
  unfold frameStepRerun
  simp [apply_ite DllMain.rollbackView, DllMain.rollbackView_push, Call.isLoadState]

/-- Clearing the intro state leaves the rollback untouched. -/
@[simp] theorem rollbackView_clearIntroState (d : DllMain) :
    (clearIntroState d).rollbackView = d.rollbackView := by
  unfold clearIntroState
  split <;> rfl

/-- Updating the spectators and writing the inputs leaves the rollback untouched. -/
@[simp] theorem rollbackView_closeStep (d : DllMain) :
    (closeStep d).rollbackView = d.rollbackView := by
  unfold closeStep
  simp [DllMain.rollbackView_push, Call.isLoadState]

/-! ### Where the game state is rewound -/

/-- The negotiated rollback is part of the rollback view. -/
theorem rollback_eq_of_view {d d2 : DllMain} (h : d2.rollbackView = d.rollbackView) :
    d2.netMan.config.rollback = d.netMan.config.rollback :=
  congrArg Prod.fst h

/-- The flag of the random rollback test is part of the rollback view. -/
theorem randomRollback_eq_of_view {d d2 : DllMain} (h : d2.rollbackView = d.rollbackView) :
    d2.randomRollback = d.randomRollback :=
  congrArg (fun v => v.2.1) h

/-- The `loadState` calls are part of the rollback view. -/
theorem loadStateCalls_eq_of_view {d d2 : DllMain} (h : d2.rollbackView = d.rollbackView) :
    loadStateCalls d2.calls = loadStateCalls d.calls :=
  congrArg (fun v => v.2.2) h

/-- Without a negotiated rollback, `isInRollback` is false. -/
theorem isInRollback_eq_false {d : DllMain} (h : d.netMan.config.rollback = 0) :
    d.netMan.isInRollback = false := by
  simp [NetplayManager.isInRollback, h]

/-- `loadState` adds one call to the trace and keeps the rollback settings. -/
theorem rollbackView_loadState (d : DllMain) (env : Env) (target : IndexedFrame) :
    (d.loadState env target).1.rollbackView
      = (d.netMan.config.rollback, d.randomRollback,
          loadStateCalls d.calls ++ [(target, d.netMan.getIndexedFrame)]) := by
  simp [DllMain.rollbackView, DllMain.loadState, loadStateCalls, List.filterMap_append]

/-- Starting to fast-forward calls no `loadState`. -/
@[simp] theorem rollbackView_startFastForward (r : DllMain × Bool) :
    (startFastForward r).state.rollbackView = r.1.rollbackView := by
  unfold startFastForward
  split <;> simp [DllMain.rollbackView_push, Call.isLoadState]

/-- The reinputs of a replay leave the rollback untouched. -/
@[simp] theorem rollbackView_assignReinputs (env : Env) (d : DllMain) :
    (assignReinputs env d).rollbackView = d.rollbackView := by
  unfold assignReinputs
  generalize env.replay.reinputs = rs
  induction rs generalizing d with
  | nil => rfl
  | cons r rs ih => simp [List.foldl_cons, ih]

/-- The RNG state of a replay leaves the rollback untouched. -/
@[simp] theorem rollbackView_replayRngState (env : Env) (d : DllMain) :
    (replayRngState env d).rollbackView = d.rollbackView := by
  unfold replayRngState
  split
  · split <;> simp [DllMain.rollbackView_push, Call.isLoadState]
  · rfl

/-- Without a negotiated rollback the replay rewinds nothing. -/
theorem rollbackView_replayBlock (env : Env) (d : DllMain)
    (h0 : d.netMan.config.rollback = 0) :
    (replayBlock env d).state.rollbackView = d.rollbackView := by
  unfold replayBlock
  split
  · simp [DllMain.rollbackView_push, Call.isLoadState]
  · unfold replayRollback
    have h1 : ((d.netCall env (.setInput 1 env.replay.p1)).netCall env
        (.setInput 2 env.replay.p2)).netMan.isInRollback = false :=
      isInRollback_eq_false h0
    simp [h1]

/-- In a build with `RELEASE`, or without a negotiated rollback, the shared case
rewinds nothing, once the input devices are read. -/
theorem rollbackView_commonCaseInputs (build : Build) (env : Env) (d : DllMain)
    (h : build.release = true ∨ d.netMan.config.rollback = 0) :
    (commonCaseInputs build env d).state.rollbackView = d.rollbackView := by
  unfold commonCaseInputs
  split_ifs with h1 h2
  · rcases h with h | h
    · rw [h] at h1
      simp at h1
    · exact rollbackView_replayBlock env d h
  · simp
  · simp

/-- In a build with `RELEASE`, or without a negotiated rollback, the shared case
rewinds nothing. -/
theorem rollbackView_commonCase (build : Build) (env : Env) (d : DllMain)
    (h : build.release = true ∨ d.netMan.config.rollback = 0) :
    (commonCase build env d).state.rollbackView = d.rollbackView := by
  unfold commonCase
  split
  · simp [DllMain.rollbackView_push, Call.isLoadState]
  · split
    · simp
    · rename_i d2 hd
      have hv := rollbackView_readDevices build env _ d2 hd
      rw [rollbackView_spectatorSkip] at hv
      rw [rollbackView_commonCaseInputs build env d2
        (h.imp id (fun h0 => (rollback_eq_of_view hv).trans h0)), hv]

/-- In a build with `RELEASE`, or without a negotiated rollback, the `switch` of
`frameStepNormal` rewinds nothing. -/
theorem rollbackView_inputPhase (build : Build) (env : Env) (d : DllMain)
    (h : build.release = true ∨ d.netMan.config.rollback = 0) :
    (inputPhase build env d).state.rollbackView = d.rollbackView := by
  unfold inputPhase
  split
  any_goals exact rollbackView_commonCase build env d h
  any_goals rfl
  · have hv := rollbackView_inGameCase env d
    cases hf : inGameCase env d <;> rw [hf] at hv <;>
      simp only [Flow.state_next, Flow.state_returned, Flow.state_thrown] at hv <;>
      simp only [Flow.andThen, Flow.state_thrown]
    · rw [rollbackView_commonCase build env _
        (h.imp id (fun h0 => (rollback_eq_of_view hv).trans h0)), hv]
    · rw [rollbackView_commonCase build env _
        (h.imp id (fun h0 => (rollback_eq_of_view hv).trans h0)), hv]
    · exact hv
  · simp [DllMain.rollbackView_push, Call.isLoadState]

/-- When no rollback test fires, the rollback tests change nothing: in a build with
`RELEASE`, during a replay, or when F9 and F10 are not pressed and the random rollback
test is off. -/
theorem testRollback_idle (build : Build) (env : Env) (d : DllMain)
    (h : build.release = true ∨ d.replayInputs = true
      ∨ (env.f9Pressed = false ∧ env.f10Pressed = false ∧ d.randomRollback = false)) :
    testRollback build env d = .next d := by
  unfold testRollback
  split
  · rename_i h1
    rcases h with h | h | ⟨h9, h10, hr⟩
    · rw [h] at h1
      simp at h1
    · rw [h] at h1
      simp at h1
    · simp [oneTimeRollbackTest, toggleRandomRollback, randomRollbackTest, h9, h10, hr]
  · rfl

/-- The `loadState` calls of the rollback of `frameStepNormal`: one call, with the last
changed frame as target, exactly when rollback is active and the last changed frame is
before the current frame. -/
theorem rollbackView_normalRollback (env : Env) (d : DllMain) :
    (normalRollback env d).state.rollbackView
      = (d.netMan.config.rollback, d.randomRollback,
          loadStateCalls d.calls ++
            (if d.netMan.isInRollback = true
                ∧ d.netMan.getLastChangedFrame.value < d.netMan.getIndexedFrame.value
             then [(d.netMan.getLastChangedFrame, d.netMan.getIndexedFrame)] else [])) := by
  unfold normalRollback
  split
  · rw [rollbackView_startFastForward, rollbackView_loadState]
    rfl
  · simp [DllMain.rollbackView]

/-- The `loadState` calls of `frameStepNormal` once the waiting loop is left, when no
rollback test fires. -/
theorem rollbackView_afterWait (build : Build) (env : Env) (d : DllMain)
    (h : build.release = true ∨ d.replayInputs = true
      ∨ (env.f9Pressed = false ∧ env.f10Pressed = false ∧ d.randomRollback = false)) :
    (afterWait build env d).state.rollbackView
      = (d.netMan.config.rollback, d.randomRollback,
          loadStateCalls d.calls ++
            (if d.netMan.isInRollback = true
                ∧ d.netMan.getLastChangedFrame.value < d.netMan.getIndexedFrame.value
             then [(d.netMan.getLastChangedFrame, d.netMan.getIndexedFrame)] else [])) := by
  unfold afterWait
  rw [testRollback_idle build env d h]
  show ((normalRollback env d).bind (finishStep build env)).state.rollbackView = _
  rw [rollbackView_bind _ _ (rollbackView_finishStep build env), rollbackView_normalRollback]

/-- The state of a finished function. -/
@[simp] theorem Flow.outcome_state (f : Flow) : f.outcome.state = f.state := by
  cases f <;> rfl

/-- The `loadState` calls of `frameStepNormal`, in a build with `RELEASE`, or without a
negotiated rollback when no rollback test fires: the calls it adds have a target
strictly before the current frame, and without a negotiated rollback it adds none. -/
theorem rollbackView_frameStepNormal (build : Build) (env : Env) (d : DllMain)
    (h : build.release = true ∨ (d.netMan.config.rollback = 0 ∧ env.f9Pressed = false
      ∧ env.f10Pressed = false ∧ d.randomRollback = false)) :
    ∃ extra, (frameStepNormal build env d).state.rollbackView
        = (d.netMan.config.rollback, d.randomRollback, loadStateCalls d.calls ++ extra)
      ∧ (∀ p ∈ extra, p.1.value < p.2.value)
      ∧ (d.netMan.config.rollback = 0 → extra = []) := by
  have quiet : ∀ d2 : DllMain, d2.rollbackView = d.rollbackView →
      ∃ extra, d2.rollbackView
          = (d.netMan.config.rollback, d.randomRollback, loadStateCalls d.calls ++ extra)
        ∧ (∀ p ∈ extra, p.1.value < p.2.value)
        ∧ (d.netMan.config.rollback = 0 → extra = []) := by
    intro d2 hv
    refine ⟨[], ?_, ?_, fun _ => rfl⟩
    · rw [hv, List.append_nil]
      rfl
    · intro p hp
      cases hp
  have hin := rollbackView_inputPhase build env d (h.imp id (fun h => h.1))
  unfold frameStepNormal
  cases hf : inputPhase build env d with
  | returned dI =>
    rw [hf] at hin
    exact quiet dI hin
  | thrown dI =>
    rw [hf] at hin
    exact quiet dI hin
  | next dI =>
    rw [hf] at hin
    simp only [Flow.state_next] at hin
    have hw := rollbackView_waitLoop build env env.polls
      (dI.netCall env .clearLastChangedFrame)
    rw [DllMain.rollbackView_netCall, hin] at hw
    simp only [waitAndRun]
    cases hwl : waitLoop build env env.polls (dI.netCall env .clearLastChangedFrame) with
    | stopped dR =>
      rw [hwl] at hw
      exact quiet dR hw
    | thrown dR =>
      rw [hwl] at hw
      exact quiet dR hw
    | waiting dR =>
      rw [hwl] at hw
      exact quiet dR hw
    | ready dR =>
      rw [hwl] at hw
      simp only [WaitOutcome.state] at hw
      have hrb := rollback_eq_of_view hw
      have hrr := randomRollback_eq_of_view hw
      have hl := loadStateCalls_eq_of_view hw
      have hidle : build.release = true ∨ dR.replayInputs = true
          ∨ (env.f9Pressed = false ∧ env.f10Pressed = false ∧ dR.randomRollback = false) :=
        h.imp id (fun h => Or.inr ⟨h.2.1, h.2.2.1, hrr.trans h.2.2.2⟩)
      refine ⟨(if dR.netMan.isInRollback = true
          ∧ dR.netMan.getLastChangedFrame.value < dR.netMan.getIndexedFrame.value
        then [(dR.netMan.getLastChangedFrame, dR.netMan.getIndexedFrame)] else []),
        ?_, ?_, ?_⟩
      · simp only [Flow.outcome_state]
        rw [rollbackView_afterWait build env dR hidle, hrb, hrr, hl]
      · intro p hp
        split at hp
        · rename_i hc
          rw [List.mem_singleton] at hp
          rw [hp]
          exact hc.2
        · cases hp
      · intro h0
        rw [isInRollback_eq_false (hrb.trans h0)]
        simp

/-- The `loadState` calls of `frameStep`, under the conditions of
`rollbackView_frameStepNormal`. -/
theorem rollbackView_frameStep (build : Build) (env : Env) (d : DllMain)
    (h : build.release = true ∨ (d.netMan.config.rollback = 0 ∧ env.f9Pressed = false
      ∧ env.f10Pressed = false ∧ d.randomRollback = false)) :
    ∃ extra, (frameStep build env d).state.rollbackView
        = (d.netMan.config.rollback, d.randomRollback, loadStateCalls d.calls ++ extra)
      ∧ (∀ p ∈ extra, p.1.value < p.2.value)
      ∧ (d.netMan.config.rollback = 0 → extra = []) := by
  have quiet : ∀ d2 : DllMain, d2.rollbackView = d.rollbackView →
      ∃ extra, d2.rollbackView
          = (d.netMan.config.rollback, d.randomRollback, loadStateCalls d.calls ++ extra)
        ∧ (∀ p ∈ extra, p.1.value < p.2.value)
        ∧ (d.netMan.config.rollback = 0 → extra = []) := by
    intro d2 hv
    refine ⟨[], ?_, ?_, fun _ => rfl⟩
    · rw [hv, List.append_nil]
      rfl
    · intro p hp
      cases hp
  have body : ∀ d1 : DllMain, d1.rollbackView = d.rollbackView →
      ∃ extra, (frameStepBody build env d1).state.rollbackView
          = (d.netMan.config.rollback, d.randomRollback, loadStateCalls d.calls ++ extra)
        ∧ (∀ p ∈ extra, p.1.value < p.2.value)
        ∧ (d.netMan.config.rollback = 0 → extra = []) := by
    intro d1 hv1
    have hv2 : (clearIntroState d1).rollbackView = d.rollbackView := by
      rw [rollbackView_clearIntroState, hv1]
    unfold frameStepBody performStep
    split_ifs
    · refine quiet _ ?_
      show (closeStep _).rollbackView = _
      rw [rollbackView_closeStep, rollbackView_frameStepRerun, hv2]
    · have hrb := rollback_eq_of_view hv2
      have hrr := randomRollback_eq_of_view hv2
      have hl := loadStateCalls_eq_of_view hv2
      obtain ⟨extra, he, hp, h0⟩ := rollbackView_frameStepNormal build env
        (clearIntroState d1)
        (h.imp id (fun h => ⟨hrb.trans h.1, h.2.1, h.2.2.1, hrr.trans h.2.2.2⟩))
      rw [hrb, hrr, hl] at he
      refine ⟨extra, ?_, hp, fun h => h0 (hrb.trans h)⟩
      cases hs : frameStepNormal build env (clearIntroState d1) <;> rw [hs] at he <;>
        simp only [StepOutcome.state] at he ⊢
      · rw [rollbackView_closeStep, he]
      · exact he
      · exact he
  have hm := rollbackView_monitorCheck build env env.changes
    ((d.netCall env .updateFrame).push .clearInputs)
  rw [DllMain.rollbackView_push _ Call.clearInputs rfl, DllMain.rollbackView_netCall] at hm
  unfold frameStep
  cases hf : monitorCheck build env env.changes
      ((d.netCall env .updateFrame).push .clearInputs) <;> rw [hf] at hm <;>
    simp only [Flow.state_next, Flow.state_returned, Flow.state_thrown] at hm
  · exact body _ hm
  · exact body _ hm
  · exact quiet _ hm

/-- The `loadState` calls of a run of frame steps: in a build with `RELEASE`, or without
a negotiated rollback when no rollback test fires, the calls it adds have a target
strictly before the current frame, and without a negotiated rollback it adds none. -/
theorem rollbackView_frameSteps (build : Build) (envs : List Env) :
    ∀ d : DllMain,
      (build.release = true ∨ (d.netMan.config.rollback = 0 ∧ d.randomRollback = false
        ∧ ∀ env ∈ envs, env.f9Pressed = false ∧ env.f10Pressed = false)) →
      ∃ extra, (frameSteps build envs d).state.rollbackView
          = (d.netMan.config.rollback, d.randomRollback, loadStateCalls d.calls ++ extra)
        ∧ (∀ p ∈ extra, p.1.value < p.2.value)
        ∧ (d.netMan.config.rollback = 0 → extra = []) := by
  induction envs with
  | nil =>
    intro d _
    refine ⟨[], ?_, ?_, fun _ => rfl⟩
    · rw [List.append_nil]
      rfl
    · intro p hp
      cases hp
  | cons env envs ih =>
    intro d h
    obtain ⟨e1, he1, hp1, h01⟩ := rollbackView_frameStep build env d
      (h.imp id (fun h => ⟨h.1, (h.2.2 env (List.mem_cons_self _ _)).1,
        (h.2.2 env (List.mem_cons_self _ _)).2, h.2.1⟩))
    unfold frameSteps
    cases hs : frameStep build env d with
    | thrown d2 =>
      rw [hs] at he1
      exact ⟨e1, he1, hp1, h01⟩
    | waiting d2 =>
      rw [hs] at he1
      exact ⟨e1, he1, hp1, h01⟩
    | finished d2 =>
      rw [hs] at he1
      simp only [StepOutcome.state] at he1
      have hrb : d2.netMan.config.rollback = d.netMan.config.rollback :=
        congrArg Prod.fst he1
      have hrr : d2.randomRollback = d.randomRollback := congrArg (fun v => v.2.1) he1
      have hl : loadStateCalls d2.calls = loadStateCalls d.calls ++ e1 :=
        congrArg (fun v => v.2.2) he1
      obtain ⟨e2, he2, hp2, h02⟩ := ih d2
        (h.imp id (fun h => ⟨hrb.trans h.1, hrr.trans h.2.1,
          fun env he => h.2.2 env (List.mem_cons_of_mem _ he)⟩))
      refine ⟨e1 ++ e2, ?_, ?_, ?_⟩
      · rw [he2, hrb, hrr, hl, List.append_assoc]
      · intro p hp
        rcases List.mem_append.1 hp with hp | hp
        · exact hp1 p hp
        · exact hp2 p hp
      · intro h0
        rw [h01 h0, h02 (hrb.trans h0)]
        rfl

/-! ### The rollback of a frame step -/

/-- C8: once the inputs are ready (the `switch` of `frameStepNormal` was left normally
and the waiting loop was left with the state `dR`), on the normal path (no rollback
test fires) `frameStepNormal` calls `loadState` iff `netMan.isInRollback()` and
`getLastChangedFrame().value < getIndexedFrame().value`, once, with exactly
`getLastChangedFrame()` as target; when the last changed frame is the current frame
there is no rewind. -/
theorem frameStepNormal_rollback_iff (build : Build) (env : Env) (d dI dR : DllMain)
    (hin : inputPhase build env d = .next dI)
    (hwait : waitLoop build env env.polls (dI.netCall env .clearLastChangedFrame)
      = .ready dR)
    (hnormal : build.release = true ∨ dR.replayInputs = true
      ∨ (env.f9Pressed = false ∧ env.f10Pressed = false ∧ dR.randomRollback = false)) :
    loadStateCalls (frameStepNormal build env d).state.calls
      = loadStateCalls dR.calls ++
          (if dR.netMan.isInRollback = true
              ∧ dR.netMan.getLastChangedFrame.value < dR.netMan.getIndexedFrame.value
           then [(dR.netMan.getLastChangedFrame, dR.netMan.getIndexedFrame)] else []) ∧
    (dR.netMan.getLastChangedFrame = dR.netMan.getIndexedFrame →
      loadStateCalls (frameStepNormal build env d).state.calls
        = loadStateCalls dR.calls) := by
  have key : loadStateCalls (frameStepNormal build env d).state.calls
      = loadStateCalls dR.calls ++
          (if dR.netMan.isInRollback = true
              ∧ dR.netMan.getLastChangedFrame.value < dR.netMan.getIndexedFrame.value
           then [(dR.netMan.getLastChangedFrame, dR.netMan.getIndexedFrame)] else []) := by
    unfold frameStepNormal
    rw [hin]
    simp only [waitAndRun]
    rw [hwait]
    simp only [Flow.outcome_state]
    exact congrArg (fun v => v.2.2) (rollbackView_afterWait build env dR hnormal)
  refine ⟨key, ?_⟩
  intro heq
  rw [key, heq]
  simp

/-- Witness of C8: with rollback 5 at frame 1:23, the input of frame 1:20 changes while
the step waits: the state is rewound to frame 1:20. -/
theorem frameStepNormal_rollback_iff_witness :
    loadStateCalls (frameStepNormal {} (lateInputEnv ⟨1, 20⟩) (rollbackPeer 5 23)).state.calls
      = [(⟨1, 20⟩, ⟨1, 23⟩)] :=
  (frameStepNormal_rollback_iff {} (lateInputEnv ⟨1, 20⟩) (rollbackPeer 5 23)
    (inputPhase {} (lateInputEnv ⟨1, 20⟩) (rollbackPeer 5 23)).state
    (waitLoop {} (lateInputEnv ⟨1, 20⟩) (lateInputEnv ⟨1, 20⟩).polls
      ((inputPhase {} (lateInputEnv ⟨1, 20⟩) (rollbackPeer 5 23)).state.netCall
        (lateInputEnv ⟨1, 20⟩) .clearLastChangedFrame)).state
    rfl rfl (Or.inl rfl)).1.trans (by decide)

/-- C9, as stated, fails: in a build without `RELEASE`, a peer in game whose negotiated
rollback is 0 calls `loadState` when F9 is pressed, with the frame 30 frames back as
target. -/
theorem loadState_without_rollback_counterexample :
    (rollbackPeer 0 100).netMan.config.rollback = 0 ∧
    loadStateCalls (frameStep debugBuild f9Env (rollbackPeer 0 100)).state.calls
      = [(⟨1, 70⟩, ⟨1, 100⟩)] := by
  decide

/-- C9, amended: when the negotiated rollback is 0, no frame step of a run calls
`loadState`, whatever the inputs and events, in a build with `RELEASE`, and in a build
without `RELEASE` as long as the random rollback test is off and neither F9 nor F10 is
pressed. -/
theorem frameSteps_no_loadState_without_rollback (build : Build) (envs : List Env)
    (d : DllMain) (h0 : d.netMan.config.rollback = 0)
    (hidle : build.release = true ∨ (d.randomRollback = false
      ∧ ∀ env ∈ envs, env.f9Pressed = false ∧ env.f10Pressed = false)) :
    loadStateCalls (frameSteps build envs d).state.calls = loadStateCalls d.calls := by
  have hrel : build.release = true ∨ (d.netMan.config.rollback = 0
      ∧ d.randomRollback = false
      ∧ ∀ env ∈ envs, env.f9Pressed = false ∧ env.f10Pressed = false) :=
    hidle.imp id (fun h => ⟨h0, h⟩)
  obtain ⟨extra, he, _, hnil⟩ := rollbackView_frameSteps build envs d hrel
  have hl : loadStateCalls (frameSteps build envs d).state.calls
      = loadStateCalls d.calls ++ extra := congrArg (fun v => v.2.2) he
  rw [hl, hnil h0, List.append_nil]

/-- Witness of C9 amended: two frame steps of a release build without rollback, during
which late inputs arrive. -/
theorem frameSteps_no_loadState_without_rollback_witness :
    loadStateCalls
      (frameSteps {} [lateInputEnv ⟨1, 20⟩, lateInputEnv ⟨1, 21⟩] (rollbackPeer 0 23)
        ).state.calls = [] :=
  frameSteps_no_loadState_without_rollback {} [lateInputEnv ⟨1, 20⟩, lateInputEnv ⟨1, 21⟩]
    (rollbackPeer 0 23) rfl (Or.inl rfl)

/-- C10, as stated, fails: with the negotiated rollback 5 at frame 1:100, a build
without `RELEASE` rewinds 30 frames when F9 is pressed, and, in any build, an input of
frame 1:50 that changes while the step waits makes the step call `loadState` for frame
1:50: both targets are more than 5 frames before the current frame. -/
theorem loadState_beyond_rollback_counterexample :
    (rollbackPeer 5 100).netMan.config.rollback = 5 ∧
    loadStateCalls (frameStep debugBuild f9Env (rollbackPeer 5 100)).state.calls
      = [(⟨1, 70⟩, ⟨1, 100⟩)] ∧
    loadStateCalls (frameStep {} (lateInputEnv ⟨1, 50⟩) (rollbackPeer 5 100)).state.calls
      = [(⟨1, 50⟩, ⟨1, 100⟩)] ∧
    ¬ (100 - 70 ≤ 5) ∧ ¬ (100 - 50 ≤ 5) := by
  decide

/-- C10, amended: in a build with `RELEASE`, every `loadState` that the frame steps of
a run call has a target strictly before the frame that is current at the call, in the
packed order; no bound of `rollback` frames is applied. -/
theorem frameSteps_loadState_before_current (build : Build) (envs : List Env)
    (d : DllMain) (hrelease : build.release = true)
    (p : IndexedFrame × IndexedFrame)
    (hp : p ∈ loadStateCalls (frameSteps build envs d).state.calls) :
    p ∈ loadStateCalls d.calls ∨ p.1.value < p.2.value := by
  obtain ⟨extra, he, hlt, _⟩ := rollbackView_frameSteps build envs d (Or.inl hrelease)
  have hl : loadStateCalls (frameSteps build envs d).state.calls
      = loadStateCalls d.calls ++ extra := congrArg (fun v => v.2.2) he
  rw [hl] at hp
  rcases List.mem_append.1 hp with h | h
  · exact Or.inl h
  · exact Or.inr (hlt p h)

/-- Witness of C10 amended: the rewind from frame 1:23 to frame 1:20. -/
theorem frameSteps_loadState_before_current_witness :
    (⟨1, 20⟩, ⟨1, 23⟩) ∈ loadStateCalls ([] : List Call)
      ∨ (IndexedFrame.mk 1 20).value < (IndexedFrame.mk 1 23).value :=
  frameSteps_loadState_before_current {} [lateInputEnv ⟨1, 20⟩] (rollbackPeer 5 23) rfl
    (⟨1, 20⟩, ⟨1, 23⟩) (by decide)

/-- C11 fails on the code: a peer with rollback 5 at frame 1:100 learns while it waits
that the input of frame 1:50 changed, and the snapshot provider has no state that old, so
`loadState` fails.  The step does not stop the session: it finishes, no stop is
scheduled, no error is sent, the application keeps polling, the current frame 1:100 is
simulated (the game inputs are written), and `fastFwdStopFrame` stays set. -/
theorem normalRollback_failed_loadState_goes_on :
    (rollbackPeer 5 100).netMan.isInRollback = true ∧
    (staleInputEnv ⟨1, 50⟩).loadState ⟨1, 50⟩ (rollbackPeer 5 100).netMan
      = (false, (rollbackPeer 5 100).netMan) ∧
    ∃ d2, frameStep {} (staleInputEnv ⟨1, 50⟩) (rollbackPeer 5 100) = .finished d2 ∧
      loadStateCalls d2.calls = [(⟨1, 50⟩, ⟨1, 100⟩)] ∧
      d2.stopTimer = false ∧ d2.appState = .Polling ∧ d2.calls.any Call.isError = false ∧
      d2.netMan.getIndexedFrame = ⟨1, 100⟩ ∧ d2.fastFwdStopFrame = ⟨1, 100⟩ ∧
      d2.skipFrames = 0 ∧
      Call.writeGameInput 1 ∈ d2.calls ∧ Call.writeGameInput 2 ∈ d2.calls := by
  refine ⟨by decide, by decide, _, rfl, ?_⟩
  decide

/-- One expiry of the resend timer while it runs: the inputs are sent again, the counter
is incremented, and the stop is scheduled when the counter is above 100. -/
theorem timerExpired_resend (d : DllMain) (hr : d.resendTimer = true) :
    timerExpired d .resend
      = if 100 < d.waitInputsTimer + 1
        then delayedStop ((d.push .sendInputs).setWaitInputsTimer (d.waitInputsTimer + 1))
          "Timed out!"
        else (d.push .sendInputs).setWaitInputsTimer (d.waitInputsTimer + 1) := by
  have e : (((d.push .sendInputs).setWaitInputsTimer
      ((d.push .sendInputs).waitInputsTimer + 1)).waitInputsTimer > 10000 / 100)
      ↔ 100 < d.waitInputsTimer + 1 := by
    show (d.waitInputsTimer + 1 > 10000 / 100) ↔ 100 < d.waitInputsTimer + 1
    omega
  simp only [timerExpired, hr, and_self, if_true]
  by_cases hn : 100 < d.waitInputsTimer + 1
  · rw [if_pos (e.2 hn), if_pos hn]; rfl
  · rw [if_neg (fun h => hn (e.1 h)), if_neg hn]; rfl

/-- What `n` expiries of the resend timer in a row leave, from the state in which the
waiting began. -/
theorem resendExpiries_invariant (d : DllMain) (hr : d.resendTimer = true)
    (hw : d.waitInputsTimer = 0) (hs : d.stopTimer = false) (n : Nat) :
    (resendExpiries n d).resendTimer = true ∧
    (resendExpiries n d).waitInputsTimer = n ∧
    (resendExpiries n d).clientMode = d.clientMode ∧
    (resendExpiries n d).lazyDisconnect = d.lazyDisconnect ∧
    ((resendExpiries n d).stopTimer = true ↔ 100 < n) := by
  induction n with
  | zero => simp [resendExpiries, hr, hw, hs]
  | succ n ih =>
    obtain ⟨h1, h2, h3, h4, h5⟩ := ih
    show (timerExpired (resendExpiries n d) .resend).resendTimer = true ∧
      (timerExpired (resendExpiries n d) .resend).waitInputsTimer = ((n + 1 : Nat) : Int) ∧
      (timerExpired (resendExpiries n d) .resend).clientMode = d.clientMode ∧
      (timerExpired (resendExpiries n d) .resend).lazyDisconnect = d.lazyDisconnect ∧
      ((timerExpired (resendExpiries n d) .resend).stopTimer = true ↔ 100 < n + 1)
    rw [timerExpired_resend _ h1, h2]
    by_cases hn : 100 < (n : Int) + 1
    · rw [if_pos hn]
      refine ⟨h1, by push_cast; rfl, h3, h4, ?_⟩
      exact ⟨fun _ => by omega, fun _ => rfl⟩
    · rw [if_neg hn]
      refine ⟨h1, by push_cast; rfl, h3, h4, ?_⟩
      constructor
      · intro h
        have := h5.1 h
        omega
      · intro h
        omega

/-- The waiting loop of a host or client is left once the inputs and the RngState are
there: the resend timer is reset and the counter is -1. -/
theorem afterPoll_ready (q : PollRound) (d : DllMain)
    (hlocal : d.clientMode.isLocal = false) (hlazy : d.lazyDisconnect = false)
    (hspec : d.clientMode.isSpectate = false)
    (hq1 : q.remoteInputReady = true) (hq2 : q.rngStateReady = true) :
    afterPoll q d = ((d.setResendTimer false).setWaitInputsTimer (-1), true) := by
  simp [afterPoll, hlocal, hlazy, hspec, hq1, hq2]

/-- C12: a host or client that is not waiting yet and has no stop scheduled finds after
a poll `p` that the inputs are not ready.  The waiting loop starts the resend timer with
`waitInputsTimer = 0` and goes on; after `n` expiries of the resend timer in a row the
counter is `n`; the expiry number `n + 1` sends the inputs again and calls
`delayedStop ( "Timed out!" )` iff `n + 1 > 100`, so a stop is scheduled after `n`
expiries iff `n > 100`: first by expiry 101, never earlier; and a poll `q` after which
the inputs are ready leaves the loop with the timer reset and `waitInputsTimer = -1`. -/
theorem resend_timeout_after_100_expiries (p q : PollRound) (d : DllMain) (n : Nat)
    (hlocal : d.clientMode.isLocal = false) (hlazy : d.lazyDisconnect = false)
    (hspec : d.clientMode.isSpectate = false) (hresend : d.resendTimer = false)
    (hstop : d.stopTimer = false)
    (hp : ¬ (p.remoteInputReady = true ∧ p.rngStateReady = true))
    (hq : q.remoteInputReady = true ∧ q.rngStateReady = true) :
    -- waiting begins: the resend timer is started and the counter is 0
    ((afterPoll p d).2 = false ∧ (afterPoll p d).1.resendTimer = true
      ∧ (afterPoll p d).1.waitInputsTimer = 0) ∧
    -- every expiry increments the counter
    (resendExpiries n (afterPoll p d).1).waitInputsTimer = n ∧
    -- the expiry number `n + 1` sends the inputs again and, iff `n + 1 > 100`, the error
    (resendExpiries (n + 1) (afterPoll p d).1).calls
      = (resendExpiries n (afterPoll p d).1).calls
        ++ (if 100 < n + 1 then [.sendInputs, .ipcSend (.errorMessage "Timed out!")]
            else [.sendInputs]) ∧
    -- a stop is scheduled after `n` expiries iff `n > 100`
    ((resendExpiries n (afterPoll p d).1).stopTimer = true ↔ 100 < n) ∧
    -- becoming ready resets the counter and leaves the loop
    ((afterPoll q (resendExpiries n (afterPoll p d).1)).2 = true ∧
      (afterPoll q (resendExpiries n (afterPoll p d).1)).1.resendTimer = false ∧
      (afterPoll q (resendExpiries n (afterPoll p d).1)).1.waitInputsTimer = -1) := by
  have h0 : afterPoll p d = ((d.setResendTimer true).setWaitInputsTimer 0, false) := by
    simp [afterPoll, hlocal, hlazy, hspec, hresend, hp]
  have hr0 : (afterPoll p d).1.resendTimer = true := by rw [h0]; rfl
  have hw0 : (afterPoll p d).1.waitInputsTimer = 0 := by rw [h0]; rfl
  have hs0 : (afterPoll p d).1.stopTimer = false := by rw [h0]; exact hstop
  have hc0 : (afterPoll p d).1.clientMode = d.clientMode := by rw [h0]; rfl
  have hl0 : (afterPoll p d).1.lazyDisconnect = d.lazyDisconnect := by rw [h0]; rfl
  obtain ⟨i1, i2, i3, i4, i5⟩ := resendExpiries_invariant (afterPoll p d).1 hr0 hw0 hs0 n
  refine ⟨⟨by rw [h0], hr0, hw0⟩, i2, ?_, i5, ?_⟩
  · show (timerExpired (resendExpiries n (afterPoll p d).1) .resend).calls = _
    rw [timerExpired_resend _ i1, i2]
    by_cases hn : 100 < n + 1
    · rw [if_pos (by omega), if_pos hn]
      simp [delayedStop, DllMain.push, DllMain.setWaitInputsTimer, DllMain.setStopTimer]
    · rw [if_neg (by omega), if_neg hn]
      simp [DllMain.push, DllMain.setWaitInputsTimer]
  · have hX := afterPoll_ready q (resendExpiries n (afterPoll p d).1)
      (by rw [i3, hc0]; exact hlocal) (by rw [i4, hl0]; exact hlazy)
      (by rw [i3, hc0]; exact hspec) hq.1 hq.2
    rw [hX]
    exact ⟨rfl, rfl, rfl⟩

/-- Witness of C12: a client starts to wait; after 100 expiries the counter is 100 and no
stop is scheduled, and expiry 101 sends the error `Timed out!` and schedules the stop. -/
theorem resend_timeout_after_100_expiries_witness :
    (resendExpiries 100 (afterPoll notReadyPoll clientPeer).1).waitInputsTimer = 100 ∧
    (resendExpiries 100 (afterPoll notReadyPoll clientPeer).1).stopTimer = false ∧
    (resendExpiries 101 (afterPoll notReadyPoll clientPeer).1).stopTimer = true ∧
    (resendExpiries 101 (afterPoll notReadyPoll clientPeer).1).calls
      = (resendExpiries 100 (afterPoll notReadyPoll clientPeer).1).calls
        ++ [.sendInputs, .ipcSend (.errorMessage "Timed out!")] :=
  ⟨(resend_timeout_after_100_expiries notReadyPoll {} clientPeer 100 rfl rfl rfl rfl rfl
      (by decide) (by decide)).2.1,
    Bool.eq_false_iff.2 (fun h => absurd
      ((resend_timeout_after_100_expiries notReadyPoll {} clientPeer 100 rfl rfl rfl rfl
        rfl (by decide) (by decide)).2.2.2.1.1 h) (by decide)),
    (resend_timeout_after_100_expiries notReadyPoll {} clientPeer 101 rfl rfl rfl rfl rfl
      (by decide) (by decide)).2.2.2.1.2 (by decide),
    (resend_timeout_after_100_expiries notReadyPoll {} clientPeer 100 rfl rfl rfl rfl rfl
      (by decide) (by decide)).2.2.1.trans (by rw [if_pos (by decide)])⟩

/-- C13: for every current state `X = netMan.getState()` and every requested state `Y`,
`netplayStateChanged ( Y )` is left by the failed `ASSERT` iff `X = Y`; a request with
`X ≠ Y` never throws. -/
theorem netplayStateChanged_thrown_iff (env : Env) (d : DllMain) (state : NetplayState) :
    (∃ d2, netplayStateChanged env d state = .thrown d2) ↔ d.netMan.getState = state := by
  constructor
  · rintro ⟨d2, h⟩
    by_contra hne
    unfold netplayStateChanged at h
    rw [if_neg hne] at h
    lift_lets at h
    extract_lets d1 d3 d4 d5 finish d6 at h
    split_ifs at h
  · intro h
    exact ⟨d.push .thrown, by unfold netplayStateChanged; rw [if_pos h]⟩

/-- C14: a host or client whose configuration is not resolved yet (`netMan.config.delay`
is `0xFF`) handles a `NetplayConfig`: the invalid host configuration error is thrown iff
the delay received is `0xFF` or `hostPlayer` is neither 1 nor 2; a configuration with
`delay ≠ 0xFF` and `hostPlayer` 1 or 2 is stored, the players are numbered and the
sockets opened, without error. -/
theorem ipcReadEvent_invalidHostConfig_iff (env : Env) (d : DllMain) (msg : NetplayConfig)
    (hmode : d.clientMode.isNetplay = true) (hunset : d.netMan.config.delay = 0xFF) :
    ((ipcReadEventNetplayConfig env d msg).isInvalidHostConfig = true
      ↔ (msg.delay = 0xFF ∨ (msg.hostPlayer ≠ 1 ∧ msg.hostPlayer ≠ 2))) ∧
    (msg.delay ≠ 0xFF → (msg.hostPlayer = 1 ∨ msg.hostPlayer = 2) →
      ipcReadEventNetplayConfig env d msg
        = .done (openSockets env (assignPlayers env
            (d.setConfig { msg with mode := d.clientMode })))) := by
  have hm : (d.setConfig { msg with mode := d.clientMode }).clientMode.isNetplay = true :=
    hmode
  have hd : (d.setConfig { msg with mode := d.clientMode }).netMan.config.delay
      = msg.delay := rfl
  have hh : (d.setConfig { msg with mode := d.clientMode }).netMan.config.hostPlayer
      = msg.hostPlayer := rfl
  have hne : ¬ (d.netMan.config.delay ≠ 0xFF) := fun h => h hunset
  unfold ipcReadEventNetplayConfig
  rw [if_neg hne]
  simp only [hd, hh, hm, if_true]
  by_cases h1 : msg.delay = 0xFF
  · simp [h1, IpcOutcome.isInvalidHostConfig]
  · by_cases h2 : msg.hostPlayer ≠ 1 ∧ msg.hostPlayer ≠ 2
    · rw [if_neg h1, if_pos h2]
      refine ⟨by simp [IpcOutcome.isInvalidHostConfig, h2], ?_⟩
      intro _ h3
      exact absurd h3 (by omega)
    · rw [if_neg h1, if_neg h2]
      refine ⟨?_, fun _ _ => rfl⟩
      simp only [IpcOutcome.isInvalidHostConfig]
      constructor
      · intro h; cases h
      · rintro (h | h)
        · exact absurd h h1
        · exact absurd h h2

/-- Witness of C14: a host accepts the configuration with delay 2 and host player 1 and
becomes player 1; it throws the error for the delay `0xFF` and for the host player 3. -/
theorem ipcReadEvent_invalidHostConfig_iff_witness :
    (ipcReadEventNetplayConfig {} unconfiguredHost hostConfig).isInvalidHostConfig = false ∧
    (ipcReadEventNetplayConfig {} unconfiguredHost hostConfig).state.netMan.config.delay = 2
    ∧ (ipcReadEventNetplayConfig {} unconfiguredHost hostConfig).state.localPlayer = 1
    ∧ (ipcReadEventNetplayConfig {} unconfiguredHost hostConfig).state.remotePlayer = 2
    ∧ (ipcReadEventNetplayConfig {} unconfiguredHost
        { delay := 0xFF, hostPlayer := 1 }).isInvalidHostConfig = true
    ∧ (ipcReadEventNetplayConfig {} unconfiguredHost
        { delay := 2, hostPlayer := 3 }).isInvalidHostConfig = true := by
  have h := (ipcReadEvent_invalidHostConfig_iff {} unconfiguredHost hostConfig rfl rfl).2
    (by decide) (by decide)
  rw [h]
  exact ⟨rfl, rfl, rfl, rfl,
    (ipcReadEvent_invalidHostConfig_iff {} unconfiguredHost
      { delay := 0xFF, hostPlayer := 1 } rfl rfl).1.2 (Or.inl rfl),
    (ipcReadEvent_invalidHostConfig_iff {} unconfiguredHost
      { delay := 2, hostPlayer := 3 } rfl rfl).1.2 (Or.inr (by decide))⟩

/-- C15, as stated, fails: a broadcasting peer with one spectator, far below 15, sends
the newly accepted socket 6 the address of a spectator and adds it to
`redirectedSockets`. -/
theorem acceptEvent_broadcast_redirect_counterexample :
    broadcastPeer.clientMode.isBroadcast = true ∧ numSpectators broadcastPeer = 1 ∧
    numSpectators broadcastPeer < 15 ∧
    (acceptEvent redirectEnv broadcastPeer 3 6).state.redirectedSockets = [6] ∧
    (acceptEvent redirectEnv broadcastPeer 3 6).state.calls
      = [.send 6 (.ipAddrPort 4000)] := by
  decide

/-- C15, amended: the bound is 15 for a spectating peer and 1 for every other role.  A
socket accepted on the control socket, not redirected before, is redirected only when
the peer has at least that many spectators; below the bound the `VersionConfig` is sent
to it, it becomes pending and `redirectedSockets` does not change. -/
theorem acceptEvent_redirect_bound (env : Env) (d : DllMain) (newSocket : SocketId)
    (hnew : newSocket ∉ d.redirectedSockets) :
    (newSocket ∈ (acceptEvent env d d.serverCtrlSocket newSocket).state.redirectedSockets →
      (if d.clientMode.isSpectate = true then 15 else 1) ≤ numSpectators d) ∧
    (numSpectators d < (if d.clientMode.isSpectate = true then 15 else 1) →
      newSocket ≠ 0 → env.acceptedConnected = true →
      acceptEvent env d d.serverCtrlSocket newSocket
        = .next (pushPendingSocket (d.push (.send newSocket (.versionConfig true)))
            newSocket) ∧
      (acceptEvent env d d.serverCtrlSocket newSocket).state.redirectedSockets
        = d.redirectedSockets ∧
      (acceptEvent env d d.serverCtrlSocket newSocket).state.calls
        = d.calls ++ [.send newSocket (.versionConfig true)]) := by
  have hshould : numSpectators d < (if d.clientMode.isSpectate = true then 15 else 1) →
      SHOULD_REDIRECT_SPECTATORS d = false := by
    intro h
    unfold SHOULD_REDIRECT_SPECTATORS
    split_ifs at h ⊢ <;> simp <;> omega
  have hdirect : SHOULD_REDIRECT_SPECTATORS d = false →
      newSocket ≠ 0 → env.acceptedConnected = true →
      acceptEvent env d d.serverCtrlSocket newSocket
        = .next (pushPendingSocket (d.push (.send newSocket (.versionConfig true)))
            newSocket) := by
    intro hs h0 hc
    unfold acceptEvent
    rw [if_pos rfl, if_neg (by simp [h0, hc])]
    simp [hs]
  constructor
  · intro hmem
    by_contra hlt
    have hs := hshould (by omega)
    by_cases hok : newSocket = 0 ∨ env.acceptedConnected = false
    · have : acceptEvent env d d.serverCtrlSocket newSocket = .thrown (d.push .thrown) := by
        unfold acceptEvent
        rw [if_pos rfl, if_pos hok]
      rw [this] at hmem
      exact hnew hmem
    · have h0 : newSocket ≠ 0 := fun h => hok (Or.inl h)
      have hc : env.acceptedConnected = true := by
        cases h : env.acceptedConnected
        · exact absurd (Or.inr h) hok
        · rfl
      rw [hdirect hs h0 hc] at hmem
      exact hnew hmem
  · intro hlt h0 hc
    have h := hdirect (hshould hlt) h0 hc
    rw [h]
    exact ⟨rfl, rfl, rfl⟩

/-- Witness of C15 amended: a spectator with 14 spectators of its own accepts socket 6
directly, although a redirect address is at hand. -/
theorem acceptEvent_redirect_bound_witness :
    numSpectators relaySpectator = 14 ∧
    (acceptEvent redirectEnv relaySpectator 3 6).state.redirectedSockets = [] ∧
    (acceptEvent redirectEnv relaySpectator 3 6).state.calls
      = [.send 6 (.versionConfig true)] :=
  ⟨by decide,
    ((acceptEvent_redirect_bound redirectEnv relaySpectator 6 (by decide)).2
      (by decide) (by decide) rfl).2⟩

/-- C16: `disconnectEvent` for a socket that is not the data socket reaches its end with
the socket removed from `redirectedSockets`, from the pending sockets and from the
spectators; the `NetplayManager` (its state and its configuration), the resend timer,
`waitInputsTimer`, the initial timer, `lazyDisconnect`, the stop timer, the application
state, the data socket and the trace of calls are the same as before. -/
theorem disconnectEvent_spectator_only_removes (d : DllMain) (socket fresh : SocketId)
    (h : socket ≠ d.dataSocket) :
    disconnectEvent d socket fresh = .next (disconnectEvent d socket fresh).state ∧
    (disconnectEvent d socket fresh).state.redirectedSockets
      = d.redirectedSockets.filter (fun s => s != socket) ∧
    (disconnectEvent d socket fresh).state.pendingSockets
      = d.pendingSockets.filter (fun s => s != socket) ∧
    (disconnectEvent d socket fresh).state.spectators
      = d.spectators.filter (fun s => s != socket) ∧
    (disconnectEvent d socket fresh).state.netMan = d.netMan ∧
    (disconnectEvent d socket fresh).state.resendTimer = d.resendTimer ∧
    (disconnectEvent d socket fresh).state.waitInputsTimer = d.waitInputsTimer ∧
    (disconnectEvent d socket fresh).state.initialTimer = d.initialTimer ∧
    (disconnectEvent d socket fresh).state.lazyDisconnect = d.lazyDisconnect ∧
    (disconnectEvent d socket fresh).state.stopTimer = d.stopTimer ∧
    (disconnectEvent d socket fresh).state.appState = d.appState ∧
    (disconnectEvent d socket fresh).state.dataSocket = d.dataSocket ∧
    (disconnectEvent d socket fresh).state.calls = d.calls := by
  have e : disconnectEvent d socket fresh
      = .next (((d.setRedirectedSockets (d.redirectedSockets.filter (fun s => s != socket))
        ).setPendingSockets (d.pendingSockets.filter (fun s => s != socket))
        ).setSpectators (d.spectators.filter (fun s => s != socket))) := by
    unfold disconnectEvent
    rw [if_neg h]
  rw [e]
  exact ⟨rfl, rfl, rfl, rfl, rfl, rfl, rfl, rfl, rfl, rfl, rfl, rfl, rfl⟩

/-- Witness of C16: socket 5 of a waiting host disconnects; it leaves the three sets and
nothing else changes. -/
theorem disconnectEvent_spectator_only_removes_witness :
    (disconnectEvent relayPeer 5 0).state.redirectedSockets = [4] ∧
    (disconnectEvent relayPeer 5 0).state.pendingSockets = [6] ∧
    (disconnectEvent relayPeer 5 0).state.spectators = [8] ∧
    (disconnectEvent relayPeer 5 0).state.netMan = relayPeer.netMan ∧
    (disconnectEvent relayPeer 5 0).state.stopTimer = false :=
  ⟨(disconnectEvent_spectator_only_removes relayPeer 5 0 (by decide)).2.1.trans
      (by decide),
    (disconnectEvent_spectator_only_removes relayPeer 5 0 (by decide)).2.2.1.trans
      (by decide),
    (disconnectEvent_spectator_only_removes relayPeer 5 0 (by decide)).2.2.2.1.trans
      (by decide),
    (disconnectEvent_spectator_only_removes relayPeer 5 0 (by decide)).2.2.2.2.1,
    (disconnectEvent_spectator_only_removes relayPeer 5 0
      (by decide)).2.2.2.2.2.2.2.2.2.1⟩

/-- C17 fails on the code: `poll ( 3 )` at time 1000, while a timer expires at 1100 and
no socket has anything to read, hands the timeout 100 to the socket wait, far more than
the 3 milliseconds of the caller, and returns at time 1100. -/
theorem poll_socket_timeout_exceeds_bound :
    poll quietEventEnv 10 3 resendTimerEvents
      = .returned true { now := 1100, clock := 1100, nextExpiry := 1100 } [100] ∧
    (3 : Nat) < 100 := by
  decide

/-- C18: on a peer that is not a spectator, and as long as `frame + delay` does not
wrap, assigning the local input makes one `NetplayManager` call, which puts
`localInputs[0]` in the log of the local player at the current index and the frame
`getFrame() + getDelay()` and changes no other entry, so no earlier frame; a simulation
at that frame reads this input. -/
theorem assignLocalInput_at_frame_plus_delay (build : Build) (env : Env) (d : DllMain)
    (logs : InputLogs) (hspec : d.clientMode.isSpectate = false)
    (hwrap : d.netMan.getFrame + d.netMan.getDelay < 2 ^ 32) :
    ∃ c, (assignLocalInput build env d).calls = d.calls ++ [.netMan c] ∧
      (c.onLogs build.NUM_INPUTS d.netMan logs) d.localPlayer d.netMan.getIndex
          (d.netMan.getFrame + d.netMan.getDelay) = some d.localInputs0 ∧
      (∀ player index frame,
        ¬ (player = d.localPlayer ∧ index = d.netMan.getIndex
            ∧ frame = d.netMan.getFrame + d.netMan.getDelay) →
        (c.onLogs build.NUM_INPUTS d.netMan logs) player index frame
          = logs player index frame) ∧
      (∀ netMan : NetplayManager, netMan.getIndex = d.netMan.getIndex →
        netMan.getFrame = d.netMan.getFrame + d.netMan.getDelay →
        netMan.getInput (c.onLogs build.NUM_INPUTS d.netMan logs) d.localPlayer
          = some d.localInputs0) := by
  have key : ∀ c : NetCall,
      c.onLogs build.NUM_INPUTS d.netMan logs
        = logs.set d.localPlayer ((logs d.localPlayer).assign d.netMan.getIndex
            (d.netMan.getFrame + d.netMan.getDelay) d.localInputs0) →
      (c.onLogs build.NUM_INPUTS d.netMan logs) d.localPlayer d.netMan.getIndex
          (d.netMan.getFrame + d.netMan.getDelay) = some d.localInputs0 ∧
      (∀ player index frame,
        ¬ (player = d.localPlayer ∧ index = d.netMan.getIndex
            ∧ frame = d.netMan.getFrame + d.netMan.getDelay) →
        (c.onLogs build.NUM_INPUTS d.netMan logs) player index frame
          = logs player index frame) ∧
      (∀ netMan : NetplayManager, netMan.getIndex = d.netMan.getIndex →
        netMan.getFrame = d.netMan.getFrame + d.netMan.getDelay →
        netMan.getInput (c.onLogs build.NUM_INPUTS d.netMan logs) d.localPlayer
          = some d.localInputs0) := by
    intro c hc
    rw [hc]
    refine ⟨by simp [InputLogs.set, InputLog.assign], ?_, ?_⟩
    · intro player index frame hne
      simp only [InputLogs.set, InputLog.assign]
      by_cases hp : player = d.localPlayer
      · subst hp
        have hne2 : ¬ (index = d.netMan.getIndex
            ∧ frame = d.netMan.getFrame + d.netMan.getDelay) := fun h => hne ⟨rfl, h⟩
        simp [InputLog.assign, hne2]
      · simp [hp]
    · intro netMan hi hf
      simp [NetplayManager.getInput, InputLogs.set, InputLog.assign, hi, hf]
  unfold assignLocalInput
  rw [hspec]
  simp only [Bool.false_eq_true, if_false]
  split_ifs
  · exact ⟨_, rfl, key _ (by simp only [NetCall.onLogs, Nat.mod_eq_of_lt hwrap])⟩
  · exact ⟨_, rfl, key _ (by simp only [NetCall.onLogs, Nat.mod_eq_of_lt hwrap])⟩

/-- Witness of C18: with delay 2 and rollback 0, the input 0x21 entered at frame 1:10 is
in the log of player 1 at frame 1:12. -/
theorem assignLocalInput_at_frame_plus_delay_witness :
    inputPeer.netMan.getDelay = 2 ∧ inputPeer.netMan.config.rollback = 0 ∧
    inputPeer.netMan.getIndexedFrame = ⟨1, 10⟩ ∧
    ∃ c, (assignLocalInput {} {} inputPeer).calls = [] ++ [.netMan c] ∧
      (c.onLogs 15 inputPeer.netMan (fun _ => emptyLog)) 1 1 (10 + 2) = some 0x21 := by
  refine ⟨rfl, rfl, rfl, ?_⟩
  obtain ⟨c, h1, h2, _⟩ :=
    assignLocalInput_at_frame_plus_delay {} {} inputPeer (fun _ => emptyLog) rfl
      (by decide)
  exact ⟨c, h1, h2⟩

/-- C19: merging a window into a log is idempotent: for every log and every window,
merging the window twice gives the log that merging it once gives. -/
theorem mergeWindow_idempotent (NUM_INPUTS : Nat) (log : InputLog) (w : PlayerInputs) :
    (log.mergeWindow NUM_INPUTS w).mergeWindow NUM_INPUTS w
      = log.mergeWindow NUM_INPUTS w := by
  funext i f
  simp only [InputLog.mergeWindow]
  split <;> simp_all

/-- C20: merging windows does not depend on the order: for every log and every two
windows `a` and `b` that agree on the frames they share, merging `a` then `b` gives the
log that merging `b` then `a` gives. -/
theorem mergeWindow_comm_of_agree (NUM_INPUTS : Nat) (log : InputLog) (a b : PlayerInputs)
    (h : PlayerInputs.Agree NUM_INPUTS a b) :
    (log.mergeWindow NUM_INPUTS a).mergeWindow NUM_INPUTS b
      = (log.mergeWindow NUM_INPUTS b).mergeWindow NUM_INPUTS a := by
  funext i f
  simp only [InputLog.mergeWindow]
  by_cases ha : i = a.getIndex <;> by_cases hb : i = b.getIndex
  · have hab : a.getIndex = b.getIndex := ha.symm.trans hb
    rw [if_pos ha, if_pos hb]
    cases hA : a.inputAt NUM_INPUTS f with
    | none => cases hB : b.inputAt NUM_INPUTS f <;> rfl
    | some x =>
      cases hB : b.inputAt NUM_INPUTS f with
      | none => rfl
      | some y =>
        have hf : f < a.getEndFrame := by
          unfold PlayerInputs.inputAt at hA
          split_ifs at hA with hr
          exact hr.2
        rcases h hab f hf with h1 | h1 | h1
        · rw [hA] at h1; cases h1
        · rw [hB] at h1; cases h1
        · rw [hA, hB] at h1
          simp only [h1]
  · rw [if_pos ha, if_neg hb]
  · rw [if_neg ha, if_pos hb]
  · rw [if_neg ha, if_neg hb]

/-- Witness of C20: the windows of the frames 1:3 to 1:5 and 1:4 to 1:6 overlap on the
frames 1:4 and 1:5, where they agree; merged in either order they give the same log, in
which frame 1:4 holds the input 11. -/
theorem mergeWindow_comm_of_agree_witness :
    (emptyLog.mergeWindow 3 windowA).mergeWindow 3 windowB
      = (emptyLog.mergeWindow 3 windowB).mergeWindow 3 windowA ∧
    (emptyLog.mergeWindow 3 windowA).mergeWindow 3 windowB 1 4 = some 11 :=
  ⟨mergeWindow_comm_of_agree 3 emptyLog windowA windowB (by decide), by decide⟩

/-- C23 fails on the code: for the increasing queues 0:1, 0:5 (local) and 0:3 (remote)
the only evaluation of `L == R` is on the fronts 0:5 and 0:3, which carry different
frames: the remote entry 0:3, strictly less than the local front 0:5, was not dropped
first. -/
theorem comparedFronts_misaligned :
    SyncHash.Increasing spuriousLocalSync ∧ SyncHash.Increasing spuriousRemoteSync ∧
    comparedFronts (spuriousLocalSync.length + 1) spuriousLocalSync spuriousRemoteSync
      = [(⟨⟨0, 5⟩, 8⟩, ⟨⟨0, 3⟩, 9⟩)] ∧
    (IndexedFrame.mk 0 3).value < (IndexedFrame.mk 0 5).value ∧
    compareSync spuriousLocalSync spuriousRemoteSync
      = .desync [⟨⟨0, 5⟩, 8⟩] [⟨⟨0, 3⟩, 9⟩] := by
  decide

/-! ### The fast forward -/

/-- A call that is not live leaves the live view untouched. -/
theorem DllMain.liveView_push (d : DllMain) (c : Call) (h : c.isLive = false) :
    (d.push c).liveView = d.liveView := by
  simp [DllMain.liveView, DllMain.push, List.filter_append, h]

/-- A `NetplayManager` call leaves the live view untouched. -/
@[simp] theorem DllMain.liveView_netCall (d : DllMain) (env : Env) (c : NetCall) :
    (d.netCall env c).liveView = d.liveView := by
  simp [DllMain.liveView, DllMain.netCall, List.filter_append, Call.isLive]

/-- Assigning `roundOverTimer` leaves the live view untouched. -/
@[simp] theorem DllMain.liveView_setRoundOverTimer (d : DllMain) (v) :
    (d.setRoundOverTimer v).liveView = d.liveView := rfl

/-- Assigning `lazyDisconnect` leaves the live view untouched. -/
@[simp] theorem DllMain.liveView_setLazyDisconnect (d : DllMain) (v) :
    (d.setLazyDisconnect v).liveView = d.liveView := rfl

/-- Assigning `shouldSyncRngState` leaves the live view untouched. -/
@[simp] theorem DllMain.liveView_setShouldSyncRngState (d : DllMain) (v) :
    (d.setShouldSyncRngState v).liveView = d.liveView := rfl

/-- Assigning `localRetryMenuIndexSent` leaves the live view untouched. -/
@[simp] theorem DllMain.liveView_setLocalRetryMenuIndexSent (d : DllMain) (v) :
    (d.setLocalRetryMenuIndexSent v).liveView = d.liveView := rfl

/-- Assigning `stopTimer` leaves the live view untouched. -/
@[simp] theorem DllMain.liveView_setStopTimer (d : DllMain) (v) :
    (d.setStopTimer v).liveView = d.liveView := rfl

/-- Assigning the intro state leaves the live view untouched. -/
@[simp] theorem DllMain.liveView_setIntroState (d : DllMain) (v) :
    (d.setIntroState v).liveView = d.liveView := rfl

/-- Assigning the skip flag leaves the live view untouched. -/
@[simp] theorem DllMain.liveView_setSkipFrames (d : DllMain) (v) :
    (d.setSkipFrames v).liveView = d.liveView := rfl

/-- A continuation that leaves the live view untouched can be dropped. -/
theorem liveView_andThen (f : Flow) (k : DllMain → Flow)
    (hk : ∀ d, (k d).state.liveView = d.liveView) :
    (f.andThen k).state.liveView = f.state.liveView := by
  cases f <;> simp [Flow.andThen, hk]

/-- `delayedStop` leaves the live view untouched. -/
@[simp] theorem liveView_delayedStop (d : DllMain) (error : String) :
    (delayedStop d error).liveView = d.liveView := by
  unfold delayedStop
  split
  · exact (DllMain.liveView_setStopTimer _ _).trans (DllMain.liveView_push d _ rfl)
  · rfl

/-- `netplayStateChanged` leaves the live view untouched. -/
@[simp] theorem liveView_netplayStateChanged (env : Env) (d : DllMain)
    (state : NetplayState) :
    (netplayStateChanged env d state).state.liveView = d.liveView := by
  unfold netplayStateChanged
  simp [apply_ite Flow.state, apply_ite DllMain.liveView, DllMain.liveView_push,
    Call.isLive]

/-- `startRoundOverCountDown` leaves the live view untouched. -/
@[simp] theorem liveView_startRoundOverCountDown (d : DllMain) :
    (startRoundOverCountDown d).state.liveView = d.liveView := by
  unfold startRoundOverCountDown
  simp [apply_ite Flow.state, apply_ite DllMain.liveView, DllMain.liveView_push,
    Call.isLive]

/-- `checkRoundOver` leaves the live view untouched. -/
@[simp] theorem liveView_checkRoundOver (env : Env) (d : DllMain) :
    (checkRoundOver env d).state.liveView = d.liveView := by
  unfold checkRoundOver
  simp [apply_ite Flow.state, apply_ite DllMain.liveView, DllMain.liveView_push,
    Call.isLive]

/-- `gameModeChanged` leaves the live view untouched. -/
@[simp] theorem liveView_gameModeChanged (build : Build) (env : Env) (d : DllMain)
    (previous current : GameMode) :
    (gameModeChanged build env d previous current).state.liveView = d.liveView := by
  unfold gameModeChanged
  simp [apply_ite Flow.state, apply_ite DllMain.liveView, DllMain.liveView_push,
    Call.isLive]

/-- `hasChanged` leaves the live view untouched. -/
@[simp] theorem liveView_hasChanged (build : Build) (env : Env) (d : DllMain)
    (c : Change) : (hasChanged build env d c).state.liveView = d.liveView := by
  cases c <;>
    simp [hasChanged, apply_ite Flow.state, apply_ite DllMain.liveView,
      DllMain.liveView_push, Call.isLive]

/-- `monitorCheck` leaves the live view untouched. -/
@[simp] theorem liveView_monitorCheck (build : Build) (env : Env) (cs : List Change) :
    ∀ d : DllMain, (monitorCheck build env cs d).state.liveView = d.liveView := by
  induction cs with
  | nil =>
    intro d
    rfl
  | cons c cs ih =>
    intro d
    unfold monitorCheck
    rw [liveView_andThen _ _ ih, liveView_hasChanged]

/-- Clearing the intro state leaves the live view untouched. -/
@[simp] theorem liveView_clearIntroState (d : DllMain) :
    (clearIntroState d).liveView = d.liveView := by
  unfold clearIntroState
  split <;> rfl

/-- Updating the spectators and writing the inputs leaves the live view untouched. -/
@[simp] theorem liveView_closeStep (d : DllMain) :
    (closeStep d).liveView = d.liveView := by
  unfold closeStep
  simp [DllMain.liveView_push, Call.isLive]

/-- `frameStepRerun` writes one line to the sync log and makes no other live call. -/
theorem liveCalls_frameStepRerun (build : Build) (d : DllMain) :
    (frameStepRerun build d).calls.filter Call.isLive
      = d.calls.filter Call.isLive ++ [.logSync] := by
  unfold frameStepRerun
  simp only []
  split_ifs <;> simp [DllMain.push, DllMain.setSkipFrames, DllMain.setFastFwdStopFrame,
    List.filter_append, Call.isLive]

/-- A frame step that starts with a stop frame set: a monitor callback throws, or the
step is `frameStepRerun` on a state with the same stop frame and live calls. -/
theorem frameStep_rerun_cases (build : Build) (env : Env) (d : DllMain)
    (h : d.fastFwdStopFrame.value ≠ 0) :
    (∃ d1, d1.liveView = d.liveView ∧ frameStep build env d = .thrown d1)
    ∨ (∃ d1, d1.liveView = d.liveView
        ∧ frameStep build env d = .finished (closeStep (frameStepRerun build d1))) := by
  have h0 : ((d.netCall env .updateFrame).push .clearInputs).liveView = d.liveView := by
    rw [DllMain.liveView_push _ Call.clearInputs rfl, DllMain.liveView_netCall]
  have hm := liveView_monitorCheck build env env.changes
    ((d.netCall env .updateFrame).push .clearInputs)
  rw [h0] at hm
  have body : ∀ d1 : DllMain, d1.liveView = d.liveView →
      frameStepBody build env d1
        = .finished (closeStep (frameStepRerun build (clearIntroState d1))) := by
    intro d1 h1
    have hf : (clearIntroState d1).fastFwdStopFrame = d.fastFwdStopFrame :=
      congrArg Prod.fst ((liveView_clearIntroState d1).trans h1)
    unfold frameStepBody performStep
    rw [hf, if_pos h]
  unfold frameStep
  cases hf : monitorCheck build env env.changes
      ((d.netCall env .updateFrame).push .clearInputs) with
  | thrown d1 =>
    rw [hf] at hm
    exact Or.inl ⟨d1, hm, rfl⟩
  | next d1 =>
    rw [hf] at hm
    exact Or.inr ⟨clearIntroState d1, (liveView_clearIntroState d1).trans hm, body d1 hm⟩
  | returned d1 =>
    rw [hf] at hm
    exact Or.inr ⟨clearIntroState d1, (liveView_clearIntroState d1).trans hm, body d1 hm⟩

/-- C24, as stated, fails: a frame step that re-runs frame 1:21 towards the stop frame
1:23 writes a line to the sync log. -/
theorem frameStep_rerun_logs_counterexample :
    (rerunPeer 21).fastFwdStopFrame.value ≠ 0 ∧
    (frameStep {} {} (rerunPeer 21)).state.calls
      = [.netMan .updateFrame, .clearInputs, .logSync, .frameStepSpectators,
         .writeGameInput 1, .writeGameInput 2] ∧
    Call.logSync ∈ (frameStep {} {} (rerunPeer 21)).state.calls := by
  decide

/-- C24, amended: a frame step that starts with `fastFwdStopFrame` nonzero never waits;
when it finishes it has run `frameStepRerun`, not `frameStepNormal`, and of the live
calls (sending the input window, a `ChangeConfig` or a `SyncHash`, saving a state,
polling, writing to the sync log) it has made exactly one, the log line of
`frameStepRerun`; when a monitor callback throws it has made none. -/
theorem frameStep_rerun_quiet (build : Build) (env : Env) (d : DllMain)
    (h : d.fastFwdStopFrame.value ≠ 0) :
    (∀ d2, frameStep build env d = .finished d2 →
      (∃ d1, d1.fastFwdStopFrame = d.fastFwdStopFrame
        ∧ d2 = closeStep (frameStepRerun build d1))
      ∧ d2.calls.filter Call.isLive = d.calls.filter Call.isLive ++ [.logSync]) ∧
    (∀ d2, frameStep build env d = .thrown d2 →
      d2.calls.filter Call.isLive = d.calls.filter Call.isLive) ∧
    (∀ d2, frameStep build env d ≠ .waiting d2) := by
  rcases frameStep_rerun_cases build env d h with ⟨d1, h1, he⟩ | ⟨d1, h1, he⟩
  · refine ⟨?_, ?_, ?_⟩
    · intro d2 h2
      rw [he] at h2
      cases h2
    · intro d2 h2
      rw [he] at h2
      cases h2
      exact congrArg Prod.snd h1
    · intro d2 h2
      rw [he] at h2
      cases h2
  · refine ⟨?_, ?_, ?_⟩
    · intro d2 h2
      rw [he] at h2
      cases h2
      refine ⟨⟨d1, congrArg Prod.fst h1, rfl⟩, ?_⟩
      have hc := congrArg Prod.snd (liveView_closeStep (frameStepRerun build d1))
      have h3 : d1.calls.filter Call.isLive = d.calls.filter Call.isLive :=
        congrArg Prod.snd h1
      exact hc.trans ((liveCalls_frameStepRerun build d1).trans (by rw [h3]))
    · intro d2 h2
      rw [he] at h2
      cases h2
    · intro d2 h2
      rw [he] at h2
      cases h2

/-- Witness of C24 amended: the step that re-runs frame 1:21 makes one live call, the
log line. -/
theorem frameStep_rerun_quiet_witness :
    (frameStep {} {} (rerunPeer 21)).state.calls.filter Call.isLive = [.logSync] :=
  ((frameStep_rerun_quiet {} {} (rerunPeer 21) (by decide)).1 _ rfl).2

/-- The stop frame that `frameStepRerun` leaves. -/
theorem frameStepRerun_fastFwdStopFrame (build : Build) (d : DllMain) :
    (frameStepRerun build d).fastFwdStopFrame
      = if d.netMan.getIndexedFrame.value ≥ d.fastFwdStopFrame.value then ⟨0, 0⟩
        else d.fastFwdStopFrame := by
  unfold frameStepRerun
  by_cases hge : d.netMan.getIndexedFrame.value ≥ d.fastFwdStopFrame.value
  · simp only [hge, if_true]
    split_ifs <;> rfl
  · simp only [hge, if_false]
    split_ifs <;> rfl

/-- The skip flag that `frameStepRerun` leaves. -/
theorem frameStepRerun_skipFrames (build : Build) (d : DllMain) :
    (frameStepRerun build d).skipFrames
      = if build.release = false ∧ d.replayInputs = true then 1
        else if (frameStepRerun build d).fastFwdStopFrame.value ≠ 0 then 1 else 0 := by
  have key : ∀ d1 : DllMain,
      ((if build.release = false ∧ (d1.setSkipFrames
            (if d1.fastFwdStopFrame.value ≠ 0 then 1 else 0)).replayInputs = true
        then (d1.setSkipFrames (if d1.fastFwdStopFrame.value ≠ 0 then 1 else 0)
          ).setSkipFrames 1
        else d1.setSkipFrames (if d1.fastFwdStopFrame.value ≠ 0 then 1 else 0)).push
          .logSync).skipFrames
        = (if build.release = false ∧ d1.replayInputs = true then 1
           else if d1.fastFwdStopFrame.value ≠ 0 then 1 else 0) ∧
      ((if build.release = false ∧ (d1.setSkipFrames
            (if d1.fastFwdStopFrame.value ≠ 0 then 1 else 0)).replayInputs = true
        then (d1.setSkipFrames (if d1.fastFwdStopFrame.value ≠ 0 then 1 else 0)
          ).setSkipFrames 1
        else d1.setSkipFrames (if d1.fastFwdStopFrame.value ≠ 0 then 1 else 0)).push
          .logSync).fastFwdStopFrame = d1.fastFwdStopFrame := by
    intro d1
    by_cases hrep : build.release = false ∧ d1.replayInputs = true
    · have hrep2 : build.release = false ∧ (d1.setSkipFrames
          (if d1.fastFwdStopFrame.value ≠ 0 then 1 else 0)).replayInputs = true := hrep
      rw [if_pos hrep2, if_pos hrep]
      exact ⟨rfl, rfl⟩
    · have hrep2 : ¬ (build.release = false ∧ (d1.setSkipFrames
          (if d1.fastFwdStopFrame.value ≠ 0 then 1 else 0)).replayInputs = true) := hrep
      rw [if_neg hrep2, if_neg hrep]
      exact ⟨rfl, rfl⟩
  have hr : (if d.netMan.getIndexedFrame.value ≥ d.fastFwdStopFrame.value
      then d.setFastFwdStopFrame ⟨0, 0⟩ else d).replayInputs = d.replayInputs := by
    split_ifs <;> rfl
  have e := key (if d.netMan.getIndexedFrame.value ≥ d.fastFwdStopFrame.value
      then d.setFastFwdStopFrame ⟨0, 0⟩ else d)
  rw [hr] at e
  have e1 : (frameStepRerun build d).skipFrames
      = (if build.release = false ∧ d.replayInputs = true then 1
         else if (if d.netMan.getIndexedFrame.value ≥ d.fastFwdStopFrame.value
            then d.setFastFwdStopFrame ⟨0, 0⟩ else d).fastFwdStopFrame.value ≠ 0
          then 1 else 0) := e.1
  have e2 : (frameStepRerun build d).fastFwdStopFrame
      = (if d.netMan.getIndexedFrame.value ≥ d.fastFwdStopFrame.value
          then d.setFastFwdStopFrame ⟨0, 0⟩ else d).fastFwdStopFrame := e.2
  rw [e1, e2]

/-- C25: while a stop frame `S` is set, `frameStepRerun` clears `fastFwdStopFrame`
exactly when the packed value of the current frame is at least that of `S`; outside the
replay test the skip flag is 1 iff the stop frame is still set afterwards and 0
otherwise, and in the replay test it is 1. -/
theorem frameStepRerun_clears_at_stop_frame (build : Build) (d : DllMain)
    (hS : d.fastFwdStopFrame.value ≠ 0) :
    -- the stop frame is cleared exactly when the current frame has reached it
    ((frameStepRerun build d).fastFwdStopFrame
      = if d.netMan.getIndexedFrame.value ≥ d.fastFwdStopFrame.value then ⟨0, 0⟩
        else d.fastFwdStopFrame) ∧
    ((frameStepRerun build d).fastFwdStopFrame.value = 0
      ↔ d.netMan.getIndexedFrame.value ≥ d.fastFwdStopFrame.value) ∧
    -- outside the replay test, frames are skipped iff the fast forward goes on
    ((build.release = true ∨ d.replayInputs = false) →
      (frameStepRerun build d).skipFrames
        = if (frameStepRerun build d).fastFwdStopFrame.value ≠ 0 then 1 else 0) ∧
    (build.release = false → d.replayInputs = true →
      (frameStepRerun build d).skipFrames = 1) := by
  have hz : (IndexedFrame.mk 0 0).value = 0 := by decide
  refine ⟨frameStepRerun_fastFwdStopFrame build d, ?_, ?_, ?_⟩
  · rw [frameStepRerun_fastFwdStopFrame]
    by_cases hge : d.netMan.getIndexedFrame.value ≥ d.fastFwdStopFrame.value
    · rw [if_pos hge]
      exact ⟨fun _ => hge, fun _ => hz⟩
    · rw [if_neg hge]
      exact ⟨fun h => absurd h hS, fun h => absurd h hge⟩
  · intro hr
    rw [frameStepRerun_skipFrames, if_neg]
    rintro ⟨h1, h2⟩
    rcases hr with h | h
    · rw [h] at h1; cases h1
    · rw [h] at h2; cases h2
  · intro h1 h2
    rw [frameStepRerun_skipFrames, if_pos ⟨h1, h2⟩]

/-- Witness of C25: with the stop frame 1:23, the rerun of frame 1:21 keeps the stop
frame and skips frames, the rerun of frame 1:23 clears it and stops skipping. -/
theorem frameStepRerun_clears_at_stop_frame_witness :
    (frameStepRerun {} (rerunPeer 21)).fastFwdStopFrame = ⟨1, 23⟩ ∧
    (frameStepRerun {} (rerunPeer 21)).skipFrames = 1 ∧
    (frameStepRerun {} (rerunPeer 23)).fastFwdStopFrame = ⟨0, 0⟩ ∧
    (frameStepRerun {} (rerunPeer 23)).skipFrames = 0 :=
  ⟨(frameStepRerun_clears_at_stop_frame {} (rerunPeer 21) (by decide)).1.trans
      (by decide),
    ((frameStepRerun_clears_at_stop_frame {} (rerunPeer 21) (by decide)).2.2.1
      (Or.inl rfl)).trans (by decide),
    (frameStepRerun_clears_at_stop_frame {} (rerunPeer 23) (by decide)).1.trans
      (by decide),
    ((frameStepRerun_clears_at_stop_frame {} (rerunPeer 23) (by decide)).2.2.1
      (Or.inl rfl)).trans (by decide)⟩

/-- C26: `readEvent` on a socket that is in `redirectedSockets` returns with the state
unchanged, whatever the message: the socket does not become a spectator, nothing is
sent and the `NetplayManager` is not touched. -/
theorem readEvent_redirected_no_effect (build : Build) (env : Env) (d : DllMain)
    (socket : SocketId) (msg : Option Msg) (h : socket ∈ d.redirectedSockets) :
    readEvent build env d socket msg = .returned d ∧
    (readEvent build env d socket msg).state.spectators = d.spectators ∧
    (readEvent build env d socket msg).state.pendingSockets = d.pendingSockets ∧
    (readEvent build env d socket msg).state.calls = d.calls ∧
    (readEvent build env d socket msg).state.netMan = d.netMan := by
  have e : readEvent build env d socket msg = .returned d := by
    cases msg with
    | none => rfl
    | some m => simp [readEvent, h]
  rw [e]
  exact ⟨rfl, rfl, rfl, rfl, rfl⟩

/-- Witness of C26: the redirected and pending socket 5 sends its `IpAddrPort`, which
would make a pending socket a spectator; nothing changes. -/
theorem readEvent_redirected_no_effect_witness :
    (readEvent {} {} relayPeer 5 (some (.ipAddrPort 4000))).state.spectators = [5, 8] ∧
    (readEvent {} {} relayPeer 5 (some (.ipAddrPort 4000))).state.pendingSockets = [5, 6]
    ∧ (readEvent {} {} relayPeer 5 (some (.versionConfig true))).state.calls = [] :=
  ⟨(readEvent_redirected_no_effect {} {} relayPeer 5 (some (.ipAddrPort 4000))
      (by decide)).2.1,
    (readEvent_redirected_no_effect {} {} relayPeer 5 (some (.ipAddrPort 4000))
      (by decide)).2.2.1,
    (readEvent_redirected_no_effect {} {} relayPeer 5 (some (.versionConfig true))
      (by decide)).2.2.2.1⟩

/-- What `dropWhile` leaves behind its first entry is shorter than the queue. -/
theorem length_dropWhile_lt_of_cons (p : SyncHash → Bool) (xs : List SyncHash)
    (y : SyncHash) (ys : List SyncHash) (h : xs.dropWhile p = y :: ys) :
    ys.length < xs.length := by
  have h1 : (xs.dropWhile p).length ≤ xs.length := (List.dropWhile_sublist p).length_le
  rw [h] at h1
  simp only [List.length_cons] at h1
  omega

/-- One iteration of the outer loop: it leaves the loop with one of the queues empty, or
it reports a desync, or it goes on with queues that are both shorter. -/
theorem compareSyncLoop_step (fuel : Nat) (l r : List SyncHash) :
    (∃ l2 r2, compareSyncLoop (fuel + 1) l r = some (.compared l2 r2)
        ∧ (l2 = [] ∨ r2 = []))
    ∨ (∃ l2 r2, compareSyncLoop (fuel + 1) l r = some (.desync l2 r2))
    ∨ (∃ l2 r2, l2.length < l.length ∧ r2.length < r.length
        ∧ compareSyncLoop (fuel + 1) l r = compareSyncLoop fuel l2 r2) := by
  match l, r with
  | [], r => exact Or.inl ⟨[], r, by simp [compareSyncLoop], Or.inl rfl⟩
  | l :: ls, [] => exact Or.inl ⟨l :: ls, [], by simp [compareSyncLoop], Or.inr rfl⟩
  | l :: ls, r :: rs =>
    generalize hg : compareSyncLoop fuel = g
    unfold compareSyncLoop
    rw [hg]
    cases hR : (r :: rs).dropWhile
        (fun x => l.indexedFrame.value > x.indexedFrame.value) with
    | nil => exact Or.inl ⟨_, _, rfl, Or.inr rfl⟩
    | cons r2 rs2 =>
      simp only []
      cases hL : (l :: ls).dropWhile
          (fun x => r2.indexedFrame.value > x.indexedFrame.value) with
      | nil => exact Or.inl ⟨_, _, rfl, Or.inl rfl⟩
      | cons l2 ls2 =>
        simp only []
        by_cases he : l2.equals r2 = true
        · rw [if_pos he]
          exact Or.inr (Or.inr ⟨ls2, rs2, length_dropWhile_lt_of_cons _ _ _ _ hL,
            length_dropWhile_lt_of_cons _ _ _ _ hR, rfl⟩)
        · rw [if_neg he]
          exact Or.inr (Or.inl ⟨_, _, rfl⟩)

/-- The comparison loop ends: more fuel than the local queue is long is enough, and
when no desync is found one of the two queues is left empty. -/
theorem compareSyncLoop_isSome (fuel : Nat) :
    ∀ l r : List SyncHash, l.length < fuel →
      (∃ l2 r2, compareSyncLoop fuel l r = some (.compared l2 r2) ∧ (l2 = [] ∨ r2 = []))
      ∨ (∃ l2 r2, compareSyncLoop fuel l r = some (.desync l2 r2)) := by
  induction fuel with
  | zero => intro l r h; omega
  | succ fuel ih =>
    intro l r h
    rcases compareSyncLoop_step fuel l r with h1 | h1 | ⟨l2, r2, hl, _, he⟩
    · exact Or.inl h1
    · exact Or.inr h1
    · rw [he]
      exact ih l2 r2 (by omega)

/-- C27: for all queues the comparison loop ends.  Every iteration of the outer loop
leaves the loop, reports a desync, or goes on with both queues shorter, so
`localSync.length + 1` iterations are enough; when the loop ends without a desync one of
the two queues is empty; and with an empty queue the other one is left as it is. -/
theorem compareSyncLoop_terminates (localSync remoteSync : List SyncHash) :
    -- one iteration of the outer loop
    (∀ fuel,
      (∃ l r, compareSyncLoop (fuel + 1) localSync remoteSync = some (.compared l r)
          ∧ (l = [] ∨ r = []))
      ∨ (∃ l r, compareSyncLoop (fuel + 1) localSync remoteSync = some (.desync l r))
      ∨ (∃ l r, l.length < localSync.length ∧ r.length < remoteSync.length
          ∧ compareSyncLoop (fuel + 1) localSync remoteSync = compareSyncLoop fuel l r)) ∧
    -- the loop ends within `localSync.length + 1` iterations of the outer loop
    ((∃ l r, compareSyncLoop (localSync.length + 1) localSync remoteSync
          = some (.compared l r) ∧ (l = [] ∨ r = []))
      ∨ (∃ l r, compareSyncLoop (localSync.length + 1) localSync remoteSync
          = some (.desync l r))) ∧
    -- when it ends without a desync one of the queues is empty
    (∀ l r, compareSync localSync remoteSync = .compared l r → l = [] ∨ r = []) ∧
    -- an empty queue leaves the other as it is
    compareSync [] remoteSync = .compared [] remoteSync ∧
    compareSync localSync [] = .compared localSync [] := by
  have h := compareSyncLoop_isSome (localSync.length + 1) localSync remoteSync
    (Nat.lt_succ_self _)
  refine ⟨fun fuel => compareSyncLoop_step fuel localSync remoteSync, h, ?_, ?_, ?_⟩
  · intro l r hc
    unfold compareSync at hc
    rcases h with ⟨l2, r2, he, hor⟩ | ⟨l2, r2, he⟩
    · rw [he] at hc
      simp only [SyncOutcome.compared.injEq] at hc
      rw [← hc.1, ← hc.2]
      exact hor
    · rw [he] at hc
      cases hc
  · simp [compareSync, compareSyncLoop]
  · cases localSync <;> simp [compareSync, compareSyncLoop]

/-- C28: when the normal rollback is taken (rollback active and the last changed frame
before the current frame), `fastFwdStopFrame` is set to the current frame, whose packed
value is not 0; and when `loadState` then fails the rollback block is left at its end
with `fastFwdStopFrame` still set to that frame. -/
theorem normalRollback_stop_frame_nonzero (env : Env) (d : DllMain)
    (hroll : d.netMan.isInRollback = true)
    (hlast : d.netMan.getLastChangedFrame.value < d.netMan.getIndexedFrame.value) :
    (normalRollback env d).state.fastFwdStopFrame = d.netMan.getIndexedFrame ∧
    (normalRollback env d).state.fastFwdStopFrame.value ≠ 0 ∧
    ((env.loadState d.netMan.getLastChangedFrame d.netMan).1 = false →
      ∃ d2, normalRollback env d = .next d2 ∧
        d2.fastFwdStopFrame = d.netMan.getIndexedFrame) := by
  have e : normalRollback env d
      = startFastForward ((d.setFastFwdStopFrame d.netMan.getIndexedFrame).loadState env
          d.netMan.getLastChangedFrame) := by
    unfold normalRollback
    rw [if_pos ⟨hroll, hlast⟩]
  have hs : (normalRollback env d).state.fastFwdStopFrame = d.netMan.getIndexedFrame := by
    rw [e]
    unfold startFastForward
    split_ifs <;> rfl
  refine ⟨hs, ?_, ?_⟩
  · rw [hs]; omega
  · intro hf
    rw [e]
    unfold startFastForward
    have hf2 : ((d.setFastFwdStopFrame d.netMan.getIndexedFrame).loadState env
        d.netMan.getLastChangedFrame).2 = false := hf
    rw [hf2]
    exact ⟨_, rfl, rfl⟩

/-- Witness of C28: at frame 1:23 the input of frame 1:20 changed and `loadState` fails:
the stop frame is 1:23 and stays so. -/
theorem normalRollback_stop_frame_nonzero_witness :
    (normalRollback (staleInputEnv ⟨1, 20⟩) lateInputPeer).state.fastFwdStopFrame
      = ⟨1, 23⟩ ∧
    (IndexedFrame.mk 1 23).value = 4294967319 :=
  ⟨(normalRollback_stop_frame_nonzero (staleInputEnv ⟨1, 20⟩) lateInputPeer rfl
      (by decide)).1,
    by decide⟩

/-- C29: for every frame counter, with `frame + 1` reduced modulo `2^32`, the window
starts no later than it ends, `size()` is the difference and is at most `NUM_INPUTS`, so
a frame of the window is less than `NUM_INPUTS` past its start; at the last frame
`2^32 - 1`, where `frame + 1` wraps to 0, the window is empty. -/
theorem window_range_within_inputs (NUM_INPUTS : Nat) (b : BaseInputs) :
    b.getStartFrame NUM_INPUTS ≤ b.getEndFrame ∧
    b.size NUM_INPUTS ≤ NUM_INPUTS ∧
    b.size NUM_INPUTS = b.getEndFrame - b.getStartFrame NUM_INPUTS ∧
    (∀ frame, b.getStartFrame NUM_INPUTS ≤ frame → frame < b.getEndFrame →
      frame - b.getStartFrame NUM_INPUTS < NUM_INPUTS) ∧
    (b.indexedFrame.frame = 2 ^ 32 - 1 →
      b.getEndFrame = 0 ∧ b.getStartFrame NUM_INPUTS = 0 ∧ b.size NUM_INPUTS = 0) := by
  unfold BaseInputs.size BaseInputs.getStartFrame BaseInputs.getEndFrame
  have h2 : (2 : Nat) ^ 32 = 4294967296 := by norm_num
  rw [h2]
  split_ifs with h
  · refine ⟨by omega, by omega, by omega, ?_, ?_⟩
    · intro frame _ h3
      omega
    · intro h4
      omega
  · refine ⟨by omega, by omega, by omega, ?_, ?_⟩
    · intro frame h4 h3
      omega
    · intro h4
      omega

/-- C30: for 8-bit `delay` and `rollback`, `getOffset()` is `delay - rollback` when
`delay >= rollback` and 0 otherwise: it is the difference of the integers cut off at 0,
it is `delay` when `rollback` is 0, it is never greater than `delay`, and it fits 8
bits. -/
theorem getOffset_saturating (c : NetplayConfig) (hd : c.delay < 2 ^ 8)
    (hr : c.rollback < 2 ^ 8) :
    c.getOffset = (if c.rollback ≤ c.delay then c.delay - c.rollback else 0) ∧
    ((c.getOffset : Int) = max 0 ((c.delay : Int) - (c.rollback : Int))) ∧
    (c.rollback = 0 → c.getOffset = c.delay) ∧
    c.getOffset ≤ c.delay ∧ c.getOffset < 2 ^ 8 := by
  unfold NetplayConfig.getOffset
  have h2 : (2 : Nat) ^ 8 = 256 := by norm_num
  rw [h2] at hd hr ⊢
  split_ifs <;> refine ⟨?_, ?_, ?_, ?_, ?_⟩ <;> omega

/-- Witness of C30: delay 2 and rollback 5 give the offset 0, delay 5 and rollback 2 the
offset 3. -/
theorem getOffset_saturating_witness :
    deepRollbackConfig.getOffset = 0 ∧ longDelayConfig.getOffset = 3 :=
  ⟨(getOffset_saturating deepRollbackConfig (by decide) (by decide)).1.trans (by decide),
    (getOffset_saturating longDelayConfig (by decide) (by decide)).1.trans (by decide)⟩

end CCCaster
